import Mathlib

/-!
Message access policy of the client/agent chat application.

A shallow embedding of the policy routes of the repository:

* `src/setup-db.js`                                  : the relational schema
* `src/lib/queries.js`                               : the query helpers
* `src/app/api/direct-messages/[userId]/route.js`    : direct-message read and send
* `src/app/api/groups/[groupId]/messages/route.js`   : group-message read and send
* `src/app/api/groups/route.js`                      : group creation
* `src/app/api/private-notes/**/route.js`            : private notes
* `src/app/lib/whatsapp-utils.js`                    : phone normaliser and redirect URL
* `src/lib/admin-session.js`                         : admin session map
* `src/app/api/admin/dashboard/route.js`             : guarded admin dashboard
* `src/app/api/admin123321/**/route.js`              : admin dashboard and users
* `src/app/api/auth/register/route.js`               : registration
* `src/app/api/conversations/route.js`               : conversation list

The store is a record of row lists.  A handler is a function of the store, the
session and the request; a handler that writes also returns the new store.
Identifiers are the integers obtained after `parseInt`; timestamps are natural
numbers (the value of `CURRENT_TIMESTAMP` when a statement runs) and the value a
`SERIAL` column draws from its sequence is an argument of the insert.  The
constraints declared in the schema (`NOT NULL`, `REFERENCES`, `CHECK`) are
enforced by the insert; a violated constraint is the exception the route's
`catch` turns into a 500 response.  The insert into `groups` also enforces the
primary key.  The inserts into `messages` and `private_notes` also reject what
the server rejects in their text parameters: the character U+0000, a title
longer than `VARCHAR(255)` and `tags` that are not an array.  The group-message
handlers and the direct read answer 500 for a path id that is outside `INTEGER`
(for the group handlers also `NaN`), as the first query of the handler does; the
other handlers are given ids inside `INTEGER`.  Strings are sequences of Unicode
scalar values.  Names are ordered code point by code point, and rows that tie in
an `ORDER BY` keep the order of the insertion sort.
-/

set_option autoImplicit false
set_option maxRecDepth 8192

namespace ChatApp

/-! ## Schema (`src/setup-db.js`) -/

/-- Row of table `users`.  `role` is the stored text, `is_active` its truthiness. -/
structure User where
  id : Int
  name : String
  email : String
  phone : Option String
  role : String
  is_active : Bool
  created_at : Nat
  deriving DecidableEq, Repr

/-- Row of table `groups`. -/
structure Group where
  id : Int
  name : String
  description : Option String
  created_by : Option Int
  created_at : Nat
  updated_at : Nat
  deriving DecidableEq, Repr

/-- Row of table `group_members`. -/
structure GroupMember where
  id : Int
  user_id : Int
  group_id : Int
  joined_at : Nat
  deriving DecidableEq, Repr

/-- Row of table `messages`. -/
structure Message where
  id : Int
  content : String
  sender_id : Int
  group_id : Option Int
  receiver_id : Option Int
  created_at : Nat
  updated_at : Nat
  deriving DecidableEq, Repr

/-- Row of table `private_notes`. -/
structure PrivateNote where
  id : Int
  title : String
  content : String
  author_id : Int
  related_user_id : Option Int
  tags : List String
  created_at : Nat
  updated_at : Nat
  deriving DecidableEq, Repr

/-- The relational store: one list of rows per table. -/
structure Store where
  users : List User
  groups : List Group
  group_members : List GroupMember
  messages : List Message
  private_notes : List PrivateNote
  deriving DecidableEq, Repr

/-- Errors raised by an `INSERT`: the violated constraints, a text parameter that
holds the character U+0000, a value too long for its `VARCHAR` column and a
malformed array literal. -/
inductive DbError where
  | notNull
  | foreignKey
  | check
  | unique
  | invalidText
  | tooLong
  | malformedArray
  deriving DecidableEq, Repr

/-- The session of `getServerSession`: the id and the role carried by the token.
The id is the id of the row of `users` found at login. -/
structure Session where
  id : Int
  role : String
  deriving DecidableEq, Repr

/-- A value read from the JSON body of a request: missing or `null`, a string,
or any other value, of which the routes only use the truthiness and the text the
database driver sends for it. -/
inductive JsValue where
  | absent
  | str (s : String)
  | other (truthy : Bool) (text : String)
  deriving DecidableEq, Repr

/-- A `NextResponse.json`: a body with status 200, a body with status 201, or an
error with its status. -/
inductive Response (α : Type) where
  | ok (body : α)
  | error (status : Nat) (message : String)
  | created (body : α)
  deriving DecidableEq, Repr

/-- The HTTP status of a response. -/
def Response.status {α : Type} : Response α → Nat
  | .ok _ => 200
  | .error st _ => st
  | .created _ => 201

/-! ## String primitives of the routes -/

/-- The characters removed by `String.prototype.trim`: ECMAScript `WhiteSpace`
and `LineTerminator`. -/
def jsIsWhiteSpace (c : Char) : Bool :=
  let n := c.toNat
  n = 0x9 || n = 0xA || n = 0xB || n = 0xC || n = 0xD || n = 0x20 || n = 0xA0 ||
  n = 0x1680 || (0x2000 ≤ n && n ≤ 0x200A) || n = 0x2028 || n = 0x2029 ||
  n = 0x202F || n = 0x205F || n = 0x3000 || n = 0xFEFF

/-- The method `String.prototype.trim`. -/
def jsTrim (s : String) : String :=
  String.mk ((s.data.dropWhile jsIsWhiteSpace).reverse.dropWhile jsIsWhiteSpace).reverse

/-- The method `String.prototype.startsWith`. -/
def startsWith (s pre : String) : Bool :=
  pre.data.isPrefixOf s.data

/-- The literal tested by `src/app/api/direct-messages/[userId]/route.js:36`:
U+1F4F1 followed by `" WhatsApp:"`. -/
def directMarker : String :=
  String.mk [Char.ofNat 0x1F4F1] ++ " WhatsApp:"

/-- The literal tested by `src/app/api/groups/[groupId]/messages/route.js:46`
and `:52`: the four characters U+00F0 U+0178 U+201C U+00B1 followed by
`" WhatsApp:"`. -/
def groupMarker : String :=
  String.mk [Char.ofNat 0xF0, Char.ofNat 0x178, Char.ofNat 0x201C, Char.ofNat 0xB1] ++ " WhatsApp:"

/-- The reserved WhatsApp-redirect marker named by the specification. -/
def whatsAppMarker : String :=
  String.mk [Char.ofNat 0x1F4F1] ++ " WhatsApp:"

/-! ## Value domains of the database server -/

/-- The values of the type `INTEGER`: a parameter compared with or stored in an
`INTEGER` column is rejected by the server when it lies outside this range. -/
def pgInteger (n : Int) : Bool :=
  decide (-2147483648 ≤ n) && decide (n ≤ 2147483647)

/-- The strings the server accepts as a text parameter: those without the
character U+0000. -/
def pgText (s : String) : Bool :=
  s.data.all (fun ch => !decide (ch = Char.ofNat 0))

/-- The value kept by a column `VARCHAR(n)`: the first `n` characters of the
string (all of it when it has at most `n` characters) when every character in
excess is a space, and `none` (value too long) otherwise. -/
def pgVarchar (n : Nat) (s : String) : Option String :=
  if (s.data.drop n).all (fun ch => decide (ch = ' ')) then some (String.mk (s.data.take n))
  else none

/-! ## Query helpers (`src/lib/queries.js`) -/

namespace userQueries

/-- The query `SELECT ... FROM users WHERE id = $1`, first row. -/
def findById (s : Store) (id : Int) : Option User :=
  s.users.find? (fun u => decide (u.id = id))

end userQueries

/-- Row of the join in `groupQueries.getMembers`. -/
structure MemberRow where
  id : Int
  name : String
  email : String
  role : String
  joined_at : Nat
  deriving DecidableEq, Repr

namespace groupQueries

/-- The query `SELECT ... FROM groups WHERE id = $1`, first row. -/
def findById (s : Store) (id : Int) : Option Group :=
  s.groups.find? (fun g => decide (g.id = id))

/-- The query `SELECT ... FROM users u JOIN group_members gm ON u.id = gm.user_id
WHERE gm.group_id = $1 ORDER BY gm.joined_at`. -/
def getMembers (s : Store) (groupId : Int) : List MemberRow :=
  List.insertionSort (fun a b : MemberRow => a.joined_at ≤ b.joined_at)
    ((s.group_members.filter (fun gm => decide (gm.group_id = groupId))).flatMap (fun gm =>
      (s.users.filter (fun u => decide (u.id = gm.user_id))).map (fun u =>
        MemberRow.mk u.id u.name u.email u.role gm.joined_at)))

/-- The query `SELECT ... FROM group_members gm WHERE gm.user_id = $1 AND
gm.group_id = $2`, first row. -/
def getMembership (s : Store) (userId groupId : Int) : Option GroupMember :=
  s.group_members.find? (fun gm => decide (gm.user_id = userId) && decide (gm.group_id = groupId))

/-- The statement `UPDATE groups SET updated_at = CURRENT_TIMESTAMP WHERE id = $1`,
run when the clock reads `now`. -/
def updateTimestamp (s : Store) (now : Nat) (groupId : Int) : Store :=
  { s with groups := s.groups.map (fun g =>
      if g.id = groupId then { g with updated_at := now } else g) }

end groupQueries

/-- Row returned by `messageQueries.getGroupMessages`. -/
structure GroupMessageRow where
  id : Int
  content : String
  sender_id : Int
  created_at : Nat
  sender_name : String
  sender_role : String
  deriving DecidableEq, Repr

/-- Row returned by `messageQueries.getDirectMessages`. -/
structure DirectMessageRow where
  id : Int
  content : String
  sender_id : Int
  receiver_id : Option Int
  created_at : Nat
  sender_name : String
  sender_role : String
  deriving DecidableEq, Repr

/-- The select list of `getGroupMessages` on a joined pair. -/
def groupRow (m : Message) (u : User) : GroupMessageRow :=
  GroupMessageRow.mk m.id m.content m.sender_id m.created_at u.name u.role

/-- The select list of `getDirectMessages` on a joined pair. -/
def directRow (m : Message) (u : User) : DirectMessageRow :=
  DirectMessageRow.mk m.id m.content m.sender_id m.receiver_id m.created_at u.name u.role

namespace messageQueries

/-- The statement `INSERT INTO messages (content, sender_id, group_id, receiver_id)
VALUES ($1, $2, $3, $4) RETURNING ...`, with the constraints of the schema:
`content TEXT NOT NULL`, the three `REFERENCES` and the `CHECK` that exactly one
of `group_id`, `receiver_id` is set; the server rejects content that holds the
character U+0000.  `id` is the value drawn from the sequence and `now` the clock. -/
def create (s : Store) (id : Int) (now : Nat) (content : Option String) (senderId : Int)
    (groupId receiverId : Option Int) : Except DbError (Message × Store) :=
  match content with
  | none => .error .notNull
  | some c =>
    if !pgText c then .error .invalidText
    else if (userQueries.findById s senderId).isNone then .error .foreignKey
    else if (match groupId with
        | some g => (groupQueries.findById s g).isNone
        | none => false) then .error .foreignKey
    else if (match receiverId with
        | some r => (userQueries.findById s r).isNone
        | none => false) then .error .foreignKey
    else if !((groupId.isSome && receiverId.isNone) || (groupId.isNone && receiverId.isSome)) then
      .error .check
    else
      let m : Message := Message.mk id c senderId groupId receiverId now now
      .ok (m, { s with messages := s.messages ++ [m] })

/-- The query of `getGroupMessages`: messages of the group joined with their
sender, newest first, `LIMIT $2 OFFSET $3`.  The source defaults are
`limit = 50` and `offset = 0`. -/
def getGroupMessages (s : Store) (groupId : Int) (limit offset : Nat) :
    List GroupMessageRow :=
  ((List.insertionSort (fun a b : GroupMessageRow => b.created_at ≤ a.created_at)
    ((s.messages.filter (fun m => decide (m.group_id = some groupId))).flatMap (fun m =>
      (s.users.filter (fun u => decide (m.sender_id = u.id))).map (fun u => groupRow m u)))).drop
        offset).take limit

/-- The query of `getDirectMessages`: messages between the two users joined with
their sender, newest first, `LIMIT $3 OFFSET $4`.  The source defaults are
`limit = 50` and `offset = 0`. -/
def getDirectMessages (s : Store) (userId1 userId2 : Int) (limit offset : Nat) :
    List DirectMessageRow :=
  ((List.insertionSort (fun a b : DirectMessageRow => b.created_at ≤ a.created_at)
    ((s.messages.filter (fun m =>
        (decide (m.sender_id = userId1) && decide (m.receiver_id = some userId2)) ||
        (decide (m.sender_id = userId2) && decide (m.receiver_id = some userId1)))).flatMap (fun m =>
      (s.users.filter (fun u => decide (m.sender_id = u.id))).map (fun u => directRow m u)))).drop
        offset).take limit

end messageQueries

/-! ## Direct messages (`src/app/api/direct-messages/[userId]/route.js`) -/

/-- The `{ id, name, role }` snapshot of an account in a response. -/
structure AccountView where
  id : Int
  name : String
  role : String
  deriving DecidableEq, Repr

namespace DirectMessages

/-- The `otherUser` object of the read response. -/
structure OtherUserView where
  id : Int
  name : String
  email : String
  phone : Option String
  role : String
  is_active : Bool
  deriving DecidableEq, Repr

/-- An element of `messages` in the read response. -/
structure MessageView where
  id : Int
  content : String
  senderId : Int
  receiverId : Option Int
  createdAt : Nat
  sender : AccountView
  deriving DecidableEq, Repr

/-- The object built by `messages.map(msg => ...)`. -/
def messageView (msg : DirectMessageRow) : MessageView :=
  MessageView.mk msg.id msg.content msg.sender_id msg.receiver_id msg.created_at
    (AccountView.mk msg.sender_id msg.sender_name msg.sender_role)

/-- Body of the read response. -/
structure GetBody where
  otherUser : OtherUserView
  messages : List MessageView
  currentUserId : Int
  deriving DecidableEq, Repr

/-- Body of the send response: the `message` object. -/
structure PostBody where
  id : Int
  content : String
  senderId : Int
  receiverId : Option Int
  createdAt : Nat
  sender : AccountView
  recipient : AccountView
  deriving DecidableEq, Repr

/-- The handler `GET /api/direct-messages/[userId]`, at a user id that
`parseInt` gives as a number.  The server rejects an id outside `INTEGER` in the
first query, and the `catch` answers 500. -/
def GET (s : Store) (session : Option Session) (userId : Int) : Response GetBody :=
  match session with
  | none => .error 401 "Unauthorized"
  | some session =>
    let currentUserId := session.id
    let otherUserId := userId
    if !pgInteger otherUserId then .error 500 "Failed to fetch messages"
    else
      match userQueries.findById s otherUserId with
      | none => .error 404 "User not found"
      | some otherUser =>
        if session.role = "USER" ∧ otherUser.role ≠ "AGENT" then
          .error 403 "Users can only message agents"
        else
          let allMessages := messageQueries.getDirectMessages s currentUserId otherUserId 50 0
          let messages := allMessages.filter (fun msg => !startsWith msg.content directMarker)
          .ok (GetBody.mk
            (OtherUserView.mk otherUser.id otherUser.name otherUser.email otherUser.phone
              otherUser.role otherUser.is_active)
            (messages.map messageView)
            currentUserId)

/-- The handler `POST /api/direct-messages/[userId]`, with the new store.  `id`
is the value the insert draws from the sequence and `now` the clock. -/
def POST (s : Store) (id : Int) (now : Nat) (session : Option Session) (userId : Int)
    (content : JsValue) : Response PostBody × Store :=
  match session with
  | none => (.error 401 "Unauthorized", s)
  | some session =>
    let currentUserId := session.id
    let recipientId := userId
    match content with
    | .absent => (.error 400 "Message content is required", s)
    | .other false _ => (.error 400 "Message content is required", s)
    | .other true _ => (.error 500 "Failed to send message", s)
    | .str content =>
      if content = "" ∨ (jsTrim content).length = 0 then
        (.error 400 "Message content is required", s)
      else
        match userQueries.findById s recipientId with
        | none => (.error 404 "Recipient not found", s)
        | some recipient =>
          if !recipient.is_active then (.error 400 "Recipient is not active", s)
          else if session.role = "USER" ∧ recipient.role ≠ "AGENT" then
            (.error 403 "Users can only message agents", s)
          else
            match messageQueries.create s id now (some (jsTrim content)) currentUserId none
                (some recipientId) with
            | .error _ => (.error 500 "Failed to send message", s)
            | .ok (message, s1) =>
              match userQueries.findById s1 currentUserId with
              | none => (.error 500 "Failed to send message", s1)
              | some sender =>
                (.ok (PostBody.mk message.id message.content message.sender_id
                  message.receiver_id message.created_at
                  (AccountView.mk sender.id sender.name sender.role)
                  (AccountView.mk recipient.id recipient.name recipient.role)), s1)

end DirectMessages

/-! ## Group messages (`src/app/api/groups/[groupId]/messages/route.js`) -/

namespace GroupMessages

/-- The `group` object of the read response: the selected columns and the members. -/
structure GroupView where
  id : Int
  name : String
  description : Option String
  created_by : Option Int
  created_at : Nat
  members : List MemberRow
  deriving DecidableEq, Repr

/-- Body of the read response. -/
structure GetBody where
  group : GroupView
  messages : List GroupMessageRow
  currentUser : Session
  deriving DecidableEq, Repr

/-- The parameter the driver sends for `content`: `NULL` for a missing value. -/
def contentParam : JsValue → Option String
  | .absent => none
  | .str c => some c
  | .other _ t => some t

/-- The handler `GET /api/groups/[groupId]/messages`.  `groupId` is the value of
`parseInt(groupId)`, `none` when it is `NaN`.  The first query,
`getMembership`, runs before the guard: the server rejects a group id that is
`NaN` or outside `INTEGER`, and the `catch` answers 500. -/
def GET (s : Store) (session : Option Session) (groupId : Option Int) : Response GetBody :=
  match session with
  | none => .error 401 "Unauthorized"
  | some session =>
    match groupId with
    | none => .error 500 "Failed to fetch chat"
    | some groupId =>
      if !pgInteger groupId then .error 500 "Failed to fetch chat"
      else
        let membership := groupQueries.getMembership s session.id groupId
        if membership.isNone ∧ session.role ≠ "AGENT" then .error 403 "Access denied"
        else
          match groupQueries.findById s groupId with
          | none => .error 404 "Group not found"
          | some group =>
            let members := groupQueries.getMembers s groupId
            let messages :=
              if session.role = "USER" then
                (messageQueries.getGroupMessages s groupId 100 0).filter (fun msg =>
                  (decide (msg.sender_id = session.id) || decide (msg.sender_role = "AGENT")) &&
                  !startsWith msg.content groupMarker)
              else
                (messageQueries.getGroupMessages s groupId 100 0).filter (fun msg =>
                  !startsWith msg.content groupMarker)
            .ok (GetBody.mk
              (GroupView.mk group.id group.name group.description group.created_by
                group.created_at members)
              messages
              (Session.mk session.id session.role))

/-- The handler `POST /api/groups/[groupId]/messages`, with the new store.  `id`
is the value the insert draws from the sequence, `nowInsert` the clock of the
insert and `nowUpdate` the clock of the later `updateTimestamp`.  `groupId` is
the value of `parseInt(groupId)`, `none` when it is `NaN`; `body` is the
`content` property of the parsed request body, `none` when `request.json()`
throws or gives `null`, on which the destructuring throws.  The body is read
and `getMembership` runs before the guard; both failures are answered 500 by
the `catch`. -/
def POST (s : Store) (id : Int) (nowInsert nowUpdate : Nat) (session : Option Session)
    (groupId : Option Int) (body : Option JsValue) : Response Message × Store :=
  match session with
  | none => (.error 401 "Unauthorized", s)
  | some session =>
    match body with
    | none => (.error 500 "Failed to send message", s)
    | some content =>
      match groupId with
      | none => (.error 500 "Failed to send message", s)
      | some groupId =>
        if !pgInteger groupId then (.error 500 "Failed to send message", s)
        else
          let membership := groupQueries.getMembership s session.id groupId
          if membership.isNone ∧ session.role ≠ "AGENT" then (.error 403 "Access denied", s)
          else
            match messageQueries.create s id nowInsert (contentParam content) session.id
                (some groupId) none with
            | .error _ => (.error 500 "Failed to send message", s)
            | .ok (message, s1) =>
              let s2 := groupQueries.updateTimestamp s1 nowUpdate groupId
              (.ok message, s2)

end GroupMessages

/-- The client-side predicate `isMessageVisible` of `src/app/chat/[groupId]/page.js`. -/
def isMessageVisible (session : Session) (message : GroupMessageRow) : Bool :=
  if session.role = "AGENT" then true
  else decide (message.sender_id = session.id) || decide (message.sender_role = "AGENT")

/-! ## Group creation (`src/app/api/groups/route.js`, `src/lib/queries.js`) -/

namespace groupQueries

/-- The statement `INSERT INTO groups (name, description, created_by) VALUES
($1, $2, $3) RETURNING ...`, with the constraints of the schema: `id` is the
primary key, `name` is `NOT NULL` and `created_by REFERENCES users(id)`.  `id` is
the value drawn from the sequence and `now` the clock. -/
def create (s : Store) (id : Int) (now : Nat) (name description : Option String)
    (createdBy : Int) : Except DbError (Group × Store) :=
  match name with
  | none => .error .notNull
  | some n =>
    if (findById s id).isSome then .error .unique
    else if (userQueries.findById s createdBy).isNone then .error .foreignKey
    else
      let g : Group := Group.mk id n description (some createdBy) now now
      .ok (g, { s with groups := s.groups ++ [g] })

/-- The statement `INSERT INTO group_members (group_id, user_id) VALUES ($1, $2)
ON CONFLICT (user_id, group_id) DO NOTHING`, with the two `REFERENCES` of the
schema.  `id` is the value drawn from the sequence and `now` the clock. -/
def addMember (s : Store) (id : Int) (now : Nat) (groupId userId : Int) :
    Except DbError Store :=
  if (userQueries.findById s userId).isNone then .error .foreignKey
  else if (findById s groupId).isNone then .error .foreignKey
  else if s.group_members.any (fun gm =>
      decide (gm.user_id = userId) && decide (gm.group_id = groupId)) then .ok s
  else
    .ok { s with group_members := s.group_members ++ [GroupMember.mk id userId groupId now] }

end groupQueries

/-- The user ids of the `group_members` rows of a group, in row order. -/
def memberIdsOf (s : Store) (groupId : Int) : List Int :=
  (s.group_members.filter (fun gm => decide (gm.group_id = groupId))).map (fun gm => gm.user_id)

namespace Groups

/-- The loop `for (const memberId of memberIds) await groupQueries.addMember(...)`:
the store reached and whether every insert succeeded.  The `k`-th insert into
`group_members` of the request draws `mid + k` from the sequence and runs at
`clock (k + 1)`; the insert of the creator is the one numbered 0. -/
def addMembers (groupId : Int) (mid : Int) (clock : Nat → Nat) :
    Store → Nat → List Int → Store × Bool
  | s, _, [] => (s, true)
  | s, k, memberId :: rest =>
    match groupQueries.addMember s (mid + k) (clock (k + 1)) groupId memberId with
    | .error _ => (s, false)
    | .ok s1 => addMembers groupId mid clock s1 (k + 1) rest

/-- The handler `POST /api/groups`, with the new store.  `gid` is the value the
group insert draws from its sequence, `mid` the first value of the
`group_members` sequence, `clock k` the clock of the statement numbered `k` and
`memberIds` the member ids after `parseInt` (the empty list when missing). -/
def POST (s : Store) (gid mid : Int) (clock : Nat → Nat) (session : Option Session)
    (name description : JsValue) (memberIds : List Int) : Response Group × Store :=
  match session with
  | none => (.error 401 "Unauthorized", s)
  | some session =>
    if session.role ≠ "AGENT" then (.error 401 "Unauthorized", s)
    else
      match groupQueries.create s gid (clock 0) (GroupMessages.contentParam name)
          (GroupMessages.contentParam description) session.id with
      | .error _ => (.error 500 "Failed to create group", s)
      | .ok (group, s1) =>
        match groupQueries.addMember s1 mid (clock 1) group.id session.id with
        | .error _ => (.error 500 "Failed to create group", s1)
        | .ok s2 =>
          match addMembers group.id mid clock s2 1 memberIds with
          | (s3, false) => (.error 500 "Failed to create group", s3)
          | (s3, true) => (.ok group, s3)

end Groups

/-! ## Private notes (`src/app/api/private-notes/**/route.js`, `src/lib/queries.js`) -/

/-- An id read from a request body or query string: missing or falsy, the integer
given by `parseInt`, or a value on which `parseInt` gives `NaN`. -/
inductive IdParam where
  | absent
  | id (n : Int)
  | unparsable
  deriving DecidableEq, Repr

/-- The truthiness of a JSON value. -/
def JsValue.truthy : JsValue → Bool
  | .absent => false
  | .str s => decide (s ≠ "")
  | .other t _ => t

/-- Row returned by `noteQueries.getByUserAndAgent`. -/
structure NoteRow where
  id : Int
  title : String
  content : String
  author_id : Int
  related_user_id : Option Int
  tags : List String
  created_at : Nat
  updated_at : Nat
  related_user_name : Option String
  author_name : Option String
  deriving DecidableEq, Repr

/-- The names a `LEFT JOIN users ON ... = u.id` contributes for a reference: one
per matching account, or a single `NULL` when none matches. -/
def leftJoinName (s : Store) (ref : Option Int) : List (Option String) :=
  match s.users.filter (fun u => decide (ref = some u.id)) with
  | [] => [none]
  | us => us.map (fun u => some u.name)

/-- The `tags` of a request body: missing or falsy; an array of strings; or any
other truthy value, given by what the server makes of the text the driver sends
for it: `none` when it rejects the text as an array literal, `some read` when it
reads an array, of which `read` lists the elements. -/
inductive TagsParam where
  | absent
  | array (elements : List String)
  | other (read : Option (List String))
  deriving DecidableEq, Repr

/-- The expression `tags || []`. -/
def TagsParam.orEmpty : TagsParam → TagsParam
  | .absent => .array []
  | tags => tags

/-- The value the server stores in a column `TEXT[]` for a `tags` parameter (the
default `[]` for a missing one); an element that holds the character U+0000 and
a text that is not an array literal are rejected. -/
def tagsValue : TagsParam → Except DbError (List String)
  | .absent => .ok []
  | .array elements => if elements.all pgText then .ok elements else .error .invalidText
  | .other none => .error .malformedArray
  | .other (some read) => .ok read

namespace noteQueries

/-- The statement `INSERT INTO private_notes (title, content, author_id,
related_user_id, tags) VALUES (...) RETURNING ...`, with the constraints of the
schema: `title VARCHAR(255)` and `content TEXT` are `NOT NULL`, `tags` is
`TEXT[]`, `author_id` and `related_user_id` reference `users(id)`; the server
rejects text that holds the character U+0000. -/
def create (s : Store) (id : Int) (now : Nat) (title content : Option String)
    (authorId : Int) (relatedUserId : Option Int) (tags : TagsParam) :
    Except DbError (PrivateNote × Store) :=
  match title, content with
  | some t, some c =>
    if !pgText t || !pgText c then .error .invalidText
    else
      match tagsValue tags with
      | .error e => .error e
      | .ok tagList =>
        match pgVarchar 255 t with
        | none => .error .tooLong
        | some t1 =>
          if (userQueries.findById s authorId).isNone then .error .foreignKey
          else if (match relatedUserId with
              | some r => (userQueries.findById s r).isNone
              | none => false) then .error .foreignKey
          else
            let n : PrivateNote := PrivateNote.mk id t1 c authorId relatedUserId tagList now now
            .ok (n, { s with private_notes := s.private_notes ++ [n] })
  | _, _ => .error .notNull

/-- The query `SELECT ... FROM private_notes pn LEFT JOIN users u ... WHERE
pn.id = $1`, first row; the joined name is not used by the routes. -/
def findById (s : Store) (id : Int) : Option PrivateNote :=
  s.private_notes.find? (fun n => decide (n.id = id))

/-- The statement `UPDATE private_notes SET title = $1, content = $2, tags = $3,
updated_at = CURRENT_TIMESTAMP WHERE id = $4 RETURNING ...`, first row. -/
def update (s : Store) (now : Nat) (id : Int) (title content : String) (tags : List String) :
    Option PrivateNote × Store :=
  let s1 : Store := { s with private_notes := s.private_notes.map (fun n =>
    if n.id = id then
      PrivateNote.mk n.id title content n.author_id n.related_user_id tags n.created_at now
    else n) }
  (findById s1 id, s1)

/-- The function `delete`: `DELETE FROM private_notes WHERE id = $1` and whether a
row was deleted. -/
def delete (s : Store) (id : Int) : Bool × Store :=
  (s.private_notes.any (fun n => decide (n.id = id)),
    { s with private_notes := s.private_notes.filter (fun n => !decide (n.id = id)) })

/-- The query of `getByUserAndAgent`: the notes with `related_user_id = $1 AND
author_id = $2`, left-joined with both accounts, newest first. -/
def getByUserAndAgent (s : Store) (userId agentId : Int) : List NoteRow :=
  List.insertionSort (fun a b : NoteRow => b.created_at ≤ a.created_at)
    ((s.private_notes.filter (fun n =>
        decide (n.related_user_id = some userId) && decide (n.author_id = agentId))).flatMap
      (fun n => (leftJoinName s n.related_user_id).flatMap (fun ru =>
        (leftJoinName s (some n.author_id)).map (fun au =>
          NoteRow.mk n.id n.title n.content n.author_id n.related_user_id n.tags n.created_at
            n.updated_at ru au))))

end noteQueries

namespace PrivateNotes

/-- The handler `POST /api/private-notes`, with the new store. -/
def POST (s : Store) (id : Int) (now : Nat) (session : Option Session) (title content : JsValue)
    (relatedUserId : IdParam) (tags : TagsParam) :
    Response PrivateNote × Store :=
  match session with
  | none => (.error 401 "Unauthorized", s)
  | some session =>
    if session.role ≠ "AGENT" then
      (.error 403 "Forbidden: Only agents can create private notes", s)
    else if !title.truthy || !content.truthy then
      (.error 400 "title and content are required", s)
    else
      match relatedUserId with
      | .unparsable => (.error 500 "Internal server error", s)
      | .id r =>
        match userQueries.findById s r with
        | none => (.error 404 "Target user not found", s)
        | some _ =>
          match noteQueries.create s id now (GroupMessages.contentParam title)
              (GroupMessages.contentParam content) session.id (some r) tags.orEmpty with
          | .error _ => (.error 500 "Internal server error", s)
          | .ok (note, s1) => (.created note, s1)
      | .absent =>
        match noteQueries.create s id now (GroupMessages.contentParam title)
            (GroupMessages.contentParam content) session.id none tags.orEmpty with
        | .error _ => (.error 500 "Internal server error", s)
        | .ok (note, s1) => (.created note, s1)

end PrivateNotes

namespace PrivateNoteById

/-- The handler `PUT /api/private-notes/[noteId]`, with the new store. -/
def PUT (s : Store) (now : Nat) (session : Option Session) (noteId : Int) (content : JsValue) :
    Response (Option PrivateNote) × Store :=
  match session with
  | none => (.error 401 "Unauthorized", s)
  | some session =>
    if session.role ≠ "AGENT" then
      (.error 403 "Forbidden: Only agents can update private notes", s)
    else if !content.truthy then (.error 400 "content is required", s)
    else
      match noteQueries.findById s noteId with
      | none => (.error 404 "Note not found", s)
      | some existingNote =>
        if existingNote.author_id ≠ session.id then
          (.error 403 "Forbidden: You can only update your own notes", s)
        else
          match GroupMessages.contentParam content with
          | none => (.error 500 "Internal server error", s)
          | some c =>
            let r := noteQueries.update s now noteId existingNote.title c existingNote.tags
            (.ok r.1, r.2)

/-- The handler `DELETE /api/private-notes/[noteId]`, with the new store. -/
def DELETE (s : Store) (session : Option Session) (noteId : Int) : Response String × Store :=
  match session with
  | none => (.error 401 "Unauthorized", s)
  | some session =>
    if session.role ≠ "AGENT" then
      (.error 403 "Forbidden: Only agents can delete private notes", s)
    else
      match noteQueries.findById s noteId with
      | none => (.error 404 "Note not found", s)
      | some existingNote =>
        if existingNote.author_id ≠ session.id then
          (.error 403 "Forbidden: You can only delete your own notes", s)
        else
          (.ok "Note deleted successfully", (noteQueries.delete s noteId).2)

end PrivateNoteById

namespace PrivateNotesByUser

/-- The handler `GET /api/private-notes/user/[userId]`; `agentId` is the query
parameter of the same name. -/
def GET (s : Store) (session : Option Session) (userId : Int) (agentId : IdParam) :
    Response (List NoteRow) :=
  match session with
  | none => .error 401 "Unauthorized"
  | some session =>
    if session.role = "AGENT" then
      .ok (noteQueries.getByUserAndAgent s userId session.id)
    else if session.role = "USER" then
      if session.id ≠ userId then
        .error 403 "Forbidden: You can only view notes about yourself"
      else
        match agentId with
        | .absent => .error 400 "Agent ID is required for user requests"
        | .unparsable => .error 500 "Internal server error"
        | .id a => .ok (noteQueries.getByUserAndAgent s userId a)
    else .error 403 "Forbidden: Invalid user role"

end PrivateNotesByUser

namespace PrivateNotesSummary

/-- An entry of the summary the route builds per agent. -/
structure Entry where
  agentId : Int
  totalNotes : Nat
  latestNoteDate : Nat
  deriving DecidableEq, Repr

/-- The handler `GET /api/private-notes/summary`.  For a USER session the route
calls `noteQueries.getByUserId`, which `src/lib/queries.js` does not define: the
call throws a `TypeError` and the `catch` answers 500. -/
def GET (_s : Store) (session : Option Session) : Response (List Entry) :=
  match session with
  | none => .error 401 "Unauthorized"
  | some session =>
    if session.role ≠ "USER" then
      .error 403 "Forbidden: Only users can access notes summary"
    else .error 500 "Internal server error"

end PrivateNotesSummary

/-! ## Phone normaliser (`src/app/lib/whatsapp-utils.js`) -/

/-- The expression `phoneNumber.replace(/\D/g, '')`: the ASCII digits of the string. -/
def digitsOf (s : String) : String :=
  String.mk (s.data.filter Char.isDigit)

/-- The function `formatPhoneForWhatsApp`; `none` is `null`, and the argument is
`none` when the phone number is `null` or `undefined`. -/
def formatPhoneForWhatsApp (phoneNumber : Option String) : Option String :=
  match phoneNumber with
  | none => none
  | some phoneNumber =>
    if phoneNumber = "" then none
    else
      let cleanNumber := digitsOf phoneNumber
      if cleanNumber.length < 10 then none
      else
        let processedNumber :=
          if startsWith cleanNumber "0" then String.mk (cleanNumber.data.drop 1)
          else cleanNumber
        let processedNumber :=
          if !startsWith processedNumber "91" && processedNumber.length = 10 then
            "91" ++ processedNumber
          else processedNumber
        some processedNumber

/-- The upper-case hexadecimal digit of a number below 16. -/
def hexDigit (n : Nat) : Char :=
  if n < 10 then Char.ofNat (48 + n) else Char.ofNat (55 + n)

/-- The escape `%XX` of a byte. -/
def percentByte (b : Nat) : List Char :=
  ['%', hexDigit (b / 16), hexDigit (b % 16)]

/-- The UTF-8 encoding of a character, as bytes. -/
def utf8Bytes (c : Char) : List Nat :=
  let n := c.toNat
  if n < 0x80 then [n]
  else if n < 0x800 then [0xC0 + n / 64, 0x80 + n % 64]
  else if n < 0x10000 then [0xE0 + n / 4096, 0x80 + n / 64 % 64, 0x80 + n % 64]
  else [0xF0 + n / 262144, 0x80 + n / 4096 % 64, 0x80 + n / 64 % 64, 0x80 + n % 64]

/-- The characters `encodeURIComponent` leaves as they are: ASCII letters and
digits and the marks `- _ . ! ~ *`, the apostrophe and the two parentheses. -/
def uriUnreserved (c : Char) : Bool :=
  c.isAlphanum || [45, 95, 46, 33, 126, 42, 39, 40, 41].contains c.toNat

/-- The function `encodeURIComponent` on a well-formed string. -/
def encodeURIComponent (s : String) : String :=
  String.mk (s.data.flatMap (fun c =>
    if uriUnreserved c then [c] else (utf8Bytes c).flatMap percentByte))

/-- The function `encodeMessageForWhatsApp`. -/
def encodeMessageForWhatsApp (message : String) : String :=
  if message = "" then "" else encodeURIComponent (jsTrim message)

/-- The function `createWhatsAppURL`; `message` is the empty string when omitted. -/
def createWhatsAppURL (phoneNumber : Option String) (message : String) : Option String :=
  match formatPhoneForWhatsApp phoneNumber with
  | none => none
  | some formattedPhone =>
    if formattedPhone = "" then none
    else
      let url := "https://wa.me/" ++ formattedPhone
      if message ≠ "" ∧ jsTrim message ≠ "" then
        some (url ++ "?text=" ++ encodeMessageForWhatsApp message)
      else some url

/-- The function `isValidWhatsAppPhone`. -/
def isValidWhatsAppPhone (phoneNumber : Option String) : Bool :=
  match formatPhoneForWhatsApp phoneNumber with
  | none => false
  | some formatted => decide (10 ≤ formatted.length)

/-! ## Admin sessions (`src/lib/admin-session.js`) -/

/-- The object passed to `AdminSession.create`. -/
structure AdminData where
  id : Int
  username : String
  role : String
  deriving DecidableEq, Repr

/-- A value of the map `adminSessions`: the admin data and `loginTime`. -/
structure AdminSessionData where
  id : Int
  username : String
  role : String
  loginTime : Nat
  deriving DecidableEq, Repr

/-- The map `adminSessions`, as the list of its entries in insertion order. -/
abbrev AdminSessions := List (String × AdminSessionData)

/-- The digit of `Number.prototype.toString(36)` for a value below 36. -/
def digit36 (n : Nat) : Char :=
  if n < 10 then Char.ofNat (48 + n) else Char.ofNat (87 + n)

/-- The digits of `n` in base 36, most significant first, pushed on `acc`. -/
def toBase36Aux : Nat → Nat → List Char → List Char
  | 0, _, acc => acc
  | fuel + 1, n, acc =>
    if n / 36 = 0 then digit36 (n % 36) :: acc
    else toBase36Aux fuel (n / 36) (digit36 (n % 36) :: acc)

/-- The expression `n.toString(36)` for a natural number. -/
def toBase36 (n : Nat) : String :=
  String.mk (toBase36Aux (n + 1) n [])

namespace AdminSession

/-- The method `Map.prototype.get`. -/
def lookup (m : AdminSessions) (k : String) : Option AdminSessionData :=
  (m.find? (fun e => decide (e.1 = k))).map (fun e => e.2)

/-- The method `Map.prototype.set`. -/
def mapSet (m : AdminSessions) (k : String) (v : AdminSessionData) : AdminSessions :=
  if m.any (fun e => decide (e.1 = k)) then m.map (fun e => if e.1 = k then (k, v) else e)
  else m ++ [(k, v)]

/-- The method `Map.prototype.delete`. -/
def mapDelete (m : AdminSessions) (k : String) : AdminSessions :=
  m.filter (fun e => !decide (e.1 = k))

/-- The method `AdminSession.create`: the session id and the new map.  `random`
is `Math.random().toString(36).substring(2)` and `now` is `Date.now()`. -/
def create (m : AdminSessions) (random : String) (now : Nat) (adminData : AdminData) :
    String × AdminSessions :=
  let sessionId := random ++ toBase36 now
  (sessionId,
    mapSet m sessionId
      (AdminSessionData.mk adminData.id adminData.username adminData.role now))

/-- The method `AdminSession.get` at the instant `now`: the result (`none` is
`null`) and the new map.  `sessionId` is `none` when `undefined`. -/
def get (m : AdminSessions) (sessionId : Option String) (now : Nat) :
    Option AdminSessionData × AdminSessions :=
  match sessionId with
  | none => (none, m)
  | some k =>
    if k = "" then (none, m)
    else
      match lookup m k with
      | none => (none, m)
      | some session =>
        let isExpired := (now : Int) - (session.loginTime : Int) > 24 * 60 * 60 * 1000
        if isExpired then (none, mapDelete m k) else (some session, m)

/-- The method `AdminSession.delete`. -/
def delete (m : AdminSessions) (sessionId : Option String) : AdminSessions :=
  match sessionId with
  | none => m
  | some k => if k = "" then m else mapDelete m k

/-- The method `AdminSession.verify`: the session, or `none` when it throws
`Unauthorized`, and the new map.  `cookie` is the value of `admin_session`. -/
def verify (m : AdminSessions) (cookie : Option String) (now : Nat) :
    Option AdminSessionData × AdminSessions :=
  match get m cookie now with
  | (none, m1) => (none, m1)
  | (some session, m1) => if session.role ≠ "ADMIN" then (none, m1) else (some session, m1)

/-- A call of one of the three methods of the session store. -/
inductive Call where
  | create (random : String) (now : Nat) (adminData : AdminData)
  | get (sessionId : Option String) (now : Nat)
  | delete (sessionId : Option String)
  deriving DecidableEq, Repr

/-- The map after one call. -/
def step (m : AdminSessions) : Call → AdminSessions
  | .create random now adminData => (create m random now adminData).2
  | .get sessionId now => (get m sessionId now).2
  | .delete sessionId => delete m sessionId

/-- The map after a sequence of calls, oldest first, on the empty map with which
the module starts. -/
def run (calls : List Call) : AdminSessions :=
  calls.foldl step []

/-- The call leaves in place a session that is stored under `k` with the login
time `loginTime`: it is not a `delete` of `k`, not a `get` of `k` at an instant
at which the session is expired, and not a `create` that returns the id `k`
again. -/
def keeps (k : String) (loginTime : Nat) : Call → Prop
  | .create random now _ => random ++ toBase36 now ≠ k
  | .get sessionId now => sessionId = some k → (now : Int) - (loginTime : Int) ≤ 86400000
  | .delete sessionId => sessionId ≠ some k

/-- The words of the claim on a history of calls: the session `sess` was created
under the id `k`, and no later call has deleted it, found it expired or created
another session under the same id. -/
def CreatedAndKept (calls : List Call) (k : String) (sess : AdminSessionData) : Prop :=
  ∃ (before after : List Call) (random : String) (t : Nat) (adminData : AdminData),
    calls = before ++ Call.create random t adminData :: after ∧
    random ++ toBase36 t = k ∧
    sess = AdminSessionData.mk adminData.id adminData.username adminData.role t ∧
    ∀ c ∈ after, keeps k t c

end AdminSession

/-! ## Admin queries and routes (`src/lib/queries.js`, `src/app/api/admin*/**/route.js`) -/

/-- The row of `getDashboardStats`. -/
structure DashboardStats where
  total_users : Nat
  total_agents : Nat
  pending_agents : Nat
  total_groups : Nat
  total_messages : Nat
  total_notes : Nat
  deriving DecidableEq, Repr

namespace adminQueries

/-- The query of `getDashboardStats`. -/
def getDashboardStats (s : Store) : DashboardStats :=
  DashboardStats.mk
    (s.users.countP (fun u => decide (u.role = "USER")))
    (s.users.countP (fun u => decide (u.role = "AGENT")))
    (s.users.countP (fun u => decide (u.role = "AGENT") && !u.is_active))
    s.groups.length s.messages.length s.private_notes.length

/-- The query of `getAllUsers`: the accounts, of the given role when one is
given, newest first, `LIMIT` and `OFFSET`. -/
def getAllUsers (s : Store) (limit offset : Nat) (role : Option String) : List User :=
  ((List.insertionSort (fun a b : User => b.created_at ≤ a.created_at)
    (match role with
      | some r => if r = "" then s.users else s.users.filter (fun u => decide (u.role = r))
      | none => s.users)).drop offset).take limit

/-- The statement `UPDATE users SET is_active = $1 ... WHERE id = $2 RETURNING ...`:
the first updated row and the new store. -/
def updateUserStatus (s : Store) (userId : Int) (isActive : Bool) : Option User × Store :=
  let s1 : Store := { s with users := s.users.map (fun u =>
    if u.id = userId then { u with is_active := isActive } else u) }
  (userQueries.findById s1 userId, s1)

/-- The statement `DELETE FROM users WHERE id = $1` with the referential actions of
the schema: `ON DELETE CASCADE` on `group_members.user_id`, `messages.sender_id`,
`messages.receiver_id`, `private_notes.author_id` and
`private_notes.related_user_id`, and `ON DELETE SET NULL` on `groups.created_by`
(an update, so the trigger stamps `updated_at` with the clock `now`). -/
def deleteUserRow (s : Store) (now : Nat) (userId : Int) : Store :=
  if s.users.any (fun u => decide (u.id = userId)) then
    Store.mk
      (s.users.filter (fun u => !decide (u.id = userId)))
      (s.groups.map (fun g =>
        if g.created_by = some userId then { g with created_by := none, updated_at := now }
        else g))
      (s.group_members.filter (fun gm => !decide (gm.user_id = userId)))
      (s.messages.filter (fun m =>
        !decide (m.sender_id = userId) && !decide (m.receiver_id = some userId)))
      (s.private_notes.filter (fun n =>
        !decide (n.author_id = userId) && !decide (n.related_user_id = some userId)))
  else s

/-- The function `deleteUser`: the three explicit deletes, then the delete of the
account; the deleted row (`none` when there is none) and the new store. -/
def deleteUser (s : Store) (now : Nat) (userId : Int) : Option User × Store :=
  let s1 : Store :=
    { s with messages := s.messages.filter (fun m => !decide (m.sender_id = userId)) }
  let s2 : Store :=
    { s1 with private_notes := s1.private_notes.filter (fun n =>
        !(decide (n.author_id = userId) || decide (n.related_user_id = some userId))) }
  let s3 : Store :=
    { s2 with group_members :=
        s2.group_members.filter (fun gm => !decide (gm.user_id = userId)) }
  (userQueries.findById s3 userId, deleteUserRow s3 now userId)

end adminQueries

namespace AdminDashboard

/-- The handler `GET` of `src/app/api/admin/dashboard/route.js`, which verifies the
admin session; also the session map after the verification. -/
def GET (s : Store) (sessions : AdminSessions) (cookie : Option String) (now : Nat) :
    Response DashboardStats × AdminSessions :=
  match AdminSession.verify sessions cookie now with
  | (none, m1) => (.error 401 "Unauthorized", m1)
  | (some _, m1) => (.ok (adminQueries.getDashboardStats s), m1)

end AdminDashboard

namespace Admin123321Dashboard

/-- The handler `GET` of `src/app/api/admin123321/dashboard/route.js`: the call of
`verifyAdminSession` is commented out, so the session map and the cookie of the
request are not consulted. -/
def GET (s : Store) (_sessions : AdminSessions) (_cookie : Option String) (_now : Nat) :
    Response DashboardStats :=
  .ok (adminQueries.getDashboardStats s)

end Admin123321Dashboard

namespace Admin123321Users

/-- Body of the user listing. -/
structure GetBody where
  users : List User
  page : Nat
  limit : Nat
  hasMore : Bool
  deriving DecidableEq, Repr

/-- The handler `GET` of `src/app/api/admin123321/users/route.js`; `page` and
`limit` are the parsed query parameters.  For page 0 the offset is `-limit`,
which the server rejects unless it is zero.  The session is not consulted. -/
def GET (s : Store) (_sessions : AdminSessions) (_cookie : Option String) (_now : Nat)
    (page limit : Nat) (role : Option String) : Response GetBody :=
  if page = 0 ∧ limit ≠ 0 then .error 500 "Internal server error"
  else
    let offset := (page - 1) * limit
    let users := adminQueries.getAllUsers s limit offset role
    .ok (GetBody.mk users page limit (decide (users.length = limit)))

/-- The handler `PATCH` of `src/app/api/admin123321/users/route.js`, with the new
store; `isActive` is `none` when the value is not a boolean.  The session is not
consulted. -/
def PATCH (s : Store) (_sessions : AdminSessions) (_cookie : Option String) (_now : Nat)
    (userId : IdParam) (isActive : Option Bool) : Response User × Store :=
  match userId, isActive with
  | .absent, _ => (.error 400 "User ID and status are required", s)
  | _, none => (.error 400 "User ID and status are required", s)
  | .unparsable, some _ => (.error 500 "Internal server error", s)
  | .id u, some a =>
    match adminQueries.updateUserStatus s u a with
    | (none, s1) => (.error 404 "User not found", s1)
    | (some updatedUser, s1) => (.ok updatedUser, s1)

/-- The handler `DELETE` of `src/app/api/admin123321/users/route.js`, with the new
store.  The session is not consulted. -/
def DELETE (s : Store) (_sessions : AdminSessions) (_cookie : Option String) (now : Nat)
    (userId : IdParam) : Response User × Store :=
  match userId with
  | .absent => (.error 400 "User ID is required", s)
  | .unparsable => (.error 500 "Internal server error", s)
  | .id u =>
    match adminQueries.deleteUser s now u with
    | (none, s1) => (.error 404 "User not found", s1)
    | (some deletedUser, s1) => (.ok deletedUser, s1)

end Admin123321Users

/-! ## Registration (`src/app/api/auth/register/route.js`) -/

/-- The method `String.prototype.toUpperCase` on one character, for the ASCII
letters and for U+017F, whose upper case is `S`.  Any other character is kept:
its upper case holds none of the letters of `USER` and `AGENT`, the two roles the
schema admits. -/
def jsUpperChar (c : Char) : Char :=
  if c.toNat = 0x17F then 'S' else c.toUpper

/-- The method `String.prototype.toUpperCase`, character by character. -/
def jsToUpperCase (s : String) : String :=
  String.mk (s.data.map jsUpperChar)

namespace userQueries

/-- The query `SELECT ... FROM users WHERE email = $1`, first row. -/
def findByEmail (s : Store) (email : Option String) : Option User :=
  match email with
  | none => none
  | some e => s.users.find? (fun u => decide (u.email = e))

/-- The query `SELECT ... FROM users WHERE phone = $1`, first row. -/
def findByPhone (s : Store) (phone : String) : Option User :=
  s.users.find? (fun u => decide (u.phone = some phone))

/-- The statement `INSERT INTO users (name, email, phone, password, role,
is_active) VALUES (...) RETURNING ...`, with the constraints of the schema:
`name`, `email` and `password` are `NOT NULL`, `email` is `UNIQUE` and
`role IN ('USER', 'AGENT')`.  The password column is not kept in the row. -/
def create (s : Store) (id : Int) (now : Nat) (name email phone password : Option String)
    (role : String) (isActive : Bool) : Except DbError (User × Store) :=
  match name, email, password with
  | some n, some e, some _ =>
    if s.users.any (fun u => decide (u.email = e)) then .error .unique
    else if !(decide (role = "USER") || decide (role = "AGENT")) then .error .check
    else
      let u : User := User.mk id n e phone role isActive now
      .ok (u, { s with users := s.users ++ [u] })
  | _, _, _ => .error .notNull

end userQueries

namespace Register

/-- The handler `POST /api/auth/register`, with the new store.  `role` is `none`
when the body has no role (the default `'USER'` applies).  `hashedPassword` is
the digest `hashPassword(password)` returns: the function hashes whatever it is
given, a missing password included, and does not throw. -/
def POST (s : Store) (id : Int) (now : Nat) (name email phone : JsValue)
    (hashedPassword : String) (role : Option String) : Response User × Store :=
  let role := role.getD "USER"
  let existingUserByEmail := userQueries.findByEmail s (GroupMessages.contentParam email)
  let existingUserByPhone :=
    match phone.truthy, GroupMessages.contentParam phone with
    | true, some ph => userQueries.findByPhone s ph
    | _, _ => none
  if existingUserByEmail.isSome ∨ existingUserByPhone.isSome then
    (.error 400 "User with this email or phone already exists", s)
  else
    let isActive := decide (jsToUpperCase role ≠ "AGENT")
    match userQueries.create s id now (GroupMessages.contentParam name)
        (GroupMessages.contentParam email) (GroupMessages.contentParam phone)
        (some hashedPassword) (jsToUpperCase role) isActive with
    | .error _ => (.error 500 "Failed to create account", s)
    | .ok (user, s1) => (.ok user, s1)

end Register

/-! ## Conversation list (`src/app/api/conversations/route.js`) -/

/-- Row of the conversations query. -/
structure ConversationRow where
  other_user_id : Int
  other_user_name : String
  other_user_role : String
  last_message_content : Option String
  last_message_time : Option Nat
  deriving DecidableEq, Repr

namespace Conversations

/-- The expression `CASE WHEN m.sender_id = $1 THEN m.receiver_id ELSE m.sender_id
END`. -/
def otherOf (currentUserId : Int) (m : Message) : Option Int :=
  if m.sender_id = currentUserId then m.receiver_id else some m.sender_id

/-- The rows of the correlated subqueries for a partner: the direct messages
between the two accounts, newest first. -/
def thread (s : Store) (currentUserId other : Int) : List Message :=
  List.insertionSort (fun a b : Message => b.created_at ≤ a.created_at)
    (s.messages.filter (fun m2 =>
      ((decide (m2.sender_id = currentUserId) && decide (m2.receiver_id = some other)) ||
       (decide (m2.receiver_id = some currentUserId) && decide (m2.sender_id = other))) &&
      decide (m2.group_id = none)))

/-- The order of `ORDER BY last_message_time DESC`, in which `NULL` comes first. -/
def timeDesc (a b : Option Nat) : Bool :=
  match a, b with
  | none, _ => true
  | some _, none => false
  | some x, some y => decide (y ≤ x)

/-- The select list of the conversations query on a joined account: its id, name
and role, and the content and time of the first row of the two subqueries. -/
def rowOf (s : Store) (currentUserId : Int) (u : User) : ConversationRow :=
  ConversationRow.mk u.id u.name u.role
    ((thread s currentUserId u.id).head?.map (fun m2 => m2.content))
    ((thread s currentUserId u.id).head?.map (fun m2 => m2.created_at))

/-- The conversations query: one row per direct message of the account joined with
the other account, `DISTINCT`, ordered by the time of the last message. -/
def query (s : Store) (currentUserId : Int) : List ConversationRow :=
  List.insertionSort
    (fun a b : ConversationRow => timeDesc a.last_message_time b.last_message_time = true)
    (((s.messages.filter (fun m =>
        (decide (m.sender_id = currentUserId) || decide (m.receiver_id = some currentUserId)) &&
        decide (m.group_id = none))).flatMap (fun m =>
      (s.users.filter (fun u => decide (some u.id = otherOf currentUserId m))).map (fun u =>
        rowOf s currentUserId u))).dedup)

/-- There is a direct message between the two accounts. -/
def hasHistory (s : Store) (a p : Int) : Prop :=
  ∃ m ∈ s.messages, m.group_id = none ∧
    ((m.sender_id = a ∧ m.receiver_id = some p) ∨ (m.sender_id = p ∧ m.receiver_id = some a))

/-- The `lastMessage` object of an entry. -/
structure LastMessage where
  content : String
  createdAt : Option Nat
  deriving DecidableEq, Repr

/-- An element of `conversations` in the response. -/
structure Entry where
  user : AccountView
  lastMessage : Option LastMessage
  deriving DecidableEq, Repr

/-- The object built by `conversations.map(conv => ...)`. -/
def formatRow (conv : ConversationRow) : Entry :=
  Entry.mk (AccountView.mk conv.other_user_id conv.other_user_name conv.other_user_role)
    (match conv.last_message_content with
      | some c =>
        if c = "" then none else some (LastMessage.mk c conv.last_message_time)
      | none => none)

/-- The two queries `SELECT id, name, role FROM users WHERE id != ALL($1) AND
is_active = true ORDER BY name ASC`, with `AND role = 'AGENT'` when `agentsOnly`.
Names are compared code point by code point. -/
def eligible (s : Store) (existingUserIds : List Int) (agentsOnly : Bool) : List User :=
  List.insertionSort (fun a b : User => a.name.data ≤ b.name.data)
    (s.users.filter (fun u =>
      !existingUserIds.contains u.id && u.is_active &&
      (!agentsOnly || decide (u.role = "AGENT"))))

/-- The handler `GET /api/conversations`. -/
def GET (s : Store) (session : Option Session) : Response (List Entry) :=
  match session with
  | none => .error 401 "Unauthorized"
  | some session =>
    let currentUserId := session.id
    let conversations := query s currentUserId
    let formattedConversations := conversations.map formatRow
    let existingUserIds := currentUserId :: conversations.map (fun c => c.other_user_id)
    if session.role = "AGENT" then
      .ok (formattedConversations ++ (eligible s existingUserIds false).map (fun user =>
        Entry.mk (AccountView.mk user.id user.name user.role) none))
    else
      .ok (formattedConversations ++ (eligible s existingUserIds true).map (fun agent =>
        Entry.mk (AccountView.mk agent.id agent.name agent.role) none))

end Conversations

/-! ## Concrete stores used at explicit inputs -/

/-- An active account with the given id and role. -/
def account (id : Int) (role : String) (active : Bool) : User :=
  User.mk id "n" "e" none role active 0

/-- Two USER accounts: 1 is active, 2 is inactive. -/
def twoUsersStore : Store :=
  Store.mk [account 1 "USER" true, account 2 "USER" false] [] [] [] []

/-- Two active USER accounts. -/
def activeUsersStore : Store :=
  Store.mk [account 1 "USER" true, account 2 "USER" true] [] [] [] []

/-- Group 1 with members USER 1, USER 2 and AGENT 3, and one message of each. -/
def mixedGroupStore : Store :=
  Store.mk
    [account 1 "USER" true, account 2 "USER" true, account 3 "AGENT" true]
    [Group.mk 1 "g" none (some 3) 0 0]
    [GroupMember.mk 1 3 1 0, GroupMember.mk 2 1 1 0, GroupMember.mk 3 2 1 0]
    [Message.mk 1 "from user one" 1 (some 1) none 10 10,
     Message.mk 2 "from user two" 2 (some 1) none 20 20,
     Message.mk 3 "from the agent" 3 (some 1) none 30 30]
    []

/-- Group 1 holding one message of AGENT 1 that starts with the reserved marker;
USER 2 is a member. -/
def markedGroupStore : Store :=
  Store.mk
    [account 1 "AGENT" true, account 2 "USER" true]
    [Group.mk 1 "g" none (some 1) 0 0]
    [GroupMember.mk 1 1 1 0, GroupMember.mk 2 2 1 0]
    [Message.mk 1 (whatsAppMarker ++ " call me") 1 (some 1) none 10 10]
    []

/-- The accounts AGENT 1, USER 2, USER 3 and group 1, with direct messages between
1 and 2 (one of them starting with the reserved marker), a direct message
between 1 and 3, and a group message of 2. -/
def directStore : Store :=
  Store.mk
    [account 1 "AGENT" true, account 2 "USER" true, account 3 "USER" true]
    [Group.mk 1 "g" none (some 1) 0 0]
    [GroupMember.mk 1 2 1 0]
    [Message.mk 1 "hello" 2 none (some 1) 10 10,
     Message.mk 2 "welcome" 1 none (some 2) 20 20,
     Message.mk 3 (whatsAppMarker ++ " call me") 1 none (some 2) 30 30,
     Message.mk 4 "other thread" 3 none (some 1) 40 40,
     Message.mk 5 "to the group" 2 (some 1) none 50 50]
    []

/-- Group 1 with 101 messages of AGENT 1, created at the instants 0, 1, ..., 100. -/
def busyGroupStore : Store :=
  Store.mk [account 1 "AGENT" true] [Group.mk 1 "g" none (some 1) 0 0] []
    ((List.range 101).map (fun i => Message.mk (Int.ofNat i) "m" 1 (some 1) none i i)) []

/-- Only account 2 is left in the store; a session of the deleted account 1 is
still presented. -/
def deletedActorStore : Store :=
  Store.mk [account 2 "USER" true] [] [] [] []

/-- AGENT 1 and the active USER 2, without messages. -/
def agentUserStore : Store :=
  Store.mk [account 1 "AGENT" true, account 2 "USER" true] [] [] [] []

/-- Group 1 without members, AGENT 1 and USER 2. -/
def lonelyGroupStore : Store :=
  Store.mk [account 1 "AGENT" true, account 2 "USER" true]
    [Group.mk 1 "g" none none 0 0] [] [] []

/-- AGENT 1, USER 2, USER 3 and group 5 with members 1 and 2. -/
def crowdedStore : Store :=
  Store.mk
    [account 1 "AGENT" true, account 2 "USER" true, account 3 "USER" true]
    [Group.mk 5 "old" none (some 1) 0 0]
    [GroupMember.mk 1 1 5 0, GroupMember.mk 2 2 5 0]
    [] []

/-- The clock that reads `k` at the statement numbered `k`. -/
def stepClock (k : Nat) : Nat := k

/-- AGENT 1, AGENT 4, USER 2, USER 3; note 1 of agent 1 about user 2, note 2 of
agent 4 about user 2, and note 3 of agent 4 about user 3. -/
def notesStore : Store :=
  Store.mk
    [account 1 "AGENT" true, account 2 "USER" true, account 3 "USER" true,
     account 4 "AGENT" true]
    [] [] []
    [PrivateNote.mk 1 "first" "by one about two" 1 (some 2) [] 10 10,
     PrivateNote.mk 2 "second" "by four about two" 4 (some 2) [] 20 20,
     PrivateNote.mk 3 "third" "by four about three" 4 (some 3) [] 30 30]

/-- Two logins, of admin 1 at the instant 1000 with random part "r" (session id
"rrs") and of admin 2 at the instant 2000 with random part "q" (session id
"q1jk"), followed by the logout of the second session. -/
def twoLoginCalls : List AdminSession.Call :=
  [.create "r" 1000 (AdminData.mk 1 "root" "ADMIN"),
   .create "q" 2000 (AdminData.mk 2 "ops" "ADMIN"),
   .delete (some "q1jk")]

/-- AGENT 1 "zed", USER 2 "bob", USER 3 "amy", AGENT 4 "carl", the inactive
USER 5 "dan" and USER 6 "abe"; a thread between 1 and 2 (last message at 30) and
a thread between 1 and 3 (last message at 40). -/
def inboxStore : Store :=
  Store.mk
    [User.mk 1 "zed" "e1" none "AGENT" true 0, User.mk 2 "bob" "e2" none "USER" true 0,
     User.mk 3 "amy" "e3" none "USER" true 0, User.mk 4 "carl" "e4" none "AGENT" true 0,
     User.mk 5 "dan" "e5" none "USER" false 0, User.mk 6 "abe" "e6" none "USER" true 0]
    [] []
    [Message.mk 1 "hello" 2 none (some 1) 10 10,
     Message.mk 2 "welcome" 1 none (some 2) 30 30,
     Message.mk 3 "question" 3 none (some 1) 40 40]
    []

/-! ## Lemmas on the string primitives -/

theorem jsTrim_length_eq_zero_iff (c : String) :
    (jsTrim c).length = 0 ↔ ∀ ch ∈ c.data, jsIsWhiteSpace ch = true := by
  unfold jsTrim
  rw [String.length_mk, List.length_reverse, List.length_eq_zero, List.dropWhile_eq_nil_iff]
  constructor
  · intro h
    by_contra hne
    have hd : c.data.dropWhile jsIsWhiteSpace ≠ [] := by
      intro hnil
      exact hne (List.dropWhile_eq_nil_iff.mp hnil)
    have hhead := List.head_dropWhile_not jsIsWhiteSpace c.data hd
    have hmem : (c.data.dropWhile jsIsWhiteSpace).head hd ∈
        (c.data.dropWhile jsIsWhiteSpace).reverse :=
      List.mem_reverse.mpr (List.head_mem hd)
    have := h _ hmem
    simp [hhead] at this
  · intro h x hx
    have hx1 : x ∈ c.data.dropWhile jsIsWhiteSpace := List.mem_reverse.mp hx
    exact h x ((List.dropWhile_sublist _).subset hx1)

theorem jsTrim_length_ne_zero_iff (c : String) :
    (jsTrim c).length ≠ 0 ↔ ∃ ch ∈ c.data, jsIsWhiteSpace ch = false := by
  rw [Ne, jsTrim_length_eq_zero_iff]
  push_neg
  constructor
  · rintro ⟨ch, hch, h⟩
    exact ⟨ch, hch, by simpa using h⟩
  · rintro ⟨ch, hch, h⟩
    exact ⟨ch, hch, by simp [h]⟩

theorem str_ne_empty_of_nonblank (c : String) (h : ∃ ch ∈ c.data, jsIsWhiteSpace ch = false) :
    c ≠ "" := by
  rintro rfl
  obtain ⟨ch, hch, _⟩ := h
  simp at hch

theorem mem_dropWhile_iff {α : Type} (p : α → Bool) (x : α) (hx : p x = false) (l : List α) :
    x ∈ l.dropWhile p ↔ x ∈ l := by
  induction l with
  | nil => simp
  | cons a l ih =>
    by_cases ha : p a = true
    · rw [List.dropWhile_cons_of_pos ha, ih]
      constructor
      · exact List.mem_cons_of_mem a
      · intro h
        rcases List.mem_cons.mp h with rfl | h
        · rw [hx] at ha
          cases ha
        · exact h
    · rw [List.dropWhile_cons_of_neg ha]

theorem pgText_iff (s : String) : pgText s = true ↔ ∀ ch ∈ s.data, ch ≠ Char.ofNat 0 := by
  simp [pgText, List.all_eq_true]

/-- Trimming neither removes nor adds the character U+0000. -/
theorem pgText_jsTrim (c : String) : pgText (jsTrim c) = pgText c := by
  have hz : jsIsWhiteSpace (Char.ofNat 0) = false := by decide
  have hmem : Char.ofNat 0 ∈ (jsTrim c).data ↔ Char.ofNat 0 ∈ c.data := by
    unfold jsTrim
    simp only [List.mem_reverse]
    rw [mem_dropWhile_iff _ _ hz, List.mem_reverse, mem_dropWhile_iff _ _ hz]
  rw [Bool.eq_iff_iff, pgText_iff, pgText_iff]
  constructor
  · intro h ch hch hz0
    subst hz0
    exact h _ (hmem.mpr hch) rfl
  · intro h ch hch hz0
    subst hz0
    exact h _ (hmem.mp hch) rfl

/-! ## C1 : a USER writing to a non-AGENT recipient -/

/-- C1 (as stated, refuted): with a USER session, an existing recipient whose role
is not AGENT and non-blank content, the send does not answer 403 whatever the
recipient's active status: for the inactive recipient 2 of `twoUsersStore` the
answer is 400 `Recipient is not active`. -/
theorem c1_inactive_recipient_is_400 :
    ¬ (∀ (s : Store) (id : Int) (now : Nat) (sess : Session) (userId : Int) (c : String)
        (r : User), sess.role = "USER" → userQueries.findById s userId = some r →
        r.role ≠ "AGENT" → (∃ ch ∈ c.data, jsIsWhiteSpace ch = false) →
        (DirectMessages.POST s id now (some sess) userId (.str c)).1.status = 403) := by
  intro h
  have h1 := h twoUsersStore 7 0 (Session.mk 1 "USER") 2 "hi" (account 2 "USER" false)
    (by decide) (by decide) (by decide) ⟨'h', by decide, by decide⟩
  revert h1
  decide

/-- C1 (amended): with a USER session, an existing recipient whose role is not
AGENT and non-blank content, the send answers 403 `Forbidden` when the recipient
is active and 400 when the recipient is inactive; in both cases the store is
unchanged. -/
theorem c1_user_to_non_agent (s : Store) (id : Int) (now : Nat) (sess : Session) (userId : Int)
    (c : String) (r : User) (hrole : sess.role = "USER")
    (hr : userQueries.findById s userId = some r) (hnot : r.role ≠ "AGENT")
    (hc : ∃ ch ∈ c.data, jsIsWhiteSpace ch = false) :
    (DirectMessages.POST s id now (some sess) userId (.str c)).2 = s ∧
    (r.is_active = true →
      (DirectMessages.POST s id now (some sess) userId (.str c)).1.status = 403) ∧
    (r.is_active = false →
      (DirectMessages.POST s id now (some sess) userId (.str c)).1.status = 400) := by
  have hne : c ≠ "" := str_ne_empty_of_nonblank c hc
  have hlen : (jsTrim c).length ≠ 0 := (jsTrim_length_ne_zero_iff c).mpr hc
  cases hact : r.is_active <;>
    simp [DirectMessages.POST, hne, hlen, hr, hact, hrole, hnot, Response.status]

/-- C1 (amended), at an explicit input: USER 1 writes "hi" to the active USER 2. -/
theorem c1_user_to_non_agent_witness :
    (Session.mk 1 "USER").role = "USER" ∧
    userQueries.findById activeUsersStore 2 = some (account 2 "USER" true) ∧
    (account 2 "USER" true).role ≠ "AGENT" ∧
    (∃ ch ∈ ("hi" : String).data, jsIsWhiteSpace ch = false) ∧
    ((DirectMessages.POST activeUsersStore 7 0 (some (Session.mk 1 "USER")) 2 (.str "hi")).2
        = activeUsersStore ∧
    ((account 2 "USER" true).is_active = true →
      (DirectMessages.POST activeUsersStore 7 0 (some (Session.mk 1 "USER")) 2
        (.str "hi")).1.status = 403) ∧
    ((account 2 "USER" true).is_active = false →
      (DirectMessages.POST activeUsersStore 7 0 (some (Session.mk 1 "USER")) 2
        (.str "hi")).1.status = 400)) :=
  ⟨by decide, by decide, by decide, ⟨'h', by decide, by decide⟩,
    c1_user_to_non_agent activeUsersStore 7 0 (Session.mk 1 "USER") 2 "hi"
      (account 2 "USER" true) (by decide) (by decide) (by decide) ⟨'h', by decide, by decide⟩⟩

/-! ## Lemmas on the message queries -/

theorem mem_getGroupMessages {s : Store} {groupId : Int} {limit offset : Nat}
    {r : GroupMessageRow} (h : r ∈ messageQueries.getGroupMessages s groupId limit offset) :
    ∃ m ∈ s.messages, ∃ u ∈ s.users,
      m.group_id = some groupId ∧ m.sender_id = u.id ∧ r = groupRow m u := by
  unfold messageQueries.getGroupMessages at h
  have h1 := (List.drop_sublist _ _).subset ((List.take_sublist _ _).subset h)
  rw [(List.perm_insertionSort _ _).mem_iff] at h1
  simp only [List.mem_flatMap, List.mem_filter, List.mem_map, decide_eq_true_eq] at h1
  obtain ⟨m, ⟨hm, hg⟩, u, ⟨hu, hs⟩, rfl⟩ := h1
  exact ⟨m, hm, u, hu, hg, hs, rfl⟩

theorem mem_getDirectMessages {s : Store} {a b : Int} {limit offset : Nat}
    {r : DirectMessageRow} (h : r ∈ messageQueries.getDirectMessages s a b limit offset) :
    ∃ m ∈ s.messages, ∃ u ∈ s.users,
      ((m.sender_id = a ∧ m.receiver_id = some b) ∨ (m.sender_id = b ∧ m.receiver_id = some a)) ∧
      m.sender_id = u.id ∧ r = directRow m u := by
  unfold messageQueries.getDirectMessages at h
  have h1 := (List.drop_sublist _ _).subset ((List.take_sublist _ _).subset h)
  rw [(List.perm_insertionSort _ _).mem_iff] at h1
  simp only [List.mem_flatMap, List.mem_filter, List.mem_map, decide_eq_true_eq,
    Bool.or_eq_true, Bool.and_eq_true] at h1
  obtain ⟨m, ⟨hm, hg⟩, u, ⟨hu, hs⟩, rfl⟩ := h1
  exact ⟨m, hm, u, hu, hg, hs, rfl⟩

/-- The messages of a successful group read, in terms of the query. -/
theorem groupGET_messages {s : Store} {sess : Session} {groupId : Int}
    {body : GroupMessages.GetBody}
    (h : GroupMessages.GET s (some sess) (some groupId) = .ok body) :
    body.messages =
      if sess.role = "USER" then
        (messageQueries.getGroupMessages s groupId 100 0).filter (fun msg =>
          (decide (msg.sender_id = sess.id) || decide (msg.sender_role = "AGENT")) &&
          !startsWith msg.content groupMarker)
      else
        (messageQueries.getGroupMessages s groupId 100 0).filter (fun msg =>
          !startsWith msg.content groupMarker) := by
  unfold GroupMessages.GET at h
  simp only at h
  split at h
  · cases h
  · split at h
    · cases h
    · split at h
      · cases h
      · cases h
        rfl

/-- The messages of a successful direct read, in terms of the query. -/
theorem directGET_messages {s : Store} {sess : Session} {userId : Int}
    {body : DirectMessages.GetBody} (h : DirectMessages.GET s (some sess) userId = .ok body) :
    body.messages =
      ((messageQueries.getDirectMessages s sess.id userId 50 0).filter (fun msg =>
        !startsWith msg.content directMarker)).map DirectMessages.messageView := by
  unfold DirectMessages.GET at h
  simp only at h
  split at h
  · cases h
  · split at h
    · cases h
    · split at h
      · cases h
      · cases h
        rfl

/-! ## C2 : what a USER sees of a group -/

/-- C2: for a USER viewer, every message returned by the group read was sent by
the viewer or by an AGENT (so it also passes the client-side `isMessageVisible`),
and no message sent by a different USER is in the returned list. -/
theorem c2_user_group_read_visibility (s : Store) (sess : Session) (groupId : Int)
    (body : GroupMessages.GetBody) (hrole : sess.role = "USER")
    (h : GroupMessages.GET s (some sess) (some groupId) = .ok body) :
    (∀ r ∈ body.messages, r.sender_id = sess.id ∨ r.sender_role = "AGENT") ∧
    (∀ r ∈ body.messages, isMessageVisible sess r = true) ∧
    (∀ m ∈ s.messages, ∀ u ∈ s.users, m.sender_id = u.id → u.role = "USER" →
      m.sender_id ≠ sess.id → groupRow m u ∉ body.messages) := by
  have hm := groupGET_messages h
  rw [if_pos hrole] at hm
  have key : ∀ r ∈ body.messages, r.sender_id = sess.id ∨ r.sender_role = "AGENT" := by
    intro r hr
    rw [hm, List.mem_filter] at hr
    have h2 := hr.2
    simp only [Bool.and_eq_true, Bool.or_eq_true, decide_eq_true_eq] at h2
    exact h2.1
  refine ⟨key, ?_, ?_⟩
  · intro r hr
    have := key r hr
    unfold isMessageVisible
    split
    · rfl
    · simpa using this
  · intro m _ u _ _ hu hne hmem
    rcases key _ hmem with h1 | h1
    · exact hne h1
    · have h2 : u.role = "AGENT" := h1
      rw [hu] at h2
      exact absurd h2 (by decide)

/-- C2 at an explicit input: USER 1 reads group 1 of `mixedGroupStore`. -/
theorem c2_user_group_read_visibility_witness :
    ∃ body : GroupMessages.GetBody,
      (Session.mk 1 "USER").role = "USER" ∧
      GroupMessages.GET mixedGroupStore (some (Session.mk 1 "USER")) (some 1) = .ok body ∧
      body.messages.length = 2 ∧
      (∀ r ∈ body.messages, r.sender_id = (Session.mk 1 "USER").id ∨ r.sender_role = "AGENT") ∧
      (∀ r ∈ body.messages, isMessageVisible (Session.mk 1 "USER") r = true) ∧
      (∀ m ∈ mixedGroupStore.messages, ∀ u ∈ mixedGroupStore.users, m.sender_id = u.id →
        u.role = "USER" → m.sender_id ≠ (Session.mk 1 "USER").id →
        groupRow m u ∉ body.messages) :=
  ⟨_, by decide, rfl, by decide,
    c2_user_group_read_visibility mixedGroupStore (Session.mk 1 "USER") 1 _ (by decide) rfl⟩

/-! ## C3 : the marker tested by the group read -/

/-- C3 (the code at the failing input): the literal tested by the group read is
not the literal tested by the direct read, which is the reserved marker; and the
group read of `markedGroupStore` returns the message that starts with the
reserved marker, to the AGENT viewer and to the USER viewer alike. -/
theorem c3_group_read_returns_marked_message :
    groupMarker ≠ directMarker ∧ directMarker = whatsAppMarker ∧
    (∃ body : GroupMessages.GetBody,
      GroupMessages.GET markedGroupStore (some (Session.mk 1 "AGENT")) (some 1) = .ok body ∧
      ∃ r ∈ body.messages, startsWith r.content whatsAppMarker = true) ∧
    (∃ body : GroupMessages.GetBody,
      GroupMessages.GET markedGroupStore (some (Session.mk 2 "USER")) (some 1) = .ok body ∧
      ∃ r ∈ body.messages, startsWith r.content whatsAppMarker = true) :=
  ⟨by decide, by decide, ⟨_, rfl, by decide⟩, ⟨_, rfl, by decide⟩⟩

/-! ## C4 : the marker filter of the direct read -/

/-- C4: in a successful direct read no returned message starts with the reserved
marker, and the returned list is the list of the fetched messages that do not
start with it, in fetched order, each with its id, its content, its sender and
receiver, its time and the name and role of its sender. -/
theorem c4_direct_read_marker_filter (s : Store) (sess : Session) (userId : Int)
    (body : DirectMessages.GetBody)
    (h : DirectMessages.GET s (some sess) userId = .ok body) :
    (∀ v ∈ body.messages, startsWith v.content whatsAppMarker = false) ∧
    body.messages =
      ((messageQueries.getDirectMessages s sess.id userId 50 0).filter (fun r =>
          !startsWith r.content whatsAppMarker)).map (fun r =>
        DirectMessages.MessageView.mk r.id r.content r.sender_id r.receiver_id r.created_at
          (AccountView.mk r.sender_id r.sender_name r.sender_role)) := by
  have hm := directGET_messages h
  have hmk : whatsAppMarker = directMarker := rfl
  rw [hmk]
  refine ⟨?_, ?_⟩
  · intro v hv
    rw [hm, List.mem_map] at hv
    obtain ⟨r, hr, rfl⟩ := hv
    rw [List.mem_filter] at hr
    simpa [DirectMessages.messageView] using hr.2
  · rw [hm]
    rfl

/-- C4 at an explicit input: USER 2 reads the thread with AGENT 1 in `directStore`.
Three messages are fetched, newest first; the two that do not start with the
marker are returned, in that order, with their content. -/
theorem c4_direct_read_marker_filter_witness :
    ∃ body : DirectMessages.GetBody,
      DirectMessages.GET directStore (some (Session.mk 2 "USER")) 1 = .ok body ∧
      (messageQueries.getDirectMessages directStore 2 1 50 0).map (fun r => r.content) =
        [whatsAppMarker ++ " call me", "welcome", "hello"] ∧
      body.messages =
        [DirectMessages.MessageView.mk 2 "welcome" 1 (some 2) 20 (AccountView.mk 1 "n" "AGENT"),
         DirectMessages.MessageView.mk 1 "hello" 2 (some 1) 10 (AccountView.mk 2 "n" "USER")] ∧
      ((∀ v ∈ body.messages, startsWith v.content whatsAppMarker = false) ∧
      body.messages =
        ((messageQueries.getDirectMessages directStore (Session.mk 2 "USER").id 1 50 0).filter
          (fun r => !startsWith r.content whatsAppMarker)).map (fun r =>
            DirectMessages.MessageView.mk r.id r.content r.sender_id r.receiver_id r.created_at
              (AccountView.mk r.sender_id r.sender_name r.sender_role))) :=
  ⟨_, rfl, by decide, by decide,
    c4_direct_read_marker_filter directStore (Session.mk 2 "USER") 1 _ rfl⟩

/-! ## C5 : when the group read is denied -/

theorem getMembership_eq_none_iff (s : Store) (userId groupId : Int) :
    groupQueries.getMembership s userId groupId = none ↔
      ¬ ∃ gm ∈ s.group_members, gm.user_id = userId ∧ gm.group_id = groupId := by
  unfold groupQueries.getMembership
  rw [List.find?_eq_none]
  simp

theorem pgInteger_iff (n : Int) :
    pgInteger n = true ↔ (-2147483648 ≤ n ∧ n ≤ 2147483647) := by
  simp [pgInteger]

theorem pgInteger_false_iff (n : Int) :
    pgInteger n = false ↔ (n < -2147483648 ∨ 2147483647 < n) := by
  rw [← Bool.not_eq_true, pgInteger_iff]
  omega

/-- The group read at a group id inside `INTEGER` answers 403 exactly when the
actor is not an AGENT and has no membership row. -/
theorem groupGET_403_iff (s : Store) (sess : Session) (g : Int) (hg : pgInteger g = true) :
    (GroupMessages.GET s (some sess) (some g)).status = 403 ↔
      (sess.role ≠ "AGENT" ∧ groupQueries.getMembership s sess.id g = none) := by
  unfold GroupMessages.GET
  simp only [hg, Bool.not_true, Bool.false_eq_true, if_false]
  split
  · rename_i hc
    simp only [Response.status, true_iff]
    exact ⟨hc.2, Option.isNone_iff_eq_none.mp hc.1⟩
  · rename_i hc
    have hne : ¬ (sess.role ≠ "AGENT" ∧
        groupQueries.getMembership s sess.id g = none) := by
      rintro ⟨h1, h2⟩
      exact hc ⟨Option.isNone_iff_eq_none.mpr h2, h1⟩
    split <;> simp [Response.status, hne]

/-- The group read at a group id that is `NaN` or outside `INTEGER` answers 500. -/
theorem groupGET_invalid_id (s : Store) (sess : Session) (groupId : Option Int)
    (h : groupId = none ∨ ∃ g, groupId = some g ∧ pgInteger g = false) :
    GroupMessages.GET s (some sess) groupId = .error 500 "Failed to fetch chat" := by
  rcases h with rfl | ⟨g, rfl, hg⟩
  · rfl
  · simp [GroupMessages.GET, hg]

/-- C5 (as stated, refuted): the group read of an actor that is not an AGENT and
has no membership row is not always answered 403: USER 2 of `lonelyGroupStore`
asks for the group id 2147483648, for which no membership row exists; the
membership query runs before the guard, the server rejects the id, and the
answer is 500. -/
theorem c5_invalid_group_id_is_500 :
    ¬ (∀ (s : Store) (sess : Session) (groupId : Option Int),
        (GroupMessages.GET s (some sess) groupId).status = 403 ↔
          (sess.role ≠ "AGENT" ∧
            ¬ ∃ gm ∈ s.group_members, gm.user_id = sess.id ∧ some gm.group_id = groupId)) := by
  intro h
  have h1 := (h lonelyGroupStore (Session.mk 2 "USER") (some 2147483648)).mpr
    ⟨by decide, by decide⟩
  revert h1
  decide

/-- C5 (amended): with a session, the group read answers 403 if and only if the
group id is a number inside `INTEGER` (from -2147483648 to 2147483647), the role
is not AGENT and no `group_members` row exists for (actor, group); for a group
id that is `NaN` or outside `INTEGER` the answer is 500 whatever the role; an
AGENT never gets 403, member or not; without a session the answer is 401. -/
theorem c5_group_read_forbidden_iff (s : Store) (sess : Session) (groupId : Option Int) :
    ((GroupMessages.GET s (some sess) groupId).status = 403 ↔
      ∃ g, groupId = some g ∧ (-2147483648 ≤ g ∧ g ≤ 2147483647) ∧ sess.role ≠ "AGENT" ∧
        ¬ ∃ gm ∈ s.group_members, gm.user_id = sess.id ∧ gm.group_id = g) ∧
    ((groupId = none ∨ ∃ g, groupId = some g ∧ (g < -2147483648 ∨ 2147483647 < g)) →
      (GroupMessages.GET s (some sess) groupId).status = 500) ∧
    (sess.role = "AGENT" → (GroupMessages.GET s (some sess) groupId).status ≠ 403) ∧
    (GroupMessages.GET s none groupId).status = 401 := by
  have key : (GroupMessages.GET s (some sess) groupId).status = 403 ↔
      ∃ g, groupId = some g ∧ (-2147483648 ≤ g ∧ g ≤ 2147483647) ∧ sess.role ≠ "AGENT" ∧
        ¬ ∃ gm ∈ s.group_members, gm.user_id = sess.id ∧ gm.group_id = g := by
    cases groupId with
    | none =>
      rw [groupGET_invalid_id s sess none (Or.inl rfl)]
      simp [Response.status]
    | some g =>
      cases hg : pgInteger g with
      | false =>
        rw [groupGET_invalid_id s sess (some g) (Or.inr ⟨g, rfl, hg⟩)]
        have hng := (pgInteger_false_iff g).mp hg
        constructor
        · intro h
          simp [Response.status] at h
        · rintro ⟨g1, h1, h2, _⟩
          cases h1
          omega
      | true =>
        rw [groupGET_403_iff s sess g hg, getMembership_eq_none_iff]
        constructor
        · rintro ⟨h1, h2⟩
          exact ⟨g, rfl, (pgInteger_iff g).mp hg, h1, h2⟩
        · rintro ⟨g1, h1, _, h2, h3⟩
          cases h1
          exact ⟨h2, h3⟩
  refine ⟨key, ?_, ?_, ?_⟩
  · intro h
    rw [groupGET_invalid_id s sess groupId ?_]
    · rfl
    · rcases h with h | ⟨g, h1, h2⟩
      · exact Or.inl h
      · exact Or.inr ⟨g, h1, (pgInteger_false_iff g).mpr h2⟩
  · intro hr hst
    obtain ⟨_, _, _, h, _⟩ := key.mp hst
    exact h hr
  · cases groupId <;> rfl

/-! ## C8 : the direct read returns only the thread of the two participants -/

/-- C8: every message returned by the direct read of actor `a` with peer `b` is
the view of a stored message with (sender `a`, receiver `b`) or (sender `b`,
receiver `a`); a stored message of which the actor is neither sender nor
receiver, and a message without receiver (a group message), is never returned. -/
theorem c8_direct_read_participants (s : Store) (sess : Session) (userId : Int)
    (body : DirectMessages.GetBody)
    (h : DirectMessages.GET s (some sess) userId = .ok body) :
    (∀ v ∈ body.messages,
      (v.senderId = sess.id ∧ v.receiverId = some userId) ∨
      (v.senderId = userId ∧ v.receiverId = some sess.id)) ∧
    (∀ v ∈ body.messages, ∃ m ∈ s.messages, ∃ u ∈ s.users,
      v = DirectMessages.messageView (directRow m u) ∧
      ((m.sender_id = sess.id ∧ m.receiver_id = some userId) ∨
       (m.sender_id = userId ∧ m.receiver_id = some sess.id))) ∧
    (∀ m ∈ s.messages, ∀ u : User,
      DirectMessages.messageView (directRow m u) ∈ body.messages →
      (m.sender_id = sess.id ∨ m.receiver_id = some sess.id) ∧ m.receiver_id ≠ none) := by
  have hm := directGET_messages h
  have src : ∀ v ∈ body.messages, ∃ m ∈ s.messages, ∃ u ∈ s.users,
      v = DirectMessages.messageView (directRow m u) ∧
      ((m.sender_id = sess.id ∧ m.receiver_id = some userId) ∨
       (m.sender_id = userId ∧ m.receiver_id = some sess.id)) := by
    intro v hv
    rw [hm, List.mem_map] at hv
    obtain ⟨r, hr, rfl⟩ := hv
    obtain ⟨m, hmem, u, hu, hpair, _, rfl⟩ := mem_getDirectMessages (List.mem_filter.mp hr).1
    exact ⟨m, hmem, u, hu, rfl, hpair⟩
  have key : ∀ v ∈ body.messages,
      (v.senderId = sess.id ∧ v.receiverId = some userId) ∨
      (v.senderId = userId ∧ v.receiverId = some sess.id) := by
    intro v hv
    obtain ⟨m, _, u, _, rfl, hpair⟩ := src v hv
    exact hpair
  refine ⟨key, src, ?_⟩
  intro m _ u hv
  have hk := key _ hv
  simp only [DirectMessages.messageView, directRow] at hk
  rcases hk with ⟨h1, h2⟩ | ⟨h1, h2⟩
  · exact ⟨Or.inl h1, by simp [h2]⟩
  · exact ⟨Or.inr h2, by simp [h2]⟩

/-- C8 at an explicit input: AGENT 1 reads the thread with USER 2 in `directStore`,
which also holds a thread between 1 and 3 and a group message of 2. -/
theorem c8_direct_read_participants_witness :
    ∃ body : DirectMessages.GetBody,
      DirectMessages.GET directStore (some (Session.mk 1 "AGENT")) 2 = .ok body ∧
      body.messages.length = 2 ∧
      ((∀ v ∈ body.messages,
        (v.senderId = (Session.mk 1 "AGENT").id ∧ v.receiverId = some 2) ∨
        (v.senderId = 2 ∧ v.receiverId = some (Session.mk 1 "AGENT").id)) ∧
      (∀ v ∈ body.messages, ∃ m ∈ directStore.messages, ∃ u ∈ directStore.users,
        v = DirectMessages.messageView (directRow m u) ∧
        ((m.sender_id = (Session.mk 1 "AGENT").id ∧ m.receiver_id = some 2) ∨
         (m.sender_id = 2 ∧ m.receiver_id = some (Session.mk 1 "AGENT").id))) ∧
      (∀ m ∈ directStore.messages, ∀ u : User,
        DirectMessages.messageView (directRow m u) ∈ body.messages →
        (m.sender_id = (Session.mk 1 "AGENT").id ∨
          m.receiver_id = some (Session.mk 1 "AGENT").id) ∧ m.receiver_id ≠ none)) :=
  ⟨_, rfl, by decide,
    c8_direct_read_participants directStore (Session.mk 1 "AGENT") 2 _ rfl⟩

/-! ## C6 : what an AGENT sees of a group -/

theorem filter_id_length_le_one (l : List User) (x : Int) (h : (l.map (fun u => u.id)).Nodup) :
    (l.filter (fun u => decide (x = u.id))).length ≤ 1 := by
  induction l with
  | nil => simp
  | cons a l ih =>
    rw [List.map_cons, List.nodup_cons] at h
    by_cases hx : x = a.id
    · have hnil : l.filter (fun u => decide (x = u.id)) = [] := by
        rw [List.filter_eq_nil_iff]
        intro u hu hd
        have hxu : x = u.id := by simpa using hd
        exact h.1 (List.mem_map.mpr ⟨u, hu, by rw [← hxu, hx]⟩)
      rw [List.filter_cons, if_pos (by simpa using hx), hnil]
      simp
    · simpa [List.filter_cons, hx] using ih h.2

theorem flatMap_length_le {α β : Type} (f : α → List β) (l : List α)
    (h : ∀ a ∈ l, (f a).length ≤ 1) : (l.flatMap f).length ≤ l.length := by
  induction l with
  | nil => simp
  | cons a l ih =>
    rw [List.flatMap_cons, List.length_append, List.length_cons]
    have h1 := h a (List.mem_cons_self a l)
    have h2 := ih (fun b hb => h b (List.mem_cons_of_mem a hb))
    omega

theorem getGroupMessages_length_le (s : Store) (groupId : Int) (limit offset : Nat) :
    (messageQueries.getGroupMessages s groupId limit offset).length ≤ limit := by
  unfold messageQueries.getGroupMessages
  rw [List.length_take]
  exact Nat.min_le_left _ _

theorem mem_getGroupMessages_of_le {s : Store} {groupId : Int} {limit : Nat}
    (hkey : (s.users.map (fun u => u.id)).Nodup)
    (hcount : (s.messages.filter (fun m => decide (m.group_id = some groupId))).length ≤ limit)
    {m : Message} {u : User} (hm : m ∈ s.messages) (hg : m.group_id = some groupId)
    (hu : u ∈ s.users) (hs : m.sender_id = u.id) :
    groupRow m u ∈ messageQueries.getGroupMessages s groupId limit 0 := by
  unfold messageQueries.getGroupMessages
  rw [List.drop_zero, List.take_of_length_le]
  · rw [(List.perm_insertionSort _ _).mem_iff]
    simp only [List.mem_flatMap, List.mem_filter, List.mem_map, decide_eq_true_eq]
    exact ⟨m, ⟨hm, hg⟩, u, ⟨hu, hs⟩, rfl⟩
  · rw [List.length_insertionSort]
    refine le_trans (flatMap_length_le _ _ ?_) hcount
    intro a _
    rw [List.length_map]
    exact filter_id_length_le_one s.users a.sender_id hkey

/-- C6 (as stated, refuted): the group read of an AGENT does not return every
stored message of the group however many there are: of the 101 messages of
`busyGroupStore`, none of which starts with the marker, the oldest is missing. -/
theorem c6_limit_drops_oldest_message :
    ¬ (∀ (s : Store) (sess : Session) (groupId : Int) (body : GroupMessages.GetBody),
        sess.role = "AGENT" → GroupMessages.GET s (some sess) (some groupId) = .ok body →
        ∀ m ∈ s.messages, m.group_id = some groupId →
          startsWith m.content whatsAppMarker = false →
          ∃ r ∈ body.messages, r.id = m.id) := by
  intro h
  have h1 := h busyGroupStore (Session.mk 1 "AGENT") 1 _ (by decide) rfl
    (Message.mk 0 "m" 1 (some 1) none 0 0) (by decide) (by decide) (by decide)
  revert h1
  decide

/-- C6 (amended): the group read of an AGENT returns at most 100 messages; when
the group has at most 100 stored messages (account ids being unique), every
stored message of the group that starts neither with the reserved marker nor
with the literal the route tests is returned with the name and role of its
sender, whoever sent it. -/
theorem c6_agent_group_read_complete (s : Store) (sess : Session) (groupId : Int)
    (body : GroupMessages.GetBody) (hrole : sess.role = "AGENT")
    (h : GroupMessages.GET s (some sess) (some groupId) = .ok body)
    (hkey : (s.users.map (fun u => u.id)).Nodup)
    (hcount : (s.messages.filter (fun m => decide (m.group_id = some groupId))).length ≤ 100) :
    body.messages.length ≤ 100 ∧
    (∀ m ∈ s.messages, m.group_id = some groupId → ∀ u ∈ s.users, m.sender_id = u.id →
      startsWith m.content whatsAppMarker = false → startsWith m.content groupMarker = false →
      groupRow m u ∈ body.messages) := by
  have hm := groupGET_messages h
  have hnu : ¬ sess.role = "USER" := by
    rw [hrole]
    decide
  rw [if_neg hnu] at hm
  constructor
  · rw [hm]
    exact le_trans (List.length_filter_le _ _) (getGroupMessages_length_le s groupId 100 0)
  · intro m hmem hg u hu hs _ hnot
    rw [hm, List.mem_filter]
    refine ⟨mem_getGroupMessages_of_le hkey hcount hmem hg hu hs, ?_⟩
    simp [groupRow, hnot]

/-- C6 (amended) at an explicit input: AGENT 3 reads group 1 of `mixedGroupStore`
and gets its three messages. -/
theorem c6_agent_group_read_complete_witness :
    ∃ body : GroupMessages.GetBody,
      (Session.mk 3 "AGENT").role = "AGENT" ∧
      GroupMessages.GET mixedGroupStore (some (Session.mk 3 "AGENT")) (some 1) = .ok body ∧
      (mixedGroupStore.users.map (fun u => u.id)).Nodup ∧
      (mixedGroupStore.messages.filter (fun m => decide (m.group_id = some 1))).length ≤ 100 ∧
      body.messages.length = 3 ∧
      (body.messages.length ≤ 100 ∧
      (∀ m ∈ mixedGroupStore.messages, m.group_id = some 1 →
        ∀ u ∈ mixedGroupStore.users, m.sender_id = u.id →
        startsWith m.content whatsAppMarker = false →
        startsWith m.content groupMarker = false →
        groupRow m u ∈ body.messages)) :=
  ⟨_, by decide, rfl, by decide, by decide, by decide,
    c6_agent_group_read_complete mixedGroupStore (Session.mk 3 "AGENT") 1 _ (by decide) rfl
      (by decide) (by decide)⟩

/-! ## C7 : when the direct send stores a message -/

/-- The direct send on string content, as one decision list. -/
theorem directPOST_str (s : Store) (id : Int) (now : Nat) (sess : Session) (userId : Int)
    (c : String) :
    DirectMessages.POST s id now (some sess) userId (.str c) =
      if (jsTrim c).length = 0 then (.error 400 "Message content is required", s)
      else match userQueries.findById s userId with
        | none => (.error 404 "Recipient not found", s)
        | some r =>
          if r.is_active = false then (.error 400 "Recipient is not active", s)
          else if sess.role = "USER" ∧ r.role ≠ "AGENT" then
            (.error 403 "Users can only message agents", s)
          else if pgText c = false then (.error 500 "Failed to send message", s)
          else match userQueries.findById s sess.id with
            | none => (.error 500 "Failed to send message", s)
            | some a =>
              (.ok (DirectMessages.PostBody.mk id (jsTrim c) sess.id (some userId) now
                  (AccountView.mk a.id a.name a.role) (AccountView.mk r.id r.name r.role)),
                { s with messages := s.messages ++
                    [Message.mk id (jsTrim c) sess.id none (some userId) now now] }) := by
  unfold DirectMessages.POST
  simp only
  by_cases hlen : (jsTrim c).length = 0
  · simp [hlen]
  · have hne : c ≠ "" := by
      rintro rfl
      exact hlen (by decide)
    simp only [hne, hlen, false_or, if_false]
    cases hr : userQueries.findById s userId with
    | none => simp
    | some r =>
      simp only
      cases hact : r.is_active with
      | false => simp
      | true =>
        simp only [Bool.not_true, Bool.false_eq_true, if_false]
        by_cases hrole : sess.role = "USER" ∧ r.role ≠ "AGENT"
        · simp [hrole]
        · simp only [hrole, if_false]
          cases htx : pgText c with
          | false => simp [messageQueries.create, pgText_jsTrim, htx]
          | true =>
            cases ha : userQueries.findById s sess.id with
            | none => simp [messageQueries.create, pgText_jsTrim, htx, ha]
            | some a =>
              have ha1 : userQueries.findById
                  { s with messages := s.messages ++
                      [Message.mk id (jsTrim c) sess.id none (some userId) now now] } sess.id
                    = some a := ha
              simp [messageQueries.create, pgText_jsTrim, htx, ha, hr, ha1]

/-- C7 (as stated, refuted): the four conditions (non-blank content, existing and
active recipient, role rule) do not suffice for the send to store a message:
with the session of an account that is no longer in `users`, the foreign key of
`sender_id` rejects the insert and nothing is stored. -/
theorem c7_deleted_actor_stores_nothing :
    ¬ (∀ (s : Store) (id : Int) (now : Nat) (sess : Session) (userId : Int) (c : String),
        (DirectMessages.POST s id now (some sess) userId (.str c)).2.messages ≠ s.messages ↔
          ((∃ ch ∈ c.data, jsIsWhiteSpace ch = false) ∧
            ∃ r, userQueries.findById s userId = some r ∧ r.is_active = true ∧
              (sess.role ≠ "USER" ∨ r.role = "AGENT"))) := by
  intro h
  have h1 := (h deletedActorStore 7 0 (Session.mk 1 "AGENT") 2 "hi").mpr
    ⟨⟨'h', by decide, by decide⟩, account 2 "USER" true, by decide, by decide, by decide⟩
  revert h1
  decide

/-- The direct send on string content either stores one row and answers 200,
under the five conditions, or leaves the store unchanged and does not answer
200. -/
theorem directPOST_cases (s : Store) (id : Int) (now : Nat) (sess : Session) (userId : Int)
    (c : String) :
    (((∃ ch ∈ c.data, jsIsWhiteSpace ch = false) ∧ (∀ ch ∈ c.data, ch ≠ Char.ofNat 0) ∧
        (∃ r, userQueries.findById s userId = some r ∧ r.is_active = true ∧
          (sess.role ≠ "USER" ∨ r.role = "AGENT")) ∧
        (∃ a, userQueries.findById s sess.id = some a)) ∧
      (DirectMessages.POST s id now (some sess) userId (.str c)).2 =
        { s with messages := s.messages ++
            [Message.mk id (jsTrim c) sess.id none (some userId) now now] } ∧
      (DirectMessages.POST s id now (some sess) userId (.str c)).1.status = 200) ∨
    (¬ ((∃ ch ∈ c.data, jsIsWhiteSpace ch = false) ∧ (∀ ch ∈ c.data, ch ≠ Char.ofNat 0) ∧
        (∃ r, userQueries.findById s userId = some r ∧ r.is_active = true ∧
          (sess.role ≠ "USER" ∨ r.role = "AGENT")) ∧
        (∃ a, userQueries.findById s sess.id = some a)) ∧
      (DirectMessages.POST s id now (some sess) userId (.str c)).2 = s ∧
      (DirectMessages.POST s id now (some sess) userId (.str c)).1.status ≠ 200) := by
  rw [directPOST_str, ← jsTrim_length_ne_zero_iff, ← pgText_iff]
  by_cases hlen : (jsTrim c).length = 0
  · right
    rw [if_pos hlen]
    exact ⟨fun h => h.1 hlen, rfl, by simp [Response.status]⟩
  rw [if_neg hlen]
  cases hr : userQueries.findById s userId with
  | none =>
    right
    refine ⟨?_, rfl, by simp [Response.status]⟩
    rintro ⟨_, _, ⟨r, h, _⟩, _⟩
    cases h
  | some r =>
    simp only
    cases hact : r.is_active with
    | false =>
      right
      rw [if_pos rfl]
      refine ⟨?_, rfl, by simp [Response.status]⟩
      rintro ⟨_, _, ⟨r1, h, h1, _⟩, _⟩
      cases h
      rw [hact] at h1
      cases h1
    | true =>
      rw [if_neg (by simp)]
      by_cases hrole : sess.role = "USER" ∧ r.role ≠ "AGENT"
      · right
        rw [if_pos hrole]
        refine ⟨?_, rfl, by simp [Response.status]⟩
        rintro ⟨_, _, ⟨r1, h, _, h1 | h1⟩, _⟩
        · exact h1 hrole.1
        · cases h
          exact hrole.2 h1
      · rw [if_neg hrole]
        have hok : sess.role ≠ "USER" ∨ r.role = "AGENT" := by
          by_cases h1 : sess.role = "USER"
          · right
            by_contra h2
            exact hrole ⟨h1, h2⟩
          · left
            exact h1
        cases htx : pgText c with
        | false =>
          right
          rw [if_pos rfl]
          refine ⟨?_, rfl, by simp [Response.status]⟩
          rintro ⟨_, h, _, _⟩
          cases h
        | true =>
          rw [if_neg (by simp)]
          cases ha : userQueries.findById s sess.id with
          | none =>
            right
            refine ⟨?_, rfl, by simp [Response.status]⟩
            rintro ⟨_, _, _, a, h⟩
            cases h
          | some a =>
            left
            exact ⟨⟨hlen, rfl, ⟨r, rfl, hact, hok⟩, a, rfl⟩, rfl, rfl⟩

/-- C7 (amended): the direct send stores a message if and only if the content has
a non-whitespace character and no character U+0000 (which the server rejects),
the recipient exists and is active, the role rule holds (actor not USER, or
recipient AGENT) and the account of the actor exists.  When it stores, exactly
one row is appended, with sender the actor, receiver the recipient, no group
and the trimmed content, and the answer is 200; otherwise the store is unchanged
and the answer is not 200.  Content that is not a string, or a request without
session, leaves the store unchanged. -/
theorem c7_direct_send_stores_iff (s : Store) (id : Int) (now : Nat) (sess : Session)
    (userId : Int) (c : String) :
    ((DirectMessages.POST s id now (some sess) userId (.str c)).2.messages ≠ s.messages ↔
      ((∃ ch ∈ c.data, jsIsWhiteSpace ch = false) ∧ (∀ ch ∈ c.data, ch ≠ Char.ofNat 0) ∧
        (∃ r, userQueries.findById s userId = some r ∧ r.is_active = true ∧
          (sess.role ≠ "USER" ∨ r.role = "AGENT")) ∧
        (∃ a, userQueries.findById s sess.id = some a))) ∧
    ((DirectMessages.POST s id now (some sess) userId (.str c)).2.messages ≠ s.messages →
      (DirectMessages.POST s id now (some sess) userId (.str c)).2 =
        { s with messages := s.messages ++
            [Message.mk id (jsTrim c) sess.id none (some userId) now now] } ∧
      (DirectMessages.POST s id now (some sess) userId (.str c)).1.status = 200) ∧
    ((DirectMessages.POST s id now (some sess) userId (.str c)).2.messages = s.messages →
      (DirectMessages.POST s id now (some sess) userId (.str c)).2 = s ∧
      (DirectMessages.POST s id now (some sess) userId (.str c)).1.status ≠ 200) ∧
    (∀ content : JsValue, (∀ c1 : String, content ≠ .str c1) →
      (DirectMessages.POST s id now (some sess) userId content).2 = s) ∧
    (∀ content : JsValue, (DirectMessages.POST s id now none userId content).2 = s) := by
  have happ : ∀ m : Message, s.messages ++ [m] ≠ s.messages := by
    intro m hm
    have := congrArg List.length hm
    simp at this
  refine ⟨?_, ?_, ?_, ?_, ?_⟩
  · rcases directPOST_cases s id now sess userId c with ⟨hc, hs, _⟩ | ⟨hc, hs, _⟩
    · rw [hs]
      exact ⟨fun _ => hc, fun _ => happ _⟩
    · rw [hs]
      exact ⟨fun h => absurd rfl h, fun h => absurd h hc⟩
  · rcases directPOST_cases s id now sess userId c with ⟨_, hs, hst⟩ | ⟨_, hs, _⟩
    · intro _
      exact ⟨hs, hst⟩
    · rw [hs]
      intro h
      exact absurd rfl h
  · rcases directPOST_cases s id now sess userId c with ⟨_, hs, _⟩ | ⟨_, hs, hst⟩
    · rw [hs]
      intro h
      exact absurd h (happ _)
    · intro _
      exact ⟨hs, hst⟩
  · intro content hc
    cases content with
    | absent => rfl
    | str c1 => exact absurd rfl (hc c1)
    | other truthy text => cases truthy <;> rfl
  · intro content
    rfl

/-- C7 (amended) at explicit inputs: AGENT 1 sends "  hi " to USER 2 in
`agentUserStore` and the row with content "hi" is stored; the same send with
the content "a", U+0000, "b" is answered 500 and stores nothing. -/
theorem c7_direct_send_stores_iff_witness :
    DirectMessages.POST agentUserStore 7 5 (some (Session.mk 1 "AGENT")) 2 (.str "  hi ") =
      (.ok (DirectMessages.PostBody.mk 7 "hi" 1 (some 2) 5 (AccountView.mk 1 "n" "AGENT")
          (AccountView.mk 2 "n" "USER")),
        Store.mk [account 1 "AGENT" true, account 2 "USER" true] [] []
          [Message.mk 7 "hi" 1 none (some 2) 5 5] []) ∧
    DirectMessages.POST agentUserStore 7 5 (some (Session.mk 1 "AGENT")) 2
        (.str (String.mk ['a', Char.ofNat 0, 'b'])) =
      (.error 500 "Failed to send message", agentUserStore) ∧
    ((DirectMessages.POST agentUserStore 7 5 (some (Session.mk 1 "AGENT")) 2
        (.str "  hi ")).2.messages ≠ agentUserStore.messages ↔
      ((∃ ch ∈ ("  hi " : String).data, jsIsWhiteSpace ch = false) ∧
        (∀ ch ∈ ("  hi " : String).data, ch ≠ Char.ofNat 0) ∧
        (∃ r, userQueries.findById agentUserStore 2 = some r ∧ r.is_active = true ∧
          ((Session.mk 1 "AGENT").role ≠ "USER" ∨ r.role = "AGENT")) ∧
        (∃ a, userQueries.findById agentUserStore (Session.mk 1 "AGENT").id = some a))) :=
  ⟨by decide, by decide,
    (c7_direct_send_stores_iff agentUserStore 7 5 (Session.mk 1 "AGENT") 2 "  hi ").1⟩

/-! ## C9, C10 : the group send -/

/-- A successful insert, spelled out: the referenced rows exist, exactly one of
`groupId`, `receiverId` is set, and the row is appended. -/
theorem create_ok {s s1 : Store} {id : Int} {now : Nat} {content : Option String}
    {senderId : Int} {groupId receiverId : Option Int} {m : Message}
    (h : messageQueries.create s id now content senderId groupId receiverId = .ok (m, s1)) :
    (∃ c, content = some c ∧ m = Message.mk id c senderId groupId receiverId now now) ∧
    s1 = { s with messages := s.messages ++ [m] } ∧
    (userQueries.findById s senderId).isSome = true ∧
    (∀ g, groupId = some g → (groupQueries.findById s g).isSome = true) ∧
    ((groupId.isSome = true ∧ receiverId = none) ∨ (groupId = none ∧ receiverId.isSome = true)) := by
  unfold messageQueries.create at h
  cases content with
  | none => cases h
  | some c =>
    simp only at h
    split at h
    · cases h
    · split at h
      · cases h
      · rename_i hs
        split at h
        · cases h
        · rename_i hg
          split at h
          · cases h
          · split at h
            · cases h
            · rename_i hchk
              injection h with h
              injection h with hm hs1
              subst hm
              refine ⟨⟨c, rfl, rfl⟩, hs1.symm,
                Option.ne_none_iff_isSome.mp (by simpa using hs), ?_, ?_⟩
              · intro g hgs
                subst hgs
                exact Option.ne_none_iff_isSome.mp (by simpa using hg)
              · cases groupId <;> cases receiverId <;> simp at hchk ⊢

/-- The group send with a readable body at a group id inside `INTEGER`, by cases:
403 for a non-member that is not an AGENT, otherwise the outcome of the insert
followed by the timestamp update. -/
theorem groupPOST_some (s : Store) (id : Int) (t1 t2 : Nat) (sess : Session) (groupId : Int)
    (content : JsValue) (hg : pgInteger groupId = true) :
    GroupMessages.POST s id t1 t2 (some sess) (some groupId) (some content) =
      if (groupQueries.getMembership s sess.id groupId).isNone = true ∧ sess.role ≠ "AGENT" then
        (.error 403 "Access denied", s)
      else
        match messageQueries.create s id t1 (GroupMessages.contentParam content) sess.id
            (some groupId) none with
        | .error _ => (.error 500 "Failed to send message", s)
        | .ok (message, s1) => (.ok message, groupQueries.updateTimestamp s1 t2 groupId) := by
  unfold GroupMessages.POST
  simp only [hg, Bool.not_true, Bool.false_eq_true, if_false]

/-- The group send with an unreadable body, or at a group id that is `NaN` or
outside `INTEGER`, answers 500 and leaves the store unchanged. -/
theorem groupPOST_invalid (s : Store) (id : Int) (t1 t2 : Nat) (sess : Session)
    (groupId : Option Int) (body : Option JsValue)
    (h : body = none ∨ groupId = none ∨ ∃ g, groupId = some g ∧ pgInteger g = false) :
    GroupMessages.POST s id t1 t2 (some sess) groupId body =
      (.error 500 "Failed to send message", s) := by
  unfold GroupMessages.POST
  cases body with
  | none => rfl
  | some content =>
    cases groupId with
    | none => rfl
    | some g =>
      rcases h with h | h | ⟨g1, h1, h2⟩
      · cases h
      · cases h
      · cases h1
        simp [h2]

/-- Every message in the store after a group send that was not there before is a
message of that group from the actor, without receiver. -/
theorem groupPOST_new_message {s : Store} {id : Int} {t1 t2 : Nat} {session : Option Session}
    {groupId : Option Int} {body : Option JsValue} {m : Message}
    (hm : m ∈ (GroupMessages.POST s id t1 t2 session groupId body).2.messages)
    (hnew : m ∉ s.messages) :
    m.group_id = groupId ∧ m.group_id ≠ none ∧ m.receiver_id = none ∧
      ∃ sess, session = some sess ∧ m.sender_id = sess.id := by
  cases session with
  | none => exact absurd hm hnew
  | some sess =>
    by_cases hinv : body = none ∨ groupId = none ∨ ∃ g, groupId = some g ∧ pgInteger g = false
    · rw [groupPOST_invalid s id t1 t2 sess groupId body hinv] at hm
      exact absurd hm hnew
    · cases body with
      | none => exact absurd (Or.inl rfl) hinv
      | some content =>
        cases groupId with
        | none => exact absurd (Or.inr (Or.inl rfl)) hinv
        | some g =>
          have hg : pgInteger g = true := by
            by_contra hg
            exact hinv (Or.inr (Or.inr ⟨g, rfl, by simpa using hg⟩))
          rw [groupPOST_some s id t1 t2 sess g content hg] at hm
          split at hm
          · exact absurd hm hnew
          · split at hm
            · exact absurd hm hnew
            · rename_i message s1 hc
              obtain ⟨⟨c, _, hmsg⟩, hs1, _, _, _⟩ := create_ok hc
              subst hs1
              simp only [groupQueries.updateTimestamp, List.mem_append, List.mem_singleton] at hm
              rcases hm with hm | hm
              · exact absurd hm hnew
              · subst hm
                subst hmsg
                exact ⟨rfl, by simp, rfl, sess, rfl, rfl⟩

/-- C9 (as stated, refuted): an actor that is not AGENT and has no membership row
does not always get 403 from the group send: the route reads the body and runs
the membership query before the guard, so USER 2 of `lonelyGroupStore`, not a
member of group 1, gets 500 when the body of the request cannot be read. -/
theorem c9_unreadable_body_is_500 :
    ¬ (∀ (s : Store) (id : Int) (t1 t2 : Nat) (sess : Session) (groupId : Option Int)
        (body : Option JsValue), sess.role ≠ "AGENT" →
        (¬ ∃ gm ∈ s.group_members, gm.user_id = sess.id ∧ some gm.group_id = groupId) →
        (GroupMessages.POST s id t1 t2 (some sess) groupId body).1.status = 403) := by
  intro h
  have h1 := h lonelyGroupStore 7 5 6 (Session.mk 2 "USER") (some 1) none (by decide)
    (by decide)
  revert h1
  decide

/-- C9 (amended): for an actor that is not AGENT and has no membership row for the
group, the group send leaves the store (messages and the `updated_at` of the
group included) unchanged; it answers 403 if and only if the body of the request
can be read and the group id is a number inside `INTEGER`, and 500 otherwise.
Whenever a group send adds a message to the store, that message has `group_id`
the group, `sender_id` the actor and no `receiver_id`. -/
theorem c9_group_send_guard (s : Store) (id : Int) (t1 t2 : Nat) (sess : Session)
    (groupId : Option Int) (body : Option JsValue) :
    (sess.role ≠ "AGENT" →
      (¬ ∃ gm ∈ s.group_members, gm.user_id = sess.id ∧ some gm.group_id = groupId) →
      (GroupMessages.POST s id t1 t2 (some sess) groupId body).2 = s ∧
      ((GroupMessages.POST s id t1 t2 (some sess) groupId body).1.status = 403 ↔
        (body ≠ none ∧ ∃ g, groupId = some g ∧ -2147483648 ≤ g ∧ g ≤ 2147483647)) ∧
      ((GroupMessages.POST s id t1 t2 (some sess) groupId body).1.status ≠ 403 →
        (GroupMessages.POST s id t1 t2 (some sess) groupId body).1.status = 500)) ∧
    (∀ m ∈ (GroupMessages.POST s id t1 t2 (some sess) groupId body).2.messages,
      m ∉ s.messages →
      (∃ g, groupId = some g ∧ m.group_id = some g) ∧ m.sender_id = sess.id ∧
        m.receiver_id = none) := by
  constructor
  · intro hrole hmem
    by_cases hinv : body = none ∨ groupId = none ∨ ∃ g, groupId = some g ∧ pgInteger g = false
    · rw [groupPOST_invalid s id t1 t2 sess groupId body hinv]
      refine ⟨rfl, ⟨fun h => ?_, ?_⟩, fun _ => rfl⟩
      · simp [Response.status] at h
      · rintro ⟨hb, g, hg, h1, h2⟩
        rcases hinv with h | h | ⟨g1, h3, h4⟩
        · exact absurd h hb
        · rw [hg] at h
          cases h
        · rw [hg] at h3
          cases h3
          have := (pgInteger_false_iff g).mp h4
          omega
    · cases body with
      | none => exact absurd (Or.inl rfl) hinv
      | some content =>
        cases groupId with
        | none => exact absurd (Or.inr (Or.inl rfl)) hinv
        | some g =>
          have hg : pgInteger g = true := by
            by_contra hg
            exact hinv (Or.inr (Or.inr ⟨g, rfl, by simpa using hg⟩))
          have hnone : groupQueries.getMembership s sess.id g = none := by
            rw [getMembership_eq_none_iff]
            rintro ⟨gm, h1, h2, h3⟩
            exact hmem ⟨gm, h1, h2, by rw [h3]⟩
          rw [groupPOST_some s id t1 t2 sess g content hg, if_pos ⟨by simp [hnone], hrole⟩]
          refine ⟨rfl, ⟨fun _ => ⟨by simp, g, rfl, (pgInteger_iff g).mp hg⟩, fun _ => rfl⟩,
            fun h => absurd rfl h⟩
  · intro m hm hnew
    obtain ⟨h1, h2, h3, sess1, hs, h4⟩ := groupPOST_new_message hm hnew
    cases hs
    refine ⟨?_, h4, h3⟩
    cases groupId with
    | none => exact absurd h1 h2
    | some g => exact ⟨g, rfl, h1⟩

/-- C9 (amended) at explicit inputs: USER 2 is not a member of group 1 of
`lonelyGroupStore` and gets 403; with a group id outside `INTEGER` the answer is
500; AGENT 1 is not a member either and the message is stored. -/
theorem c9_group_send_guard_witness :
    GroupMessages.POST lonelyGroupStore 7 5 6 (some (Session.mk 2 "USER")) (some 1)
        (some (.str "hi")) = (.error 403 "Access denied", lonelyGroupStore) ∧
    GroupMessages.POST lonelyGroupStore 7 5 6 (some (Session.mk 2 "USER")) (some 2147483648)
        (some (.str "hi")) = (.error 500 "Failed to send message", lonelyGroupStore) ∧
    (GroupMessages.POST lonelyGroupStore 7 5 6 (some (Session.mk 1 "AGENT")) (some 1)
        (some (.str "hi"))).2.messages = [Message.mk 7 "hi" 1 (some 1) none 5 5] ∧
    (∀ m ∈ (GroupMessages.POST lonelyGroupStore 7 5 6 (some (Session.mk 1 "AGENT")) (some 1)
        (some (.str "hi"))).2.messages,
      m ∉ lonelyGroupStore.messages →
      (∃ g, some (1 : Int) = some g ∧ m.group_id = some g) ∧
        m.sender_id = (Session.mk 1 "AGENT").id ∧ m.receiver_id = none) :=
  ⟨by decide, by decide, by decide,
   (c9_group_send_guard lonelyGroupStore 7 5 6 (Session.mk 1 "AGENT") (some 1)
      (some (.str "hi"))).2⟩

/-- C10: after a successful group send under a non-decreasing clock, the stored
message was created at the clock of the insert, the group exists, and the
`updated_at` of the group is at least the `created_at` of that message. -/
theorem c10_group_send_bumps_timestamp (s s1 : Store) (id : Int) (t1 t2 : Nat)
    (session : Option Session) (groupId : Int) (content : JsValue) (msg : Message)
    (hclock : t1 ≤ t2)
    (h : GroupMessages.POST s id t1 t2 session (some groupId) (some content) = (.ok msg, s1)) :
    msg ∈ s1.messages ∧ msg.created_at = t1 ∧
    (∀ g ∈ s1.groups, g.id = groupId → g.updated_at = t2 ∧ msg.created_at ≤ g.updated_at) ∧
    (∃ g, groupQueries.findById s1 groupId = some g ∧ msg.created_at ≤ g.updated_at) := by
  cases session with
  | none => cases h
  | some sess =>
    cases hg : pgInteger groupId with
    | false =>
      rw [groupPOST_invalid s id t1 t2 sess (some groupId) (some content)
        (Or.inr (Or.inr ⟨groupId, rfl, hg⟩))] at h
      cases h
    | true =>
    rw [groupPOST_some s id t1 t2 sess groupId content hg] at h
    split at h
    · cases h
    · split at h
      · cases h
      · rename_i message s2 hc
        obtain ⟨⟨c, _, hmsg⟩, hs2, _, hgrp, _⟩ := create_ok hc
        injection h with hm hs1
        injection hm with hm
        subst hm
        subst hs1
        subst hs2
        have hcreated : message.created_at = t1 := by rw [hmsg]
        have hall : ∀ g ∈ (groupQueries.updateTimestamp
            { s with messages := s.messages ++ [message] } t2 groupId).groups,
            g.id = groupId → g.updated_at = t2 ∧ message.created_at ≤ g.updated_at := by
          intro g hg hid
          simp only [groupQueries.updateTimestamp, List.mem_map] at hg
          obtain ⟨g0, _, rfl⟩ := hg
          by_cases h0 : g0.id = groupId
          · rw [if_pos h0]
            exact ⟨rfl, by rw [hcreated]; exact hclock⟩
          · rw [if_neg h0] at hid
            exact absurd hid h0
        refine ⟨?_, hcreated, hall, ?_⟩
        · simp [groupQueries.updateTimestamp]
        · have hex := hgrp groupId rfl
          simp only [groupQueries.findById, List.find?_isSome, decide_eq_true_eq] at hex
          obtain ⟨g0, hg0, hid0⟩ := hex
          have hsome : (groupQueries.findById (groupQueries.updateTimestamp
              { s with messages := s.messages ++ [message] } t2 groupId) groupId).isSome
                = true := by
            simp only [groupQueries.findById, groupQueries.updateTimestamp, List.find?_isSome,
              decide_eq_true_eq, List.mem_map]
            exact ⟨{ g0 with updated_at := t2 }, ⟨g0, hg0, by simp [hid0]⟩, hid0⟩
          obtain ⟨g, hg⟩ := Option.isSome_iff_exists.mp hsome
          refine ⟨g, hg, ?_⟩
          have hmem := List.mem_of_find?_eq_some hg
          have hid : g.id = groupId := by
            have := List.find?_some hg
            simpa using this
          exact (hall g hmem hid).2

/-- C10 at an explicit input: AGENT 1 writes to group 1 of `lonelyGroupStore`; the
insert runs at instant 5 and the timestamp update at instant 6. -/
theorem c10_group_send_bumps_timestamp_witness :
    (5 : Nat) ≤ 6 ∧
    GroupMessages.POST lonelyGroupStore 7 5 6 (some (Session.mk 1 "AGENT")) (some 1)
        (some (.str "hi")) =
      (.ok (Message.mk 7 "hi" 1 (some 1) none 5 5),
        Store.mk [account 1 "AGENT" true, account 2 "USER" true] [Group.mk 1 "g" none none 0 6]
          [] [Message.mk 7 "hi" 1 (some 1) none 5 5] []) ∧
    ∃ g, groupQueries.findById
        (Store.mk [account 1 "AGENT" true, account 2 "USER" true] [Group.mk 1 "g" none none 0 6]
          [] [Message.mk 7 "hi" 1 (some 1) none 5 5] []) 1 = some g ∧
      (Message.mk 7 "hi" 1 (some 1) none 5 5).created_at ≤ g.updated_at :=
  ⟨by decide, by decide,
    (c10_group_send_bumps_timestamp lonelyGroupStore _ 7 5 6 (some (Session.mk 1 "AGENT")) 1
      (.str "hi") _ (by decide) (by decide)).2.2.2⟩

/-! ## C18, C19, C20 : the phone normaliser -/

theorem digitsOf_length (s : String) :
    (digitsOf s).length = (s.data.filter Char.isDigit).length := rfl

theorem ne_empty_of_digits {s : String} (h : 10 ≤ (digitsOf s).length) : s ≠ "" := by
  rintro rfl
  revert h
  decide

theorem startsWith_zero_cons (rest : List Char) :
    startsWith (String.mk ('0' :: rest)) "0" = true := by
  simp [startsWith, List.isPrefixOf]

theorem startsWith_zero_of_head {d : String} (h : d.data.head? ≠ some '0') :
    startsWith d "0" = false := by
  unfold startsWith
  cases hd : d.data with
  | nil => simp [List.isPrefixOf]
  | cons a l =>
    rw [hd] at h
    have ha : a ≠ '0' := by simpa using h
    have h0 : ("0" : String).data = ['0'] := rfl
    rw [h0]
    simp [List.isPrefixOf, ha.symm]

theorem startsWith_91_iff (d : String) :
    startsWith d "91" = true ↔ d.data.take 2 = ['9', '1'] := by
  unfold startsWith
  have h0 : ("91" : String).data = ['9', '1'] := rfl
  rw [h0]
  rcases d.data with _ | ⟨a, _ | ⟨b, l⟩⟩
  · simp [List.isPrefixOf]
  · simp [List.isPrefixOf]
  · simp only [List.isPrefixOf, List.take_succ_cons, List.take_zero, Bool.and_eq_true,
      beq_iff_eq, List.cons.injEq, and_true]
    constructor
    · rintro ⟨h1, h2⟩
      exact ⟨h1.symm, h2.symm⟩
    · rintro ⟨h1, h2⟩
      exact ⟨h1.symm, h2.symm⟩

/-- The normaliser on a digit string that begins with `0`. -/
theorem formatPhone_zero (s : String) (rest : List Char) (h10 : 10 ≤ (digitsOf s).length)
    (hd : (digitsOf s).data = '0' :: rest) :
    formatPhoneForWhatsApp (some s) =
      some (if rest.take 2 ≠ ['9', '1'] ∧ rest.length = 10 then "91" ++ String.mk rest
        else String.mk rest) := by
  have hne := ne_empty_of_digits h10
  have hlt : ¬ (digitsOf s).length < 10 := by omega
  have hmk : digitsOf s = String.mk ('0' :: rest) := by
    rw [← hd]
  have hsw : startsWith (digitsOf s) "0" = true := by
    rw [hmk]
    exact startsWith_zero_cons rest
  unfold formatPhoneForWhatsApp
  simp only [hne, hlt, hsw, if_true, if_false, hd, List.drop_succ_cons, List.drop_zero]
  by_cases h91 : rest.take 2 = ['9', '1']
  · have := (startsWith_91_iff (String.mk rest)).mpr h91
    simp [this, h91]
  · have : startsWith (String.mk rest) "91" = false := by
      rw [Bool.eq_false_iff]
      intro hh
      exact h91 ((startsWith_91_iff (String.mk rest)).mp hh)
    simp [this, h91]

/-- The normaliser on a digit string that does not begin with `0`. -/
theorem formatPhone_nonzero (s : String) (h10 : 10 ≤ (digitsOf s).length)
    (hd : (digitsOf s).data.head? ≠ some '0') :
    formatPhoneForWhatsApp (some s) =
      some (if (digitsOf s).data.take 2 ≠ ['9', '1'] ∧ (digitsOf s).length = 10 then
          "91" ++ digitsOf s
        else digitsOf s) := by
  have hne := ne_empty_of_digits h10
  have hlt : ¬ (digitsOf s).length < 10 := by omega
  have hsw := startsWith_zero_of_head hd
  unfold formatPhoneForWhatsApp
  simp only [hne, hlt, hsw, if_false]
  by_cases h91 : (digitsOf s).data.take 2 = ['9', '1']
  · have := (startsWith_91_iff (digitsOf s)).mpr h91
    simp [this, h91]
  · have : startsWith (digitsOf s) "91" = false := by
      rw [Bool.eq_false_iff]
      intro hh
      exact h91 ((startsWith_91_iff (digitsOf s)).mp hh)
    simp [this, h91]

/-- C18: the normaliser returns `null` if and only if the phone is absent, empty,
or has fewer than ten ASCII digits; "123" is rejected. -/
theorem c18_format_null_iff (p : Option String) :
    (formatPhoneForWhatsApp p = none ↔
      (p = none ∨ p = some "" ∨
        ∃ s, p = some s ∧ (s.data.filter Char.isDigit).length < 10)) ∧
    formatPhoneForWhatsApp (some "123") = none := by
  refine ⟨?_, by decide⟩
  cases p with
  | none => simp [formatPhoneForWhatsApp]
  | some s =>
    by_cases hne : s = ""
    · simp [formatPhoneForWhatsApp, hne]
    · by_cases hlt : (s.data.filter Char.isDigit).length < 10
      · have hlt1 : (digitsOf s).length < 10 := hlt
        simp [formatPhoneForWhatsApp, hne, hlt, hlt1]
      · have hlt1 : ¬ (digitsOf s).length < 10 := hlt
        simp [formatPhoneForWhatsApp, hne, hlt, hlt1]

/-- C19 (as stated, refuted): a ten-digit string is not always prefixed with 91:
"9123456789" already begins with 91 and is returned unchanged. -/
theorem c19_ten_digits_starting_91_unchanged :
    ¬ (∀ s : String, 10 ≤ (digitsOf s).length →
        (∀ rest, (digitsOf s).data = '0' :: rest → rest.length = 10 →
          formatPhoneForWhatsApp (some s) = some ("91" ++ String.mk rest)) ∧
        ((digitsOf s).data.head? ≠ some '0' → (digitsOf s).length = 10 →
          formatPhoneForWhatsApp (some s) = some ("91" ++ digitsOf s))) := by
  intro h
  have h1 := (h "9123456789" (by decide)).2 (by decide) (by decide)
  revert h1
  decide

/-- C19 (amended): for a phone string with at least ten digits whose digit string,
after dropping one leading 0 if present, has exactly ten digits, the normaliser
returns "91" followed by those ten digits when they do not begin with 91, and
returns the ten digits unchanged when they begin with 91. -/
theorem c19_ten_digits_prefixed (s : String) (h10 : 10 ≤ (digitsOf s).length) :
    (∀ rest, (digitsOf s).data = '0' :: rest → rest.length = 10 →
      (rest.take 2 ≠ ['9', '1'] →
        formatPhoneForWhatsApp (some s) = some ("91" ++ String.mk rest)) ∧
      (rest.take 2 = ['9', '1'] →
        formatPhoneForWhatsApp (some s) = some (String.mk rest))) ∧
    ((digitsOf s).data.head? ≠ some '0' → (digitsOf s).length = 10 →
      ((digitsOf s).data.take 2 ≠ ['9', '1'] →
        formatPhoneForWhatsApp (some s) = some ("91" ++ digitsOf s)) ∧
      ((digitsOf s).data.take 2 = ['9', '1'] →
        formatPhoneForWhatsApp (some s) = some (digitsOf s))) := by
  constructor
  · intro rest hd hlen
    rw [formatPhone_zero s rest h10 hd]
    constructor
    · intro h91
      rw [if_pos ⟨h91, hlen⟩]
    · intro h91
      rw [if_neg (fun hh => hh.1 h91)]
  · intro hd hlen
    rw [formatPhone_nonzero s h10 hd]
    constructor
    · intro h91
      rw [if_pos ⟨h91, hlen⟩]
    · intro h91
      rw [if_neg (fun hh => hh.1 h91)]

/-- C19 (amended) at explicit inputs: "9876543210" and "09876543210" both give
"919876543210". -/
theorem c19_ten_digits_prefixed_witness :
    10 ≤ (digitsOf "09876543210").length ∧
    formatPhoneForWhatsApp (some "9876543210") = some "919876543210" ∧
    formatPhoneForWhatsApp (some "09876543210") = some "919876543210" ∧
    (∀ rest, (digitsOf "09876543210").data = '0' :: rest → rest.length = 10 →
      (rest.take 2 ≠ ['9', '1'] →
        formatPhoneForWhatsApp (some "09876543210") = some ("91" ++ String.mk rest)) ∧
      (rest.take 2 = ['9', '1'] →
        formatPhoneForWhatsApp (some "09876543210") = some (String.mk rest))) :=
  ⟨by decide, by decide, by decide, (c19_ten_digits_prefixed "09876543210" (by decide)).1⟩

/-- C20: for a phone string with at least ten digits whose digit string, after
dropping one leading 0 if present, does not have exactly ten digits, the
normaliser returns that string unchanged; only one leading 0 is dropped. -/
theorem c20_other_lengths_unchanged (s : String) (h10 : 10 ≤ (digitsOf s).length) :
    (∀ rest, (digitsOf s).data = '0' :: rest → rest.length ≠ 10 →
      formatPhoneForWhatsApp (some s) = some (String.mk rest)) ∧
    ((digitsOf s).data.head? ≠ some '0' → (digitsOf s).length ≠ 10 →
      formatPhoneForWhatsApp (some s) = some (digitsOf s)) := by
  constructor
  · intro rest hd hlen
    rw [formatPhone_zero s rest h10 hd, if_neg (fun hh => hlen hh.2)]
  · intro hd hlen
    rw [formatPhone_nonzero s h10 hd, if_neg (fun hh => hlen hh.2)]

/-- C20 at explicit inputs: "+91 98765 43210" gives "919876543210", and of the two
leading zeros of "00123456789012" only the first is dropped. -/
theorem c20_other_lengths_unchanged_witness :
    10 ≤ (digitsOf "00123456789012").length ∧
    formatPhoneForWhatsApp (some "+91 98765 43210") = some "919876543210" ∧
    formatPhoneForWhatsApp (some "00123456789012") = some "0123456789012" ∧
    (∀ rest, (digitsOf "00123456789012").data = '0' :: rest → rest.length ≠ 10 →
      formatPhoneForWhatsApp (some "00123456789012") = some (String.mk rest)) :=
  ⟨by decide, by decide, by decide,
    (c20_other_lengths_unchanged "00123456789012" (by decide)).1⟩

/-! ## C11, C12 : group creation -/

theorem groupCreate_ok {s s1 : Store} {id : Int} {now : Nat} {name description : Option String}
    {createdBy : Int} {g : Group}
    (h : groupQueries.create s id now name description createdBy = .ok (g, s1)) :
    g.id = id ∧ g.created_by = some createdBy ∧ groupQueries.findById s id = none ∧
      s1 = { s with groups := s.groups ++ [g] } := by
  unfold groupQueries.create at h
  cases name with
  | none => cases h
  | some n =>
    simp only at h
    split at h
    · cases h
    · rename_i hpk
      split at h
      · cases h
      · injection h with h
        injection h with hg hs1
        subst hg
        refine ⟨rfl, rfl, ?_, hs1.symm⟩
        cases hf : groupQueries.findById s id with
        | none => rfl
        | some x => simp [hf] at hpk

theorem any_member_iff (s : Store) (groupId userId : Int) :
    s.group_members.any (fun gm =>
      decide (gm.user_id = userId) && decide (gm.group_id = groupId)) = true ↔
      userId ∈ memberIdsOf s groupId := by
  unfold memberIdsOf
  simp only [List.any_eq_true, Bool.and_eq_true, decide_eq_true_eq, List.mem_map,
    List.mem_filter]
  constructor
  · rintro ⟨gm, hm, hu, hg⟩
    exact ⟨gm, ⟨hm, hg⟩, hu⟩
  · rintro ⟨gm, ⟨hm, hg⟩, hu⟩
    exact ⟨gm, hm, hu, hg⟩

theorem addMember_ok {s s1 : Store} {id : Int} {now : Nat} {groupId userId : Int}
    (h : groupQueries.addMember s id now groupId userId = .ok s1) :
    memberIdsOf s1 groupId =
      if userId ∈ memberIdsOf s groupId then memberIdsOf s groupId
      else memberIdsOf s groupId ++ [userId] := by
  unfold groupQueries.addMember at h
  split at h
  · cases h
  · split at h
    · cases h
    · split at h
      · rename_i hany
        injection h with h
        subst h
        rw [if_pos ((any_member_iff s groupId userId).mp hany)]
      · rename_i hany
        injection h with h
        subst h
        have hnot : userId ∉ memberIdsOf s groupId := fun hm =>
          hany ((any_member_iff s groupId userId).mpr hm)
        rw [if_neg hnot]
        simp [memberIdsOf, List.filter_append]

theorem addMember_nodup {s s1 : Store} {id : Int} {now : Nat} {groupId userId : Int}
    (h : groupQueries.addMember s id now groupId userId = .ok s1)
    (hn : (memberIdsOf s groupId).Nodup) :
    (memberIdsOf s1 groupId).Nodup ∧
      ∀ u, u ∈ memberIdsOf s1 groupId ↔ u ∈ memberIdsOf s groupId ∨ u = userId := by
  rw [addMember_ok h]
  by_cases hm : userId ∈ memberIdsOf s groupId
  · rw [if_pos hm]
    refine ⟨hn, fun u => ⟨Or.inl, ?_⟩⟩
    rintro (h1 | h1)
    · exact h1
    · rw [h1]
      exact hm
  · rw [if_neg hm]
    constructor
    · rw [List.nodup_append]
      refine ⟨hn, List.nodup_singleton _, ?_⟩
      intro a ha hb
      rw [List.mem_singleton] at hb
      exact hm (hb ▸ ha)
    · intro u
      simp

theorem addMembers_ok (groupId mid : Int) (clock : Nat → Nat) (memberIds : List Int) :
    ∀ (s s1 : Store) (k : Nat),
      Groups.addMembers groupId mid clock s k memberIds = (s1, true) →
      (memberIdsOf s groupId).Nodup →
      (memberIdsOf s1 groupId).Nodup ∧
        ∀ u, u ∈ memberIdsOf s1 groupId ↔ u ∈ memberIdsOf s groupId ∨ u ∈ memberIds := by
  induction memberIds with
  | nil =>
    intro s s1 k h hn
    simp only [Groups.addMembers, Prod.mk.injEq, and_true] at h
    subst h
    exact ⟨hn, fun u => by simp⟩
  | cons m rest ih =>
    intro s s1 k h hn
    simp only [Groups.addMembers] at h
    split at h
    · cases h
    · rename_i s2 hadd
      obtain ⟨hn2, hmem2⟩ := addMember_nodup hadd hn
      obtain ⟨hn3, hmem3⟩ := ih s2 s1 (k + 1) h hn2
      refine ⟨hn3, fun u => ?_⟩
      rw [hmem3, hmem2, List.mem_cons]
      tauto

theorem memberIdsOf_fresh {s : Store} {gid : Int}
    (hfk : ∀ gm ∈ s.group_members, (groupQueries.findById s gm.group_id).isSome = true)
    (hnone : groupQueries.findById s gid = none) : memberIdsOf s gid = [] := by
  unfold memberIdsOf
  rw [List.map_eq_nil_iff, List.filter_eq_nil_iff]
  intro gm hgm hd
  have hg : gm.group_id = gid := by simpa using hd
  have := hfk gm hgm
  rw [hg, hnone] at this
  simp at this

/-- C11: after a successful group creation by agent `a` with member id list `M`,
in a store whose membership rows all reference an existing group, the user ids
of the membership rows of the new group have no duplicate and are exactly `a`
and the elements of `M`; the creator is a member and is recorded as
`created_by`. -/
theorem c11_group_creation_members (s s1 : Store) (gid mid : Int) (clock : Nat → Nat)
    (sess : Session) (name description : JsValue) (memberIds : List Int) (g : Group)
    (hfk : ∀ gm ∈ s.group_members, (groupQueries.findById s gm.group_id).isSome = true)
    (h : Groups.POST s gid mid clock (some sess) name description memberIds = (.ok g, s1)) :
    g.id = gid ∧ g.created_by = some sess.id ∧
    (memberIdsOf s1 g.id).Nodup ∧
    (∀ u, u ∈ memberIdsOf s1 g.id ↔ u = sess.id ∨ u ∈ memberIds) ∧
    sess.id ∈ memberIdsOf s1 g.id := by
  unfold Groups.POST at h
  simp only at h
  split at h
  · cases h
  · split at h
    · cases h
    · rename_i g0 s2 hc
      split at h
      · cases h
      · rename_i s3 hadd
        split at h
        · cases h
        · rename_i s4 hloop
          injection h with hg hs
          injection hg with hg
          subst hg
          subst hs
          obtain ⟨hid, hby, hnone, hs2⟩ := groupCreate_ok hc
          have hempty : memberIdsOf s2 g0.id = [] := by
            have h0 : memberIdsOf s g0.id = [] := by
              rw [hid]
              exact memberIdsOf_fresh hfk hnone
            rw [hs2]
            exact h0
          obtain ⟨hn3, hmem3⟩ := addMember_nodup hadd (by rw [hempty]; exact List.nodup_nil)
          obtain ⟨hn4, hmem4⟩ := addMembers_ok g0.id mid clock memberIds s3 s4 1 hloop hn3
          have hall : ∀ u, u ∈ memberIdsOf s4 g0.id ↔ u = sess.id ∨ u ∈ memberIds := by
            intro u
            rw [hmem4, hmem3, hempty]
            simp
          exact ⟨hid, hby, hn4, hall, (hall sess.id).mpr (Or.inl rfl)⟩

/-- C11 at an explicit input: AGENT 1 creates group 6 in `crowdedStore` with the
member list [2, 2, 1, 3]; the new group has the three members 1, 2, 3. -/
theorem c11_group_creation_members_witness :
    (∀ gm ∈ crowdedStore.group_members,
      (groupQueries.findById crowdedStore gm.group_id).isSome = true) ∧
    ∃ s1 : Store, ∃ g : Group,
      Groups.POST crowdedStore 6 10 stepClock (some (Session.mk 1 "AGENT")) (.str "new")
        .absent [2, 2, 1, 3] = (.ok g, s1) ∧
      memberIdsOf s1 g.id = [1, 2, 3] ∧
      (g.id = 6 ∧ g.created_by = some (Session.mk 1 "AGENT").id ∧
      (memberIdsOf s1 g.id).Nodup ∧
      (∀ u, u ∈ memberIdsOf s1 g.id ↔ u = (Session.mk 1 "AGENT").id ∨ u ∈ [2, 2, 1, 3]) ∧
      (Session.mk 1 "AGENT").id ∈ memberIdsOf s1 g.id) :=
  ⟨by decide, _, _, rfl, by decide,
    c11_group_creation_members crowdedStore _ 6 10 stepClock (Session.mk 1 "AGENT") (.str "new")
      .absent [2, 2, 1, 3] _ (by decide) rfl⟩

/-- C12: a group creation without session, or with a session whose role is not
AGENT, answers 401 and leaves the store unchanged: no `groups` row and no
`group_members` row is created. -/
theorem c12_group_creation_guard (s : Store) (gid mid : Int) (clock : Nat → Nat)
    (name description : JsValue) (memberIds : List Int) :
    Groups.POST s gid mid clock none name description memberIds =
      (.error 401 "Unauthorized", s) ∧
    (∀ sess : Session, sess.role ≠ "AGENT" →
      Groups.POST s gid mid clock (some sess) name description memberIds =
        (.error 401 "Unauthorized", s)) := by
  refine ⟨rfl, ?_⟩
  intro sess hrole
  unfold Groups.POST
  simp only
  rw [if_pos hrole]

/-- C12 at an explicit input: USER 2 asks to create a group in `crowdedStore`. -/
theorem c12_group_creation_guard_witness :
    (Session.mk 2 "USER").role ≠ "AGENT" ∧
    (Groups.POST crowdedStore 6 10 stepClock (some (Session.mk 2 "USER")) (.str "new")
      .absent [3]).2.groups = crowdedStore.groups ∧
    (Groups.POST crowdedStore 6 10 stepClock (some (Session.mk 2 "USER")) (.str "new")
      .absent [3]).2.group_members = crowdedStore.group_members :=
  ⟨by decide,
    by rw [(c12_group_creation_guard crowdedStore 6 10 stepClock (.str "new") .absent [3]).2
      (Session.mk 2 "USER") (by decide)],
    by rw [(c12_group_creation_guard crowdedStore 6 10 stepClock (.str "new") .absent [3]).2
      (Session.mk 2 "USER") (by decide)]⟩

/-! ## C13 : another agent's note cannot be updated or deleted -/

/-- C13: for an AGENT session and an existing note whose author is not the actor,
the update with non-empty content and the delete both answer 403 and leave the
store, hence the note, unchanged. -/
theorem c13_foreign_note_forbidden (s : Store) (now : Nat) (sess : Session) (noteId : Int)
    (content : JsValue) (n : PrivateNote) (hrole : sess.role = "AGENT")
    (hn : noteQueries.findById s noteId = some n) (hauth : n.author_id ≠ sess.id)
    (hc : content.truthy = true) :
    (PrivateNoteById.PUT s now (some sess) noteId content).1.status = 403 ∧
    (PrivateNoteById.PUT s now (some sess) noteId content).2 = s ∧
    (PrivateNoteById.DELETE s (some sess) noteId).1.status = 403 ∧
    (PrivateNoteById.DELETE s (some sess) noteId).2 = s := by
  simp [PrivateNoteById.PUT, PrivateNoteById.DELETE, hrole, hn, hauth, hc, Response.status]

/-- C13 at an explicit input: AGENT 1 tries to update and to delete note 2 of
agent 4 in `notesStore`. -/
theorem c13_foreign_note_forbidden_witness :
    (Session.mk 1 "AGENT").role = "AGENT" ∧
    noteQueries.findById notesStore 2 =
      some (PrivateNote.mk 2 "second" "by four about two" 4 (some 2) [] 20 20) ∧
    (PrivateNote.mk 2 "second" "by four about two" 4 (some 2) [] 20 20).author_id ≠
      (Session.mk 1 "AGENT").id ∧
    (JsValue.str "changed").truthy = true ∧
    ((PrivateNoteById.PUT notesStore 50 (some (Session.mk 1 "AGENT")) 2
        (.str "changed")).1.status = 403 ∧
    (PrivateNoteById.PUT notesStore 50 (some (Session.mk 1 "AGENT")) 2 (.str "changed")).2
        = notesStore ∧
    (PrivateNoteById.DELETE notesStore (some (Session.mk 1 "AGENT")) 2).1.status = 403 ∧
    (PrivateNoteById.DELETE notesStore (some (Session.mk 1 "AGENT")) 2).2 = notesStore) :=
  ⟨by decide, by decide, by decide, by decide,
    c13_foreign_note_forbidden notesStore 50 (Session.mk 1 "AGENT") 2 (.str "changed")
      (PrivateNote.mk 2 "second" "by four about two" 4 (some 2) [] 20 20)
      (by decide) (by decide) (by decide) (by decide)⟩

/-! ## C14, C15 : the per-user note read -/

theorem mem_getByUserAndAgent {s : Store} {userId agentId : Int} {r : NoteRow}
    (h : r ∈ noteQueries.getByUserAndAgent s userId agentId) :
    ∃ n ∈ s.private_notes, n.related_user_id = some userId ∧ n.author_id = agentId ∧
      r.id = n.id ∧ r.title = n.title ∧ r.content = n.content ∧
      r.author_id = n.author_id ∧ r.related_user_id = n.related_user_id := by
  unfold noteQueries.getByUserAndAgent at h
  rw [(List.perm_insertionSort _ _).mem_iff] at h
  simp only [List.mem_flatMap, List.mem_filter, List.mem_map, decide_eq_true_eq,
    Bool.and_eq_true] at h
  obtain ⟨n, ⟨hn, hrel, haut⟩, ru, _, au, _, rfl⟩ := h
  exact ⟨n, hn, hrel, haut, rfl, rfl, rfl, rfl, rfl⟩

theorem getByUserAndAgent_eq_nil {s : Store} {userId agentId : Int}
    (h : ∀ n ∈ s.private_notes, ¬ (n.author_id = agentId ∧ n.related_user_id = some userId)) :
    noteQueries.getByUserAndAgent s userId agentId = [] := by
  unfold noteQueries.getByUserAndAgent
  have hf : s.private_notes.filter (fun n =>
      decide (n.related_user_id = some userId) && decide (n.author_id = agentId)) = [] := by
    rw [List.filter_eq_nil_iff]
    intro n hn hd
    simp only [Bool.and_eq_true, decide_eq_true_eq] at hd
    exact h n hn ⟨hd.2, hd.1⟩
  rw [hf]
  rfl

/-- C14: the per-user note read of an AGENT always succeeds, and every returned
note is a stored note with `author_id` the actor and `related_user_id` the
target; when the actor wrote no note about the target the list is empty,
whatever other agents wrote.  For a USER actor with agent filter `g`, every
returned note is a stored note with `related_user_id` the actor and `author_id`
equal to `g`. -/
theorem c14_note_read_scope (s : Store) (sess : Session) (userId : Int) :
    (sess.role = "AGENT" → ∀ agentId : IdParam,
      ∃ notes, PrivateNotesByUser.GET s (some sess) userId agentId = .ok notes ∧
        (∀ r ∈ notes, r.author_id = sess.id ∧ r.related_user_id = some userId ∧
          ∃ n ∈ s.private_notes, n.author_id = sess.id ∧ n.related_user_id = some userId ∧
            r.id = n.id ∧ r.content = n.content) ∧
        ((∀ n ∈ s.private_notes, ¬ (n.author_id = sess.id ∧ n.related_user_id = some userId)) →
          notes = [])) ∧
    (sess.role = "USER" → ∀ (g : Int) (notes : List NoteRow),
      PrivateNotesByUser.GET s (some sess) userId (.id g) = .ok notes →
      ∀ r ∈ notes, r.related_user_id = some sess.id ∧ r.author_id = g ∧
        ∃ n ∈ s.private_notes, n.author_id = g ∧ n.related_user_id = some sess.id ∧
          r.id = n.id ∧ r.content = n.content) := by
  constructor
  · intro hrole agentId
    refine ⟨noteQueries.getByUserAndAgent s userId sess.id, ?_, ?_, ?_⟩
    · simp [PrivateNotesByUser.GET, hrole]
    · intro r hr
      obtain ⟨n, hn, hrel, haut, hid, _, hcont, hra, hrr⟩ := mem_getByUserAndAgent hr
      exact ⟨hra.trans haut, hrr.trans hrel, n, hn, haut, hrel, hid, hcont⟩
    · intro hnone
      exact getByUserAndAgent_eq_nil hnone
  · intro hrole g notes h
    have hna : ¬ sess.role = "AGENT" := by
      rw [hrole]
      decide
    unfold PrivateNotesByUser.GET at h
    simp only at h
    rw [if_neg hna, if_pos hrole] at h
    split at h
    · cases h
    · rename_i hid
      have hid1 : sess.id = userId := not_not.mp hid
      injection h with h
      subst h
      intro r hr
      obtain ⟨n, hn, hrel, haut, hid2, _, hcont, hra, hrr⟩ := mem_getByUserAndAgent hr
      rw [hid1]
      exact ⟨hrr.trans hrel, hra.trans haut, n, hn, haut, hrel, hid2, hcont⟩

/-- C14 at explicit inputs: in `notesStore` AGENT 1 reads the notes about USER 3,
about whom only agent 4 wrote, and gets the empty list; USER 2 reads its notes
with agent filter 4. -/
theorem c14_note_read_scope_witness :
    (Session.mk 1 "AGENT").role = "AGENT" ∧
    PrivateNotesByUser.GET notesStore (some (Session.mk 1 "AGENT")) 3 .absent = .ok [] ∧
    (∃ notes, PrivateNotesByUser.GET notesStore (some (Session.mk 1 "AGENT")) 2 .absent
        = .ok notes ∧ notes.length = 1 ∧
      ∀ r ∈ notes, r.author_id = 1 ∧ r.related_user_id = some 2) ∧
    (Session.mk 2 "USER").role = "USER" ∧
    (∃ notes, PrivateNotesByUser.GET notesStore (some (Session.mk 2 "USER")) 2 (.id 4)
        = .ok notes ∧ notes.length = 1 ∧
      ∀ r ∈ notes, r.related_user_id = some (Session.mk 2 "USER").id ∧ r.author_id = 4 ∧
        ∃ n ∈ notesStore.private_notes, n.author_id = 4 ∧
          n.related_user_id = some (Session.mk 2 "USER").id ∧
          r.id = n.id ∧ r.content = n.content) :=
  ⟨by decide, by decide, ⟨_, rfl, by decide, by decide⟩, by decide,
    ⟨_, rfl, by decide,
      (c14_note_read_scope notesStore (Session.mk 2 "USER") 2).2 (by decide) 4 _ rfl⟩⟩

/-- C15: for a USER actor, the per-user note read answers 403 when the target is
not the actor, with or without agent filter, and 400 `Agent ID is required` when
the target is the actor and no agent id is supplied; both answers are errors
that carry no note. -/
theorem c15_user_note_read_errors (s : Store) (sess : Session) (userId : Int)
    (hrole : sess.role = "USER") :
    (sess.id ≠ userId → ∀ agentId : IdParam,
      PrivateNotesByUser.GET s (some sess) userId agentId =
        .error 403 "Forbidden: You can only view notes about yourself") ∧
    (sess.id = userId →
      PrivateNotesByUser.GET s (some sess) userId .absent =
        .error 400 "Agent ID is required for user requests") := by
  have hna : ¬ sess.role = "AGENT" := by
    rw [hrole]
    decide
  constructor
  · intro hid agentId
    simp [PrivateNotesByUser.GET, hna, hrole, hid]
  · intro hid
    simp [PrivateNotesByUser.GET, hna, hrole, hid]

/-- C15 at explicit inputs: USER 2 asks for the notes about USER 3, then for its
own notes without agent id. -/
theorem c15_user_note_read_errors_witness :
    (Session.mk 2 "USER").role = "USER" ∧
    (PrivateNotesByUser.GET notesStore (some (Session.mk 2 "USER")) 3 (.id 4)).status = 403 ∧
    (PrivateNotesByUser.GET notesStore (some (Session.mk 2 "USER")) 3 .absent).status = 403 ∧
    (PrivateNotesByUser.GET notesStore (some (Session.mk 2 "USER")) 2 .absent).status = 400 :=
  ⟨by decide,
    by rw [(c15_user_note_read_errors notesStore (Session.mk 2 "USER") 3 (by decide)).1
      (by decide) (.id 4)]; rfl,
    by rw [(c15_user_note_read_errors notesStore (Session.mk 2 "USER") 3 (by decide)).1
      (by decide) .absent]; rfl,
    by rw [(c15_user_note_read_errors notesStore (Session.mk 2 "USER") 2 (by decide)).2
      rfl]; rfl⟩

/-! ## C16 : private note creation -/

theorem contentParam_of_truthy {v : JsValue} (h : v.truthy = true) :
    ∃ t, GroupMessages.contentParam v = some t := by
  cases v with
  | absent => simp [JsValue.truthy] at h
  | str s => exact ⟨s, rfl⟩
  | other b t => exact ⟨t, rfl⟩

theorem pgVarchar_eq (n : Nat) (t : String) :
    pgVarchar n t =
      if ∀ ch ∈ t.data.drop n, ch = ' ' then some (String.mk (t.data.take n)) else none := by
  unfold pgVarchar
  by_cases h : ∀ ch ∈ t.data.drop n, ch = ' '
  · rw [if_pos h, if_pos]
    simpa [List.all_eq_true] using h
  · rw [if_neg h, if_neg]
    simpa [List.all_eq_true] using h

/-- The `tags` values the server stores: a missing or falsy value, an array whose
elements hold no character U+0000, and a value the server reads as an array. -/
theorem tagsValue_orEmpty_ok_iff (tags : TagsParam) (tagList : List String) :
    tagsValue tags.orEmpty = .ok tagList ↔
      ((tags = .absent ∧ tagList = []) ∨
        (tags = .array tagList ∧ ∀ e ∈ tagList, ∀ ch ∈ e.data, ch ≠ Char.ofNat 0) ∨
        tags = .other (some tagList)) := by
  cases tags with
  | absent =>
    have h0 : tagsValue (TagsParam.orEmpty .absent) = .ok [] := rfl
    rw [h0]
    constructor
    · intro h
      injection h with h
      exact Or.inl ⟨rfl, h.symm⟩
    · rintro (⟨_, h⟩ | ⟨h, _⟩ | h)
      · rw [h]
      · cases h
      · cases h
  | array l =>
    simp only [TagsParam.orEmpty, tagsValue]
    by_cases hl : l.all pgText = true
    · rw [if_pos hl]
      have hl1 : ∀ e ∈ l, ∀ ch ∈ e.data, ch ≠ Char.ofNat 0 := by
        intro e he
        exact (pgText_iff e).mp (List.all_eq_true.mp hl e he)
      constructor
      · intro h
        injection h with h
        subst h
        exact Or.inr (Or.inl ⟨rfl, hl1⟩)
      · rintro (⟨h, _⟩ | ⟨h, _⟩ | h)
        · cases h
        · cases h
          rfl
        · cases h
    · rw [if_neg hl]
      constructor
      · intro h
        cases h
      · rintro (⟨h, _⟩ | ⟨h, h1⟩ | h)
        · cases h
        · cases h
          exact absurd (List.all_eq_true.mpr (fun e he => (pgText_iff e).mpr (h1 e he))) hl
        · cases h
  | other r =>
    cases r with
    | none =>
      simp only [TagsParam.orEmpty, tagsValue]
      constructor
      · intro h
        cases h
      · rintro (⟨h, _⟩ | ⟨h, _⟩ | h) <;> cases h
    | some l =>
      simp only [TagsParam.orEmpty, tagsValue]
      constructor
      · intro h
        injection h with h
        subst h
        exact Or.inr (Or.inr rfl)
      · rintro (⟨h, _⟩ | ⟨h, _⟩ | h)
        · cases h
        · cases h
        · cases h
          rfl

/-- The insert of a note whose parameters the server accepts. -/
theorem noteCreate_ok (s : Store) (id : Int) (now : Nat) (t c : String) (authorId : Int)
    (rel : Option Int) (tags : TagsParam) (tagList : List String)
    (ht : ∀ ch ∈ t.data, ch ≠ Char.ofNat 0) (hc : ∀ ch ∈ c.data, ch ≠ Char.ofNat 0)
    (hv : ∀ ch ∈ t.data.drop 255, ch = ' ') (htg : tagsValue tags = .ok tagList)
    (ha : (userQueries.findById s authorId).isSome = true)
    (hr : ∀ r, rel = some r → (userQueries.findById s r).isSome = true) :
    noteQueries.create s id now (some t) (some c) authorId rel tags =
      .ok (PrivateNote.mk id (String.mk (t.data.take 255)) c authorId rel tagList now now,
        { s with private_notes := s.private_notes ++
            [PrivateNote.mk id (String.mk (t.data.take 255)) c authorId rel tagList now now] }) := by
  have ht1 := (pgText_iff t).mpr ht
  have hc1 := (pgText_iff c).mpr hc
  have ha1 : (userQueries.findById s authorId).isNone = false := by
    cases hf : userQueries.findById s authorId with
    | none => rw [hf] at ha; cases ha
    | some u => rfl
  unfold noteQueries.create
  simp only [ht1, hc1, htg, pgVarchar_eq, ha1, Bool.not_true, Bool.or_self,
    Bool.false_eq_true, if_false]
  rw [if_pos hv]
  cases rel with
  | none => simp
  | some r =>
    obtain ⟨u, hu⟩ := Option.isSome_iff_exists.mp (hr r rfl)
    simp [hu]

/-- The insert of a note fails when the server rejects one of its parameters. -/
theorem noteCreate_error (s : Store) (id : Int) (now : Nat) (t c : String) (authorId : Int)
    (rel : Option Int) (tags : TagsParam)
    (h : ¬ ((∀ ch ∈ t.data, ch ≠ Char.ofNat 0) ∧ (∀ ch ∈ c.data, ch ≠ Char.ofNat 0) ∧
      (∀ ch ∈ t.data.drop 255, ch = ' ') ∧ (∃ tagList, tagsValue tags = .ok tagList) ∧
      (userQueries.findById s authorId).isSome = true ∧
      (∀ r, rel = some r → (userQueries.findById s r).isSome = true))) :
    ∃ e, noteQueries.create s id now (some t) (some c) authorId rel tags = .error e := by
  unfold noteQueries.create
  simp only
  split
  · exact ⟨_, rfl⟩
  · rename_i htx
    have htx1 : pgText t = true ∧ pgText c = true := by
      simpa using htx
    split
    · exact ⟨_, rfl⟩
    · rename_i tagList htg
      rw [pgVarchar_eq]
      by_cases hv : ∀ ch ∈ t.data.drop 255, ch = ' '
      · rw [if_pos hv]
        simp only
        split
        · exact ⟨_, rfl⟩
        · rename_i ha
          split
          · exact ⟨_, rfl⟩
          · rename_i hrel
            exfalso
            refine h ⟨(pgText_iff t).mp htx1.1, (pgText_iff c).mp htx1.2, hv, ⟨tagList, htg⟩,
              Option.ne_none_iff_isSome.mp (by simpa using ha), ?_⟩
            intro r hr
            subst hr
            exact Option.ne_none_iff_isSome.mp (by simpa using hrel)
      · rw [if_neg hv]
        exact ⟨_, rfl⟩

/-- The note creation of an AGENT with truthy title and content, by cases on the
related user, in terms of the insert. -/
theorem notePOST_agent (s : Store) (id : Int) (now : Nat) (sess : Session)
    (title content : JsValue) (relatedUserId : IdParam) (tags : TagsParam)
    (t c : String) (hrole : sess.role = "AGENT") (ht : title.truthy = true)
    (hc : content.truthy = true) (htp : GroupMessages.contentParam title = some t)
    (hcp : GroupMessages.contentParam content = some c) :
    PrivateNotes.POST s id now (some sess) title content relatedUserId tags =
      match relatedUserId with
      | .unparsable => (.error 500 "Internal server error", s)
      | .id r =>
        if (userQueries.findById s r).isNone then (.error 404 "Target user not found", s)
        else
          match noteQueries.create s id now (some t) (some c) sess.id (some r) tags.orEmpty with
          | .error _ => (.error 500 "Internal server error", s)
          | .ok (note, s1) => (.created note, s1)
      | .absent =>
        match noteQueries.create s id now (some t) (some c) sess.id none tags.orEmpty with
        | .error _ => (.error 500 "Internal server error", s)
        | .ok (note, s1) => (.created note, s1) := by
  unfold PrivateNotes.POST
  simp only [hrole, ht, hc, htp, hcp, ne_eq, not_true_eq_false, if_false, Bool.not_true,
    Bool.or_self, Bool.false_eq_true]
  cases relatedUserId with
  | unparsable => rfl
  | absent => rfl
  | id r =>
    simp only
    cases hr : userQueries.findById s r with
    | none => simp
    | some u => simp

/-- The note creation either stores one note of the actor and answers 201, under
the conditions of the amended claim, or leaves the store unchanged and does not
answer 201. -/
theorem notePOST_cases (s : Store) (id : Int) (now : Nat) (sess : Session)
    (title content : JsValue) (relatedUserId : IdParam) (tags : TagsParam) :
    (∃ (t c : String) (tagList : List String) (rel : Option Int),
      (sess.role = "AGENT" ∧
        (title.truthy = true ∧ GroupMessages.contentParam title = some t ∧
          (∀ ch ∈ t.data, ch ≠ Char.ofNat 0) ∧ ∀ ch ∈ t.data.drop 255, ch = ' ') ∧
        (content.truthy = true ∧ GroupMessages.contentParam content = some c ∧
          ∀ ch ∈ c.data, ch ≠ Char.ofNat 0) ∧
        ((relatedUserId = .absent ∧ rel = none) ∨
          ∃ r, relatedUserId = .id r ∧ rel = some r ∧
            (userQueries.findById s r).isSome = true) ∧
        ((tags = .absent ∧ tagList = []) ∨
          (tags = .array tagList ∧ ∀ e ∈ tagList, ∀ ch ∈ e.data, ch ≠ Char.ofNat 0) ∨
          tags = .other (some tagList)) ∧
        (userQueries.findById s sess.id).isSome = true) ∧
      PrivateNotes.POST s id now (some sess) title content relatedUserId tags =
        (.created (PrivateNote.mk id (String.mk (t.data.take 255)) c sess.id rel tagList now now),
          { s with private_notes := s.private_notes ++
            [PrivateNote.mk id (String.mk (t.data.take 255)) c sess.id rel tagList now now] })) ∨
    (¬ (∃ (t c : String) (tagList : List String),
        sess.role = "AGENT" ∧
        (title.truthy = true ∧ GroupMessages.contentParam title = some t ∧
          (∀ ch ∈ t.data, ch ≠ Char.ofNat 0) ∧ ∀ ch ∈ t.data.drop 255, ch = ' ') ∧
        (content.truthy = true ∧ GroupMessages.contentParam content = some c ∧
          ∀ ch ∈ c.data, ch ≠ Char.ofNat 0) ∧
        (relatedUserId = .absent ∨
          ∃ r, relatedUserId = .id r ∧ (userQueries.findById s r).isSome = true) ∧
        ((tags = .absent ∧ tagList = []) ∨
          (tags = .array tagList ∧ ∀ e ∈ tagList, ∀ ch ∈ e.data, ch ≠ Char.ofNat 0) ∨
          tags = .other (some tagList)) ∧
        (userQueries.findById s sess.id).isSome = true) ∧
      (PrivateNotes.POST s id now (some sess) title content relatedUserId tags).2 = s ∧
      (PrivateNotes.POST s id now (some sess) title content relatedUserId tags).1.status
        ≠ 201) := by
  by_cases hrole : sess.role = "AGENT"
  swap
  · right
    refine ⟨?_, ?_, ?_⟩
    · rintro ⟨_, _, _, h, _⟩
      exact hrole h
    all_goals simp [PrivateNotes.POST, hrole, Response.status]
  by_cases ht : title.truthy = true
  swap
  · right
    refine ⟨?_, ?_, ?_⟩
    · rintro ⟨_, _, _, _, ⟨h, _⟩, _⟩
      exact ht h
    all_goals simp [PrivateNotes.POST, hrole, ht, Response.status]
  by_cases hc : content.truthy = true
  swap
  · right
    refine ⟨?_, ?_, ?_⟩
    · rintro ⟨_, _, _, _, _, ⟨h, _⟩, _⟩
      exact hc h
    all_goals simp [PrivateNotes.POST, hrole, ht, hc, Response.status]
  obtain ⟨t, htp⟩ := contentParam_of_truthy ht
  obtain ⟨c, hcp⟩ := contentParam_of_truthy hc
  rw [notePOST_agent s id now sess title content relatedUserId tags t c hrole ht hc htp hcp]
  have main : ∀ rel : Option Int,
      ((relatedUserId = .absent ∧ rel = none) ∨
          ∃ r, relatedUserId = .id r ∧ rel = some r ∧
            (userQueries.findById s r).isSome = true) →
      ((∃ tagList : List String,
        ((∀ ch ∈ t.data, ch ≠ Char.ofNat 0) ∧ (∀ ch ∈ t.data.drop 255, ch = ' ') ∧
          (∀ ch ∈ c.data, ch ≠ Char.ofNat 0) ∧
          ((tags = .absent ∧ tagList = []) ∨
            (tags = .array tagList ∧ ∀ e ∈ tagList, ∀ ch ∈ e.data, ch ≠ Char.ofNat 0) ∨
            tags = .other (some tagList)) ∧
          (userQueries.findById s sess.id).isSome = true) ∧
        noteQueries.create s id now (some t) (some c) sess.id rel tags.orEmpty =
          .ok (PrivateNote.mk id (String.mk (t.data.take 255)) c sess.id rel tagList now now,
            { s with private_notes := s.private_notes ++
              [PrivateNote.mk id (String.mk (t.data.take 255)) c sess.id rel tagList now
                now] })) ∨
      (¬ (∃ tagList : List String,
          (∀ ch ∈ t.data, ch ≠ Char.ofNat 0) ∧ (∀ ch ∈ t.data.drop 255, ch = ' ') ∧
          (∀ ch ∈ c.data, ch ≠ Char.ofNat 0) ∧
          ((tags = .absent ∧ tagList = []) ∨
            (tags = .array tagList ∧ ∀ e ∈ tagList, ∀ ch ∈ e.data, ch ≠ Char.ofNat 0) ∨
            tags = .other (some tagList)) ∧
          (userQueries.findById s sess.id).isSome = true) ∧
        ∃ e, noteQueries.create s id now (some t) (some c) sess.id rel tags.orEmpty =
          .error e)) := by
    intro rel hrel
    have hrel1 : ∀ r, rel = some r → (userQueries.findById s r).isSome = true := by
      intro r hr
      rcases hrel with ⟨_, h⟩ | ⟨r1, _, h, h1⟩
      · rw [h] at hr
        cases hr
      · rw [h] at hr
        cases hr
        exact h1
    by_cases hall : (∀ ch ∈ t.data, ch ≠ Char.ofNat 0) ∧ (∀ ch ∈ c.data, ch ≠ Char.ofNat 0) ∧
        (∀ ch ∈ t.data.drop 255, ch = ' ') ∧
        (∃ tagList, tagsValue tags.orEmpty = .ok tagList) ∧
        (userQueries.findById s sess.id).isSome = true ∧
        (∀ r, rel = some r → (userQueries.findById s r).isSome = true)
    · obtain ⟨h1, h2, h3, ⟨tagList, h4⟩, h5, h6⟩ := hall
      left
      exact ⟨tagList, ⟨h1, h3, h2, (tagsValue_orEmpty_ok_iff tags tagList).mp h4, h5⟩,
        noteCreate_ok s id now t c sess.id rel tags.orEmpty tagList h1 h2 h3 h4 h5 h6⟩
    · right
      refine ⟨?_, noteCreate_error s id now t c sess.id rel tags.orEmpty hall⟩
      rintro ⟨tagList, h1, h3, h2, h4, h5⟩
      exact hall ⟨h1, h2, h3, ⟨tagList, (tagsValue_orEmpty_ok_iff tags tagList).mpr h4⟩, h5,
        hrel1⟩
  have htt : ∀ t1, GroupMessages.contentParam title = some t1 → t1 = t := by
    intro t1 h
    rw [htp] at h
    injection h with h
    exact h.symm
  have hcc : ∀ c1, GroupMessages.contentParam content = some c1 → c1 = c := by
    intro c1 h
    rw [hcp] at h
    injection h with h
    exact h.symm
  cases relatedUserId with
  | unparsable =>
    right
    refine ⟨?_, rfl, by simp [Response.status]⟩
    rintro ⟨_, _, _, _, _, _, h | ⟨r, h, _⟩, _⟩ <;> cases h
  | absent =>
    rcases main none (Or.inl ⟨rfl, rfl⟩) with ⟨tagList, ⟨h1, h2, h3, h4, h5⟩, hcr⟩ | ⟨hno, e, hcr⟩
    · left
      refine ⟨t, c, tagList, none, ⟨hrole, ⟨ht, htp, h1, h2⟩, ⟨hc, hcp, h3⟩, Or.inl ⟨rfl, rfl⟩,
        h4, h5⟩, ?_⟩
      simp only [hcr]
    · right
      refine ⟨?_, by simp [hcr], by simp [hcr, Response.status]⟩
      rintro ⟨t1, c1, tagList, _, ⟨_, ht1, h1, h2⟩, ⟨_, hc1, h3⟩, _, h4, h5⟩
      cases htt t1 ht1
      cases hcc c1 hc1
      exact hno ⟨tagList, h1, h2, h3, h4, h5⟩
  | id r =>
    cases hr : userQueries.findById s r with
    | none =>
      right
      refine ⟨?_, by simp [hr], by simp [hr, Response.status]⟩
      rintro ⟨_, _, _, _, _, _, h | ⟨r1, h, hsome⟩, _⟩
      · cases h
      · cases h
        simp [hr] at hsome
    | some u =>
      have hru : (userQueries.findById s r).isSome = true := by simp [hr]
      rcases main (some r) (Or.inr ⟨r, rfl, rfl, hru⟩) with
        ⟨tagList, ⟨h1, h2, h3, h4, h5⟩, hcr⟩ | ⟨hno, e, hcr⟩
      · left
        refine ⟨t, c, tagList, some r, ⟨hrole, ⟨ht, htp, h1, h2⟩, ⟨hc, hcp, h3⟩,
          Or.inr ⟨r, rfl, rfl, hru⟩, h4, h5⟩, ?_⟩
        simp [hr, hcr]
      · right
        refine ⟨?_, by simp [hr, hcr], by simp [hr, hcr, Response.status]⟩
        rintro ⟨t1, c1, tagList, _, ⟨_, ht1, h1, h2⟩, ⟨_, hc1, h3⟩, _, h4, h5⟩
        cases htt t1 ht1
        cases hcc c1 hc1
        exact hno ⟨tagList, h1, h2, h3, h4, h5⟩

/-- C16 (as stated, refuted): an AGENT session, non-empty title and content and an
absent related user do not suffice for the creation to store a note: with the
session of an account that is no longer in `users`, the foreign key of
`author_id` rejects the insert and nothing is stored. -/
theorem c16_deleted_author_stores_nothing :
    ¬ (∀ (s : Store) (id : Int) (now : Nat) (sess : Session) (title content : JsValue)
        (relatedUserId : IdParam) (tags : TagsParam),
        (PrivateNotes.POST s id now (some sess) title content relatedUserId tags).2.private_notes
            ≠ s.private_notes ↔
          (sess.role = "AGENT" ∧ title.truthy = true ∧ content.truthy = true ∧
            (relatedUserId = .absent ∨
              ∃ r, relatedUserId = .id r ∧ (userQueries.findById s r).isSome = true))) := by
  intro h
  have h1 := (h deletedActorStore 7 0 (Session.mk 1 "AGENT") (.str "t") (.str "c") .absent
    .absent).mpr ⟨by decide, by decide, by decide, Or.inl rfl⟩
  revert h1
  decide

/-- C16 (amended): the note creation stores a note if and only if the session role
is AGENT, title and content are both non-empty (truthy), the related user id is
absent or refers to an existing user, the account of the actor exists, and the
server accepts the values: title and content hold no character U+0000, every
character of the title after the 255th is a space, and the tags are missing, an
array whose elements hold no character U+0000, or a value the server reads as
an array.  When it stores, exactly one note is appended, its `author_id` is the
actor (an AGENT session), its title is the first 255 characters of the title
sent, its content is the content sent, and the answer is 201; otherwise the
store is unchanged.  Without session the store is unchanged. -/
theorem c16_note_creation_iff (s : Store) (id : Int) (now : Nat) (sess : Session)
    (title content : JsValue) (relatedUserId : IdParam) (tags : TagsParam) :
    ((PrivateNotes.POST s id now (some sess) title content relatedUserId tags).2.private_notes
        ≠ s.private_notes ↔
      ∃ (t c : String) (tagList : List String),
        sess.role = "AGENT" ∧
        (title.truthy = true ∧ GroupMessages.contentParam title = some t ∧
          (∀ ch ∈ t.data, ch ≠ Char.ofNat 0) ∧ ∀ ch ∈ t.data.drop 255, ch = ' ') ∧
        (content.truthy = true ∧ GroupMessages.contentParam content = some c ∧
          ∀ ch ∈ c.data, ch ≠ Char.ofNat 0) ∧
        (relatedUserId = .absent ∨
          ∃ r, relatedUserId = .id r ∧ (userQueries.findById s r).isSome = true) ∧
        ((tags = .absent ∧ tagList = []) ∨
          (tags = .array tagList ∧ ∀ e ∈ tagList, ∀ ch ∈ e.data, ch ≠ Char.ofNat 0) ∨
          tags = .other (some tagList)) ∧
        (userQueries.findById s sess.id).isSome = true) ∧
    ((PrivateNotes.POST s id now (some sess) title content relatedUserId tags).2.private_notes
        ≠ s.private_notes →
      sess.role = "AGENT" ∧
      ∃ n : PrivateNote,
        PrivateNotes.POST s id now (some sess) title content relatedUserId tags =
          (.created n, { s with private_notes := s.private_notes ++ [n] }) ∧
        n.author_id = sess.id ∧
        (∃ t, GroupMessages.contentParam title = some t ∧
          n.title = String.mk (t.data.take 255)) ∧
        GroupMessages.contentParam content = some n.content ∧
        (relatedUserId = .absent → n.related_user_id = none) ∧
        (∀ r, relatedUserId = .id r → n.related_user_id = some r)) ∧
    ((PrivateNotes.POST s id now (some sess) title content relatedUserId tags).2.private_notes
        = s.private_notes →
      (PrivateNotes.POST s id now (some sess) title content relatedUserId tags).2 = s ∧
      (PrivateNotes.POST s id now (some sess) title content relatedUserId tags).1.status
        ≠ 201) ∧
    (PrivateNotes.POST s id now none title content relatedUserId tags).2 = s := by
  have happ : ∀ n : PrivateNote, s.private_notes ++ [n] ≠ s.private_notes := by
    intro n hn
    have := congrArg List.length hn
    simp at this
  rcases notePOST_cases s id now sess title content relatedUserId tags with
    ⟨t, c, tagList, rel, ⟨hrole, htitle, hcontent, hrel, htags, hauthor⟩, heq⟩ | ⟨hcond, hs, hst⟩
  · rw [heq]
    have hrel1 : relatedUserId = .absent ∨
        ∃ r, relatedUserId = .id r ∧ (userQueries.findById s r).isSome = true := by
      rcases hrel with ⟨h, _⟩ | ⟨r, h, _, h1⟩
      · exact Or.inl h
      · exact Or.inr ⟨r, h, h1⟩
    refine ⟨⟨fun _ => ⟨t, c, tagList, hrole, htitle, hcontent, hrel1, htags, hauthor⟩,
      fun _ => happ _⟩, fun _ => ⟨hrole, _, rfl, rfl, ⟨t, htitle.2.1, rfl⟩, hcontent.2.1, ?_, ?_⟩,
      fun h => absurd h (happ _), rfl⟩
    · intro ha
      rcases hrel with ⟨_, h⟩ | ⟨r, h, _, _⟩
      · exact h
      · rw [ha] at h
        cases h
    · intro r ha
      rcases hrel with ⟨h, _⟩ | ⟨r1, h, h1, _⟩
      · rw [ha] at h
        cases h
      · rw [ha] at h
        cases h
        exact h1
  · rw [hs]
    refine ⟨⟨fun h => absurd rfl h, fun h => absurd h hcond⟩, fun h => absurd rfl h,
      fun _ => ⟨rfl, hst⟩, rfl⟩

/-- C16 (amended) at explicit inputs: AGENT 1 writes a note about USER 2 in
`agentUserStore`, with two tags; the same note with a title of 256 letters is
answered 500 and nothing is stored, and so is the note whose tags are a text
the server does not read as an array. -/
theorem c16_note_creation_iff_witness :
    PrivateNotes.POST agentUserStore 7 5 (some (Session.mk 1 "AGENT")) (.str "t") (.str "c")
        (.id 2) (.array ["x", "y"]) =
      (.created (PrivateNote.mk 7 "t" "c" 1 (some 2) ["x", "y"] 5 5),
        Store.mk [account 1 "AGENT" true, account 2 "USER" true] [] [] []
          [PrivateNote.mk 7 "t" "c" 1 (some 2) ["x", "y"] 5 5]) ∧
    PrivateNotes.POST agentUserStore 7 5 (some (Session.mk 1 "AGENT"))
        (.str (String.mk (List.replicate 256 'a'))) (.str "c") (.id 2) .absent =
      (.error 500 "Internal server error", agentUserStore) ∧
    PrivateNotes.POST agentUserStore 7 5 (some (Session.mk 1 "AGENT")) (.str "t") (.str "c")
        (.id 2) (.other none) =
      (.error 500 "Internal server error", agentUserStore) ∧
    (PrivateNotes.POST agentUserStore 7 5 (some (Session.mk 1 "AGENT")) (.str "t") (.str "c")
        (.id 2) (.array ["x", "y"])).2.private_notes ≠ agentUserStore.private_notes :=
  ⟨by decide, by decide, by decide,
    (c16_note_creation_iff agentUserStore 7 5 (Session.mk 1 "AGENT") (.str "t") (.str "c")
      (.id 2) (.array ["x", "y"])).1.mpr
      ⟨"t", "c", ["x", "y"], by decide, ⟨by decide, rfl, by decide, by decide⟩,
        ⟨by decide, rfl, by decide⟩, Or.inr ⟨2, rfl, by decide⟩,
        Or.inr (Or.inl ⟨rfl, by decide⟩), by decide⟩⟩

/-! ## C17 : the notes summary -/

/-- C17 (the code at the failing input): the notes summary of a USER answers 500
in every store, also in `notesStore`, where two agents wrote about USER 2: the
route calls `noteQueries.getByUserId`, which the query helpers do not define. -/
theorem c17_summary_always_fails :
    (∀ (s : Store) (id : Int),
      PrivateNotesSummary.GET s (some (Session.mk id "USER")) =
        .error 500 "Internal server error") ∧
    (PrivateNotesSummary.GET notesStore (some (Session.mk 2 "USER"))).status = 500 := by
  refine ⟨fun s id => ?_, by decide⟩
  unfold PrivateNotesSummary.GET
  simp

/-! ## C21, C22, C29 : the redirect URL and the normaliser on its own outputs -/

theorem digits_of_format_some {p f : String} (h : formatPhoneForWhatsApp (some p) = some f) :
    10 ≤ (digitsOf p).length := by
  by_contra hlt
  have hlt1 : (digitsOf p).length < 10 := by omega
  unfold formatPhoneForWhatsApp at h
  by_cases hne : p = ""
  · simp [hne] at h
  · simp [hne, hlt1] at h

theorem digitsOf_all (s : String) : ∀ c ∈ (digitsOf s).data, c.isDigit = true := by
  intro c hc
  simp only [digitsOf, List.mem_filter] at hc
  exact hc.2

/-- The shape of an accepted phone: its normal form is built from a list `x` of at
least nine digits, either prefixed with 91 (when `x` has ten digits) or as it is
(when `x` does not have ten digits, or begins with 91). -/
theorem formatPhone_shape {p f : String} (h : formatPhoneForWhatsApp (some p) = some f) :
    ∃ x : List Char, (∀ c ∈ x, c.isDigit = true) ∧ 9 ≤ x.length ∧
      ((f = "91" ++ String.mk x ∧ x.length = 10) ∨
       (f = String.mk x ∧ ¬ (x.take 2 ≠ ['9', '1'] ∧ x.length = 10))) := by
  have h10 := digits_of_format_some h
  have hall := digitsOf_all p
  by_cases hd : (digitsOf p).data.head? = some '0'
  · obtain ⟨rest, hrest⟩ : ∃ rest, (digitsOf p).data = '0' :: rest := by
      cases hdd : (digitsOf p).data with
      | nil => simp [hdd] at hd
      | cons a l =>
        simp only [hdd, List.head?_cons, Option.some.injEq] at hd
        exact ⟨l, by rw [hd]⟩
    have hlen : (digitsOf p).length = rest.length + 1 := by
      show (digitsOf p).data.length = _
      rw [hrest, List.length_cons]
    rw [formatPhone_zero p rest h10 hrest] at h
    refine ⟨rest, ?_, by omega, ?_⟩
    · intro c hc
      exact hall c (by rw [hrest]; exact List.mem_cons_of_mem _ hc)
    · by_cases hc : rest.take 2 ≠ ['9', '1'] ∧ rest.length = 10
      · rw [if_pos hc] at h
        exact Or.inl ⟨(Option.some.inj h).symm, hc.2⟩
      · rw [if_neg hc] at h
        exact Or.inr ⟨(Option.some.inj h).symm, hc⟩
  · rw [formatPhone_nonzero p h10 hd] at h
    refine ⟨(digitsOf p).data, hall, ?_, ?_⟩
    · have : (digitsOf p).length = (digitsOf p).data.length := rfl
      omega
    · by_cases hc : (digitsOf p).data.take 2 ≠ ['9', '1'] ∧ (digitsOf p).length = 10
      · rw [if_pos hc] at h
        exact Or.inl ⟨(Option.some.inj h).symm, hc.2⟩
      · rw [if_neg hc] at h
        exact Or.inr ⟨(Option.some.inj h).symm, hc⟩

theorem formatPhone_length {p f : String} (h : formatPhoneForWhatsApp (some p) = some f) :
    9 ≤ f.length := by
  obtain ⟨x, _, hx, ⟨rfl, _⟩ | ⟨rfl, _⟩⟩ := formatPhone_shape h
  · rw [String.length_append]
    show 9 ≤ 2 + x.length
    omega
  · exact hx

theorem string_eq_empty_iff (s : String) : s = "" ↔ s.length = 0 := by
  constructor
  · rintro rfl
    rfl
  · intro h
    have hd : s.data = [] := List.length_eq_zero.mp h
    exact String.ext hd

/-- C21: for a phone the normaliser accepts, with normal form `f`, the URL is
`https://wa.me/` followed by `f` when the message is empty or all whitespace,
and that followed by `?text=` and the percent-encoded trimmed message otherwise;
("9876543210", "hi there") gives the URL with `?text=hi%20there`. -/
theorem c21_url_shape (p f m : String) (h : formatPhoneForWhatsApp (some p) = some f) :
    ((∀ ch ∈ m.data, jsIsWhiteSpace ch = true) →
      createWhatsAppURL (some p) m = some ("https://wa.me/" ++ f)) ∧
    ((∃ ch ∈ m.data, jsIsWhiteSpace ch = false) →
      createWhatsAppURL (some p) m =
        some ("https://wa.me/" ++ f ++ "?text=" ++ encodeURIComponent (jsTrim m))) := by
  have hf : f ≠ "" := by
    intro hf
    have := formatPhone_length h
    rw [hf] at this
    exact absurd this (by decide)
  constructor
  · intro hws
    have ht : jsTrim m = "" :=
      (string_eq_empty_iff _).mpr ((jsTrim_length_eq_zero_iff m).mpr hws)
    simp [createWhatsAppURL, h, hf, ht]
  · intro hnw
    have hlen := (jsTrim_length_ne_zero_iff m).mpr hnw
    have ht : jsTrim m ≠ "" := fun hh => hlen ((string_eq_empty_iff _).mp hh)
    have hm : m ≠ "" := str_ne_empty_of_nonblank m hnw
    simp [createWhatsAppURL, encodeMessageForWhatsApp, h, hf, ht, hm]

/-- C21 at explicit inputs: the phone "9876543210" with the messages "hi there",
the empty message and a blank message. -/
theorem c21_url_shape_witness :
    formatPhoneForWhatsApp (some "9876543210") = some "919876543210" ∧
    createWhatsAppURL (some "9876543210") "hi there" =
      some "https://wa.me/919876543210?text=hi%20there" ∧
    createWhatsAppURL (some "9876543210") "" = some "https://wa.me/919876543210" ∧
    ((∀ ch ∈ ("  " : String).data, jsIsWhiteSpace ch = true) →
      createWhatsAppURL (some "9876543210") "  " = some ("https://wa.me/" ++ "919876543210")) :=
  ⟨by decide, by decide, by decide,
    (c21_url_shape "9876543210" "919876543210" "  " (by decide)).1⟩

/-- C22 (the code at the failing input): for the phone "0123456789" a URL is
generated although `isValidWhatsAppPhone` is false: the ten-digit check runs
before the leading 0 is dropped, so the URL carries the nine digits 123456789. -/
theorem c22_url_for_invalid_phone :
    createWhatsAppURL (some "0123456789") "" = some "https://wa.me/123456789" ∧
    isValidWhatsAppPhone (some "0123456789") = false ∧
    formatPhoneForWhatsApp (some "0123456789") = some "123456789" := by
  decide

/-- C29 (as stated, refuted): the normaliser is not idempotent on its outputs:
"00123456789012" gives "0123456789012", which gives "123456789012". -/
theorem c29_second_zero_dropped :
    ¬ (∀ p f : String, formatPhoneForWhatsApp (some p) = some f →
        formatPhoneForWhatsApp (some f) = some f) := by
  intro h
  have h1 := h "00123456789012" "0123456789012" (by decide)
  revert h1
  decide

theorem digitsOf_of_all {x : List Char} (h : ∀ c ∈ x, c.isDigit = true) :
    digitsOf (String.mk x) = String.mk x := by
  unfold digitsOf
  congr 1
  exact List.filter_eq_self.mpr h

/-- C29 (amended): when the normal form `f` of a phone has at least ten digits and
does not begin with 0, normalising `f` again gives `f`. -/
theorem c29_idempotent_on_outputs (p f : String)
    (h : formatPhoneForWhatsApp (some p) = some f) (h10 : 10 ≤ f.length)
    (h0 : f.data.head? ≠ some '0') :
    formatPhoneForWhatsApp (some f) = some f := by
  obtain ⟨x, hall, hx, hcase⟩ := formatPhone_shape h
  have h91 : ("91" : String).data = ['9', '1'] := rfl
  rcases hcase with ⟨rfl, hlen⟩ | ⟨rfl, hnot⟩
  · have hall2 : ∀ c ∈ '9' :: '1' :: x, c.isDigit = true := by
      intro c hc
      rcases List.mem_cons.mp hc with rfl | hc
      · decide
      · rcases List.mem_cons.mp hc with rfl | hc
        · decide
        · exact hall c hc
    have heq : "91" ++ String.mk x = String.mk ('9' :: '1' :: x) := by
      apply String.ext
      rw [String.data_append, h91]
      rfl
    rw [heq] at h10 h0 ⊢
    have hd := digitsOf_of_all hall2
    rw [formatPhone_nonzero _ (by rw [hd]; exact h10) (by rw [hd]; exact h0), hd]
    rw [if_neg]
    intro hh
    exact hh.1 rfl
  · have hd := digitsOf_of_all hall
    rw [formatPhone_nonzero _ (by rw [hd]; exact h10) (by rw [hd]; exact h0), hd]
    rw [if_neg]
    exact hnot

/-- C29 (amended) at an explicit input: "+91 98765 43210" gives "919876543210",
which is its own normal form. -/
theorem c29_idempotent_on_outputs_witness :
    formatPhoneForWhatsApp (some "+91 98765 43210") = some "919876543210" ∧
    10 ≤ ("919876543210" : String).length ∧
    ("919876543210" : String).data.head? ≠ some '0' ∧
    formatPhoneForWhatsApp (some "919876543210") = some "919876543210" :=
  ⟨by decide, by decide, by decide,
    c29_idempotent_on_outputs "+91 98765 43210" "919876543210" (by decide) (by decide)
      (by decide)⟩

/-! ## C25 : the admin session store -/

theorem toBase36Aux_ne_nil (fuel n : Nat) (acc : List Char) (h : acc ≠ []) :
    toBase36Aux fuel n acc ≠ [] := by
  induction fuel generalizing n acc with
  | zero => exact h
  | succ f ih =>
    unfold toBase36Aux
    split
    · exact List.cons_ne_nil _ _
    · exact ih _ _ (List.cons_ne_nil _ _)

theorem toBase36_ne_empty (n : Nat) : toBase36 n ≠ "" := by
  intro h
  have hd : (toBase36 n).data = [] := by rw [h]
  unfold toBase36 at hd
  simp only at hd
  unfold toBase36Aux at hd
  split at hd
  · exact List.cons_ne_nil _ _ hd
  · exact toBase36Aux_ne_nil _ _ _ (List.cons_ne_nil _ _) hd

theorem sessionId_ne_empty (random : String) (now : Nat) : random ++ toBase36 now ≠ "" := by
  intro h
  have hlen := congrArg String.length h
  rw [String.length_append] at hlen
  have h0 : (toBase36 now).length = 0 := by
    have : ("" : String).length = 0 := rfl
    omega
  exact toBase36_ne_empty now ((string_eq_empty_iff _).mpr h0)

theorem lookup_mapDelete_self (m : AdminSessions) (k : String) :
    AdminSession.lookup (AdminSession.mapDelete m k) k = none := by
  unfold AdminSession.lookup AdminSession.mapDelete
  rw [Option.map_eq_none', List.find?_eq_none]
  intro e he
  rw [List.mem_filter] at he
  simpa using he.2

theorem lookup_mapDelete_none (m : AdminSessions) (k k1 : String)
    (h : AdminSession.lookup m k = none) :
    AdminSession.lookup (AdminSession.mapDelete m k1) k = none := by
  unfold AdminSession.lookup AdminSession.mapDelete at *
  rw [Option.map_eq_none', List.find?_eq_none] at *
  intro e he
  exact h e (List.mem_filter.mp he).1

/-- Deleting another key does not change what is stored under `k`. -/
theorem lookup_mapDelete_ne (m : AdminSessions) (k k1 : String) (h : k ≠ k1) :
    AdminSession.lookup (AdminSession.mapDelete m k1) k = AdminSession.lookup m k := by
  unfold AdminSession.lookup AdminSession.mapDelete
  congr 1
  induction m with
  | nil => rfl
  | cons e rest ih =>
    by_cases he : e.1 = k1
    · have hek : ¬ e.1 = k := fun h1 => h (h1.symm.trans he)
      rw [List.filter_cons, if_neg (by simp [he]), List.find?_cons_of_neg _ (by simp [hek])]
      exact ih
    · rw [List.filter_cons, if_pos (by simp [he])]
      by_cases hek : e.1 = k
      · rw [List.find?_cons_of_pos _ (by simp [hek]), List.find?_cons_of_pos _ (by simp [hek])]
      · rw [List.find?_cons_of_neg _ (by simp [hek]), List.find?_cons_of_neg _ (by simp [hek])]
        exact ih

theorem lookup_mapSet_self (m : AdminSessions) (k : String) (v : AdminSessionData) :
    AdminSession.lookup (AdminSession.mapSet m k v) k = some v := by
  unfold AdminSession.lookup AdminSession.mapSet
  by_cases hany : m.any (fun e => decide (e.1 = k)) = true
  · rw [if_pos hany]
    have key : ∀ l : AdminSessions, l.any (fun e => decide (e.1 = k)) = true →
        List.find? (fun e => decide (e.1 = k))
          (l.map (fun e => if e.1 = k then (k, v) else e)) = some (k, v) := by
      intro l
      induction l with
      | nil => intro h; simp at h
      | cons e rest ih =>
        intro h
        by_cases he : e.1 = k
        · simp [he]
        · have hr : rest.any (fun e => decide (e.1 = k)) = true := by
            simpa [he] using h
          rw [List.map_cons, if_neg he, List.find?_cons_of_neg _ (by simp [he])]
          exact ih hr
    rw [key m hany]
    rfl
  · rw [if_neg hany]
    have hnone : List.find? (fun e => decide (e.1 = k)) m = none := by
      rw [List.find?_eq_none]
      intro e he hk
      exact hany (List.any_eq_true.mpr ⟨e, he, hk⟩)
    rw [List.find?_append, hnone]
    simp

/-- Setting another key does not change what is stored under `k`. -/
theorem lookup_mapSet_ne (m : AdminSessions) (k k0 : String) (v : AdminSessionData)
    (h : k ≠ k0) :
    AdminSession.lookup (AdminSession.mapSet m k0 v) k = AdminSession.lookup m k := by
  have hmap : ∀ l : AdminSessions,
      List.find? (fun e => decide (e.1 = k)) (l.map (fun e => if e.1 = k0 then (k0, v) else e)) =
        List.find? (fun e => decide (e.1 = k)) l := by
    intro l
    induction l with
    | nil => rfl
    | cons e rest ih =>
      by_cases he : e.1 = k0
      · have hek : ¬ e.1 = k := fun h1 => h (h1.symm.trans he)
        rw [List.map_cons, if_pos he, List.find?_cons_of_neg _ (by simp [Ne.symm h]),
          List.find?_cons_of_neg _ (by simp [hek])]
        exact ih
      · rw [List.map_cons, if_neg he]
        by_cases hek : e.1 = k
        · rw [List.find?_cons_of_pos _ (by simp [hek]), List.find?_cons_of_pos _ (by simp [hek])]
        · rw [List.find?_cons_of_neg _ (by simp [hek]),
            List.find?_cons_of_neg _ (by simp [hek])]
          exact ih
  unfold AdminSession.lookup AdminSession.mapSet
  congr 1
  split
  · exact hmap m
  · rw [List.find?_append]
    have : List.find? (fun e : String × AdminSessionData => decide (e.1 = k)) [(k0, v)]
        = none := by
      simp [Ne.symm h]
    rw [this]
    simp

theorem lookup_get_none (m : AdminSessions) (k : String) (k1 : Option String) (now : Nat)
    (h : AdminSession.lookup m k = none) :
    AdminSession.lookup (AdminSession.get m k1 now).2 k = none := by
  unfold AdminSession.get
  split
  · exact h
  · split
    · exact h
    · split
      · exact h
      · simp only
        split
        · exact lookup_mapDelete_none m k _ h
        · exact h

theorem lookup_delete_none (m : AdminSessions) (k : String) (k1 : Option String)
    (h : AdminSession.lookup m k = none) :
    AdminSession.lookup (AdminSession.delete m k1) k = none := by
  unfold AdminSession.delete
  split
  · exact h
  · split
    · exact h
    · exact lookup_mapDelete_none m k _ h

theorem get_of_lookup_none (m : AdminSessions) (k : String) (now : Nat)
    (h : AdminSession.lookup m k = none) : (AdminSession.get m (some k) now).1 = none := by
  unfold AdminSession.get
  simp only
  split
  · rfl
  · rw [h]

/-- The map after a `get` of `k`, by cases on what is stored under `k`. -/
theorem get_snd (m : AdminSessions) (k : String) (now : Nat) :
    (AdminSession.get m (some k) now).2 =
      if k = "" then m
      else match AdminSession.lookup m k with
        | none => m
        | some session =>
          if (now : Int) - (session.loginTime : Int) > 86400000 then AdminSession.mapDelete m k
          else m := by
  unfold AdminSession.get
  simp only
  split
  · rfl
  · cases AdminSession.lookup m k with
    | none => rfl
    | some session =>
      simp only
      split
      · rw [if_pos (by omega)]
      · rw [if_neg (by omega)]

/-- What is stored under `k` after one call: the session the call creates under
`k`, or the session that was stored before, when the call leaves it in place. -/
theorem lookup_step (m : AdminSessions) (hkeys : AdminSession.lookup m "" = none)
    (c : AdminSession.Call) (k : String) (sess : AdminSessionData) :
    AdminSession.lookup (AdminSession.step m c) k = some sess ↔
      ((∃ random t adminData, c = .create random t adminData ∧ random ++ toBase36 t = k ∧
          sess = AdminSessionData.mk adminData.id adminData.username adminData.role t) ∨
        (AdminSession.lookup m k = some sess ∧ AdminSession.keeps k sess.loginTime c)) := by
  cases c with
  | create random t adminData =>
    simp only [AdminSession.step, AdminSession.create, AdminSession.keeps]
    by_cases hk : random ++ toBase36 t = k
    · subst hk
      rw [lookup_mapSet_self]
      constructor
      · intro h
        injection h with h
        exact Or.inl ⟨random, t, adminData, rfl, rfl, h.symm⟩
      · rintro (⟨r1, t1, a1, h1, _, h3⟩ | ⟨_, h⟩)
        · cases h1
          rw [h3]
        · exact absurd rfl h
    · rw [lookup_mapSet_ne _ _ _ _ (Ne.symm hk)]
      constructor
      · intro h
        exact Or.inr ⟨h, hk⟩
      · rintro (⟨r1, t1, a1, h1, h2, _⟩ | ⟨h, _⟩)
        · cases h1
          exact absurd h2 hk
        · exact h
  | get sessionId now =>
    simp only [AdminSession.step, AdminSession.keeps]
    have hl : (∃ random t adminData, AdminSession.Call.get sessionId now =
        .create random t adminData ∧ random ++ toBase36 t = k ∧
        sess = AdminSessionData.mk adminData.id adminData.username adminData.role t) ↔ False := by
      constructor
      · rintro ⟨_, _, _, h, _⟩
        cases h
      · exact False.elim
    rw [hl, false_or]
    cases sessionId with
    | none =>
      simp [AdminSession.get]
    | some k1 =>
      rw [get_snd]
      by_cases hk1 : k1 = ""
      · rw [if_pos hk1]
        constructor
        · intro h
          refine ⟨h, fun hkk => ?_⟩
          injection hkk with hkk
          rw [← hkk, hk1, hkeys] at h
          cases h
        · exact fun h => h.1
      · rw [if_neg hk1]
        by_cases hkk : k1 = k
        · subst hkk
          cases hlk : AdminSession.lookup m k1 with
          | none => simp [hlk]
          | some s0 =>
            simp only
            by_cases hexp : (now : Int) - (s0.loginTime : Int) > 86400000
            · rw [if_pos hexp, lookup_mapDelete_self]
              constructor
              · intro h
                cases h
              · rintro ⟨h1, h⟩
                injection h1 with h1
                subst h1
                have := h trivial
                omega
            · rw [if_neg hexp]
              constructor
              · intro h1
                have h2 := hlk.symm.trans h1
                refine ⟨h2, fun _ => ?_⟩
                injection h2 with h2
                subst h2
                omega
              · intro h
                rw [hlk]
                exact h.1
        · have hne : k ≠ k1 := Ne.symm hkk
          have hsame : AdminSession.lookup
              (match AdminSession.lookup m k1 with
                | none => m
                | some session =>
                  if (now : Int) - (session.loginTime : Int) > 86400000 then
                    AdminSession.mapDelete m k1
                  else m) k = AdminSession.lookup m k := by
            cases AdminSession.lookup m k1 with
            | none => rfl
            | some s0 =>
              simp only
              split
              · exact lookup_mapDelete_ne m k k1 hne
              · rfl
          rw [hsame]
          constructor
          · intro h
            refine ⟨h, fun h1 => ?_⟩
            injection h1 with h1
            exact absurd h1 hkk
          · exact fun h => h.1
  | delete sessionId =>
    simp only [AdminSession.step, AdminSession.keeps]
    have hl : (∃ random t adminData, AdminSession.Call.delete sessionId =
        .create random t adminData ∧ random ++ toBase36 t = k ∧
        sess = AdminSessionData.mk adminData.id adminData.username adminData.role t) ↔ False := by
      constructor
      · rintro ⟨_, _, _, h, _⟩
        cases h
      · exact False.elim
    rw [hl, false_or]
    cases sessionId with
    | none => simp [AdminSession.delete]
    | some k1 =>
      simp only [AdminSession.delete]
      by_cases hk1 : k1 = ""
      · rw [if_pos hk1]
        constructor
        · intro h
          refine ⟨h, fun hkk => ?_⟩
          injection hkk with hkk
          rw [← hkk, hk1, hkeys] at h
          cases h
        · exact fun h => h.1
      · rw [if_neg hk1]
        by_cases hkk : k1 = k
        · subst hkk
          rw [lookup_mapDelete_self]
          constructor
          · intro h
            cases h
          · rintro ⟨_, h⟩
            exact absurd rfl h
        · rw [lookup_mapDelete_ne m k k1 (Ne.symm hkk)]
          constructor
          · intro h
            refine ⟨h, fun h1 => ?_⟩
            injection h1 with h1
            exact absurd h1 hkk
          · exact fun h => h.1

/-- No call stores a session under the empty id. -/
theorem lookup_step_empty (m : AdminSessions) (hkeys : AdminSession.lookup m "" = none)
    (c : AdminSession.Call) : AdminSession.lookup (AdminSession.step m c) "" = none := by
  cases h : AdminSession.lookup (AdminSession.step m c) "" with
  | none => rfl
  | some sess =>
    exfalso
    rcases (lookup_step m hkeys c "" sess).mp h with ⟨random, t, _, _, h1, _⟩ | ⟨h1, _⟩
    · exact sessionId_ne_empty random t h1
    · rw [hkeys] at h1
      cases h1

/-- The words of the claim on a history extended by one call. -/
theorem createdAndKept_append (calls : List AdminSession.Call) (c : AdminSession.Call)
    (k : String) (sess : AdminSessionData) :
    AdminSession.CreatedAndKept (calls ++ [c]) k sess ↔
      ((∃ random t adminData, c = .create random t adminData ∧ random ++ toBase36 t = k ∧
          sess = AdminSessionData.mk adminData.id adminData.username adminData.role t) ∨
        (AdminSession.CreatedAndKept calls k sess ∧ AdminSession.keeps k sess.loginTime c)) := by
  constructor
  · rintro ⟨before, after, random, t, adminData, hcalls, hk, hsess, hkeep⟩
    rcases List.eq_nil_or_concat after with hnil | ⟨after1, c1, hafter⟩
    · subst hnil
      have h1 := List.append_inj' hcalls rfl
      have h2 : c = .create random t adminData := by
        have := h1.2
        injection this with this
      exact Or.inl ⟨random, t, adminData, h2, hk, hsess⟩
    · rw [List.concat_eq_append] at hafter
      subst hafter
      have hcalls1 : calls ++ [c] =
          (before ++ AdminSession.Call.create random t adminData :: after1) ++ [c1] := by
        rw [hcalls]
        simp
      have h1 := List.append_inj' hcalls1 rfl
      have h2 : c = c1 := by
        have := h1.2
        injection this with this
      subst h2
      refine Or.inr ⟨⟨before, after1, random, t, adminData, h1.1, hk, hsess, ?_⟩, ?_⟩
      · intro c2 hc2
        exact hkeep c2 (List.mem_append_left _ hc2)
      · rw [hsess]
        exact hkeep c (List.mem_append_right _ (List.mem_singleton_self c))
  · rintro (⟨random, t, adminData, hc, hk, hsess⟩ | ⟨⟨before, after, random, t, adminData,
      hcalls, hk, hsess, hkeep⟩, hc⟩)
    · refine ⟨calls, [], random, t, adminData, by rw [hc], hk, hsess, ?_⟩
      intro c2 hc2
      cases hc2
    · refine ⟨before, after ++ [c], random, t, adminData, ?_, hk, hsess, ?_⟩
      · rw [hcalls]
        simp
      · intro c2 hc2
        rcases List.mem_append.mp hc2 with h | h
        · exact hkeep c2 h
        · rw [List.mem_singleton] at h
          rw [h]
          rw [hsess] at hc
          exact hc

theorem run_append (calls : List AdminSession.Call) (c : AdminSession.Call) :
    AdminSession.run (calls ++ [c]) = AdminSession.step (AdminSession.run calls) c := by
  unfold AdminSession.run
  rw [List.foldl_append]
  rfl

/-- The map after a history of calls holds under `k` exactly the session that was
created under `k` and kept since; it holds nothing under the empty id. -/
theorem lookup_run (calls : List AdminSession.Call) :
    AdminSession.lookup (AdminSession.run calls) "" = none ∧
    ∀ (k : String) (sess : AdminSessionData),
      AdminSession.lookup (AdminSession.run calls) k = some sess ↔
        AdminSession.CreatedAndKept calls k sess := by
  induction calls using List.reverseRecOn with
  | nil =>
    refine ⟨rfl, fun k sess => ⟨fun h => ?_, ?_⟩⟩
    · cases h
    · rintro ⟨before, after, random, t, adminData, h, _⟩
      have := congrArg List.length h
      simp at this
      omega
  | append_singleton calls c ih =>
    rw [run_append]
    refine ⟨lookup_step_empty _ ih.1 c, fun k sess => ?_⟩
    rw [lookup_step _ ih.1, createdAndKept_append, ih.2]

/-- Calls that create no session under `k` leave `k` without session. -/
theorem lookup_foldl_none (later : List AdminSession.Call) :
    ∀ (m : AdminSessions) (k : String), AdminSession.lookup m k = none →
      (∀ c ∈ later, ∀ random t adminData,
        c = AdminSession.Call.create random t adminData → random ++ toBase36 t ≠ k) →
      AdminSession.lookup (later.foldl AdminSession.step m) k = none := by
  induction later with
  | nil => intro m k h _; exact h
  | cons c rest ih =>
    intro m k h hno
    rw [List.foldl_cons]
    refine ih _ k ?_ (fun c1 hc1 => hno c1 (List.mem_cons_of_mem c hc1))
    cases c with
    | create random t adminData =>
      have hne := hno _ (List.mem_cons_self _ _) random t adminData rfl
      simp only [AdminSession.step, AdminSession.create]
      rw [lookup_mapSet_ne _ _ _ _ (Ne.symm hne)]
      exact h
    | get sessionId now => exact lookup_get_none m k sessionId now h
    | delete sessionId => exact lookup_delete_none m k sessionId h

/-- C25: after any history of `create`, `get` and `delete` calls on the session
store, a `get` of `k` at the instant `now` returns the session `sess` if and only
if `sess` was created under `k`, no later call has deleted it, found it expired
or created another session under `k`, and `now - loginTime` is at most
86,400,000 ms; otherwise it returns `null`.  When the `get` finds the session
expired it removes it, and after any later calls that create no session under
`k` every `get` of `k` returns `null`.  A `get` without id returns `null`. -/
theorem c25_admin_session_get (calls : List AdminSession.Call) (k : String) (now : Nat) :
    (∀ sess, (AdminSession.get (AdminSession.run calls) (some k) now).1 = some sess ↔
      (AdminSession.CreatedAndKept calls k sess ∧
        (now : Int) - (sess.loginTime : Int) ≤ 86400000)) ∧
    ((¬ ∃ sess, AdminSession.CreatedAndKept calls k sess ∧
        (now : Int) - (sess.loginTime : Int) ≤ 86400000) →
      (AdminSession.get (AdminSession.run calls) (some k) now).1 = none) ∧
    (∀ sess, AdminSession.CreatedAndKept calls k sess →
      (now : Int) - (sess.loginTime : Int) > 86400000 →
      AdminSession.lookup (AdminSession.get (AdminSession.run calls) (some k) now).2 k = none ∧
      ∀ (later : List AdminSession.Call) (now1 : Nat),
        (∀ c ∈ later, ∀ random t adminData,
          c = AdminSession.Call.create random t adminData → random ++ toBase36 t ≠ k) →
        (AdminSession.get (AdminSession.run (calls ++ .get (some k) now :: later))
          (some k) now1).1 = none) ∧
    (AdminSession.get (AdminSession.run calls) none now).1 = none := by
  obtain ⟨hempty, hrun⟩ := lookup_run calls
  have key : ∀ sess, (AdminSession.get (AdminSession.run calls) (some k) now).1 = some sess ↔
      (AdminSession.CreatedAndKept calls k sess ∧
        (now : Int) - (sess.loginTime : Int) ≤ 86400000) := by
    intro sess
    rw [← hrun]
    by_cases hk : k = ""
    · subst hk
      simp [AdminSession.get, hempty]
    · cases hl : AdminSession.lookup (AdminSession.run calls) k with
      | none => simp [AdminSession.get, hk, hl]
      | some s0 =>
        by_cases hexp : (now : Int) - (s0.loginTime : Int) > 24 * 60 * 60 * 1000
        · simp only [AdminSession.get, hk, hl, if_false, hexp, if_true, Option.some.injEq]
          constructor
          · intro h
            cases h
          · rintro ⟨rfl, hle⟩
            omega
        · simp only [AdminSession.get, hk, hl, if_false, hexp, Option.some.injEq]
          constructor
          · rintro rfl
            exact ⟨rfl, by omega⟩
          · rintro ⟨rfl, _⟩
            rfl
  refine ⟨key, ?_, ?_, rfl⟩
  · intro hno
    cases hg : (AdminSession.get (AdminSession.run calls) (some k) now).1 with
    | none => rfl
    | some sess => exact absurd ⟨sess, (key sess).mp hg⟩ hno
  · intro sess hkept hexp
    have hl := (hrun k sess).mpr hkept
    have hk : k ≠ "" := by
      intro hk
      rw [hk, hempty] at hl
      cases hl
    have hm1 : (AdminSession.get (AdminSession.run calls) (some k) now).2 =
        AdminSession.mapDelete (AdminSession.run calls) k := by
      rw [get_snd, if_neg hk, hl]
      simp only
      rw [if_pos hexp]
    rw [hm1]
    refine ⟨lookup_mapDelete_self _ k, ?_⟩
    intro later now1 hno
    apply get_of_lookup_none
    have hsplit : AdminSession.run (calls ++ .get (some k) now :: later) =
        later.foldl AdminSession.step
          (AdminSession.get (AdminSession.run calls) (some k) now).2 := by
      unfold AdminSession.run
      rw [List.foldl_append, List.foldl_cons]
      rfl
    rw [hsplit, hm1]
    exact lookup_foldl_none later _ k (lookup_mapDelete_self _ k) hno

/-- C25 at an explicit input: after the two logins and the logout of
`twoLoginCalls`, the first session, created at the instant 1000 under "rrs" and
kept since, is returned at the instant 86,401,000 and is not returned, and is
removed, at the instant 86,401,001; the second session, which was deleted, is
not returned. -/
theorem c25_admin_session_get_witness :
    (AdminSession.get (AdminSession.run twoLoginCalls) (some "rrs") 86401000).1 =
      some (AdminSessionData.mk 1 "root" "ADMIN" 1000) ∧
    AdminSession.get (AdminSession.run twoLoginCalls) (some "rrs") 86401001 = (none, []) ∧
    (AdminSession.get (AdminSession.run twoLoginCalls) (some "q1jk") 3000).1 = none ∧
    (AdminSession.CreatedAndKept twoLoginCalls "rrs" (AdminSessionData.mk 1 "root" "ADMIN" 1000) ∧
      ((86401000 : Nat) : Int) -
        ((AdminSessionData.mk 1 "root" "ADMIN" 1000).loginTime : Int) ≤ 86400000) :=
  ⟨by decide, by decide, by decide,
    ((c25_admin_session_get twoLoginCalls "rrs" 86401000).1
      (AdminSessionData.mk 1 "root" "ADMIN" 1000)).mp (by decide)⟩

/-! ## C26 : the admin routes without session check -/

/-- C26 (the code at the failing input): with an empty session map and no cookie,
the routes under `admin123321` answer 200: the dashboard and the user listing
are served, `PATCH` deactivates account 2 and `DELETE` removes account 2 of
`directStore`; the sibling route `/api/admin/dashboard` answers 401 to the same
request. -/
theorem c26_admin_routes_unguarded :
    AdminSession.verify [] none 100 = (none, []) ∧
    (AdminDashboard.GET directStore [] none 100).1.status = 401 ∧
    (Admin123321Dashboard.GET directStore [] none 100).status = 200 ∧
    (Admin123321Users.GET directStore [] none 100 1 20 none).status = 200 ∧
    (Admin123321Users.PATCH directStore [] none 100 (.id 2) (some false)).1.status = 200 ∧
    (userQueries.findById
      (Admin123321Users.PATCH directStore [] none 100 (.id 2) (some false)).2 2).map
        (fun u => u.is_active) = some false ∧
    (Admin123321Users.DELETE directStore [] none 100 (.id 2)).1.status = 200 ∧
    (userQueries.findById directStore 2).isSome = true ∧
    userQueries.findById (Admin123321Users.DELETE directStore [] none 100 (.id 2)).2 2 = none := by
  decide

/-! ## C27 : registration -/

theorem userCreate_ok {s s1 : Store} {id : Int} {now : Nat}
    {name email phone password : Option String} {role : String} {isActive : Bool} {u : User}
    (h : userQueries.create s id now name email phone password role isActive = .ok (u, s1)) :
    u.role = role ∧ u.is_active = isActive ∧ (role = "USER" ∨ role = "AGENT") ∧
      s1 = { s with users := s.users ++ [u] } := by
  unfold userQueries.create at h
  split at h
  · split at h
    · cases h
    · split at h
      · cases h
      · rename_i hchk
        injection h with h
        injection h with hu hs
        subst hu
        refine ⟨rfl, rfl, ?_, hs.symm⟩
        have hchk1 : ¬ role = "USER" → role = "AGENT" := by simpa using hchk
        by_cases h1 : role = "USER"
        · exact Or.inl h1
        · exact Or.inr (hchk1 h1)
  · cases h

/-- C27: after a successful registration the stored role is the upper-cased
requested role (USER when the role is omitted) and is USER or AGENT; the account
is inactive when the requested role is AGENT in any letter case, and active when
the requested role is USER or is omitted. -/
theorem c27_registration_activation (s s1 : Store) (id : Int) (now : Nat)
    (name email phone : JsValue) (hashedPassword : String) (role : Option String) (u : User)
    (h : Register.POST s id now name email phone hashedPassword role = (.ok u, s1)) :
    u ∈ s1.users ∧
    u.role = jsToUpperCase (role.getD "USER") ∧
    (∀ r, role = some r → jsToUpperCase r = "AGENT" → u.is_active = false ∧ u.role = "AGENT") ∧
    ((role = none ∨ role = some "USER") → u.is_active = true ∧ u.role = "USER") := by
  unfold Register.POST at h
  simp only at h
  split at h
  · cases h
  · split at h
    · cases h
    · rename_i u0 s2 hc
      injection h with hu hs
      injection hu with hu
      subst hu
      subst hs
      obtain ⟨hrole, hact, _, hs2⟩ := userCreate_ok hc
      refine ⟨?_, hrole, ?_, ?_⟩
      · rw [hs2]
        simp
      · intro r hr hup
        have hget : jsToUpperCase (role.getD "USER") = "AGENT" := by
          rw [hr]
          exact hup
        refine ⟨?_, hrole.trans hget⟩
        rw [hact]
        simp [hget]
      · intro hr
        have hget : jsToUpperCase (role.getD "USER") = "USER" := by
          rcases hr with hr | hr <;> rw [hr] <;> decide
        refine ⟨?_, hrole.trans hget⟩
        rw [hact]
        simp [hget]

/-- C27 at explicit inputs: the registration of "aGeNt" stores an inactive AGENT
account; a registration without role stores an active USER account, whatever
the password that was hashed. -/
theorem c27_registration_activation_witness :
    Register.POST (Store.mk [] [] [] [] []) 1 5 (.str "n") (.str "e") .absent "digest"
        (some "aGeNt") =
      (.ok (User.mk 1 "n" "e" none "AGENT" false 5),
        Store.mk [User.mk 1 "n" "e" none "AGENT" false 5] [] [] [] []) ∧
    Register.POST (Store.mk [] [] [] [] []) 1 5 (.str "n") (.str "e") (.str "0123") "digest"
        none =
      (.ok (User.mk 1 "n" "e" (some "0123") "USER" true 5),
        Store.mk [User.mk 1 "n" "e" (some "0123") "USER" true 5] [] [] [] []) ∧
    (∀ r, some "aGeNt" = some r → jsToUpperCase r = "AGENT" →
      (User.mk 1 "n" "e" none "AGENT" false 5).is_active = false ∧
      (User.mk 1 "n" "e" none "AGENT" false 5).role = "AGENT") :=
  ⟨by decide, by decide,
    (c27_registration_activation (Store.mk [] [] [] [] [])
      (Store.mk [User.mk 1 "n" "e" none "AGENT" false 5] [] [] [] []) 1 5 (.str "n") (.str "e")
      .absent "digest" (some "aGeNt") (User.mk 1 "n" "e" none "AGENT" false 5)
      (by decide)).2.2.1⟩

/-! ## C28 : deleting an account -/

/-- C28: after `deleteUser` returns the deleted row, no message has the account as
sender or receiver, no private note has it as author or related user, no
membership row has it as user, no group has it as `created_by`, and no account
row with that id is left. -/
theorem c28_delete_user_leaves_no_reference (s : Store) (now : Nat) (u : Int) (row : User)
    (h : (adminQueries.deleteUser s now u).1 = some row) :
    (∀ m ∈ (adminQueries.deleteUser s now u).2.messages,
      m.sender_id ≠ u ∧ m.receiver_id ≠ some u) ∧
    (∀ n ∈ (adminQueries.deleteUser s now u).2.private_notes,
      n.author_id ≠ u ∧ n.related_user_id ≠ some u) ∧
    (∀ gm ∈ (adminQueries.deleteUser s now u).2.group_members, gm.user_id ≠ u) ∧
    (∀ g ∈ (adminQueries.deleteUser s now u).2.groups, g.created_by ≠ some u) ∧
    (∀ x ∈ (adminQueries.deleteUser s now u).2.users, x.id ≠ u) := by
  have hany : s.users.any (fun x => decide (x.id = u)) = true := by
    simp only [adminQueries.deleteUser, userQueries.findById] at h
    have hx := List.find?_some h
    exact List.any_eq_true.mpr ⟨row, List.mem_of_find?_eq_some h, hx⟩
  simp only [adminQueries.deleteUser, adminQueries.deleteUserRow, hany, if_true]
  refine ⟨?_, ?_, ?_, ?_, ?_⟩
  · intro m hm
    simp only [List.mem_filter, Bool.and_eq_true, Bool.not_eq_true', decide_eq_false_iff_not]
      at hm
    exact hm.2
  · intro n hn
    simp only [List.mem_filter, Bool.and_eq_true, Bool.not_eq_true', decide_eq_false_iff_not]
      at hn
    exact hn.2
  · intro gm hgm
    simp only [List.mem_filter, Bool.not_eq_true', decide_eq_false_iff_not] at hgm
    exact hgm.2
  · intro g hg
    simp only [List.mem_map] at hg
    obtain ⟨g0, _, rfl⟩ := hg
    by_cases hc : g0.created_by = some u
    · rw [if_pos hc]
      simp
    · rw [if_neg hc]
      exact hc
  · intro x hx
    simp only [List.mem_filter, Bool.not_eq_true', decide_eq_false_iff_not] at hx
    exact hx.2

/-- C28 at an explicit input: account 1 of `directStore`, which sent and received
messages and created group 1, is deleted. -/
theorem c28_delete_user_leaves_no_reference_witness :
    (adminQueries.deleteUser directStore 100 1).1 = some (account 1 "AGENT" true) ∧
    (adminQueries.deleteUser directStore 100 1).2 =
      Store.mk [account 2 "USER" true, account 3 "USER" true] [Group.mk 1 "g" none none 0 100]
        [GroupMember.mk 1 2 1 0] [Message.mk 5 "to the group" 2 (some 1) none 50 50] [] ∧
    (∀ m ∈ (adminQueries.deleteUser directStore 100 1).2.messages,
      m.sender_id ≠ 1 ∧ m.receiver_id ≠ some 1) :=
  ⟨by decide, by decide,
    (c28_delete_user_leaves_no_reference directStore 100 1 (account 1 "AGENT" true)
      (by decide)).1⟩

/-! ## C30 : an agent in its own conversation list -/

/-- C30 (the code at the failing input): AGENT 1 sends a direct message to itself,
which the send stores; the conversation list of AGENT 1 in the resulting store
contains an entry whose user id is 1. -/
theorem c30_self_thread_listed :
    ∃ (body : DirectMessages.PostBody) (s1 : Store),
      DirectMessages.POST agentUserStore 7 5 (some (Session.mk 1 "AGENT")) 1
        (.str "note to self") = (.ok body, s1) ∧
      ∃ entries, Conversations.GET s1 (some (Session.mk 1 "AGENT")) = .ok entries ∧
        ∃ e ∈ entries, e.user.id = (Session.mk 1 "AGENT").id :=
  ⟨_, _, rfl, _, rfl, by decide⟩

/-! ## C23, C24 : the conversation list -/

theorem users_eq_of_id {s : Store} (hkey : (s.users.map (fun u => u.id)).Nodup)
    {u1 u2 : User} (h1 : u1 ∈ s.users) (h2 : u2 ∈ s.users) (h : u1.id = u2.id) : u1 = u2 :=
  List.inj_on_of_nodup_map hkey h1 h2 h

/-- The join condition of the conversations query, in terms of the two parties. -/
theorem otherOf_iff (a p : Int) (m : Message) :
    ((m.sender_id = a ∨ m.receiver_id = some a) ∧ m.group_id = none ∧
        some p = Conversations.otherOf a m) ↔
      (m.group_id = none ∧
        ((m.sender_id = a ∧ m.receiver_id = some p) ∨
         (m.sender_id = p ∧ m.receiver_id = some a))) := by
  unfold Conversations.otherOf
  by_cases hs : m.sender_id = a
  · rw [if_pos hs]
    constructor
    · rintro ⟨_, hg, ho⟩
      exact ⟨hg, Or.inl ⟨hs, ho.symm⟩⟩
    · rintro ⟨hg, ⟨_, hr⟩ | ⟨hp, hr⟩⟩
      · exact ⟨Or.inl hs, hg, hr.symm⟩
      · refine ⟨Or.inl hs, hg, ?_⟩
        rw [hr, ← hs, hp]
  · rw [if_neg hs]
    constructor
    · rintro ⟨hsr, hg, ho⟩
      rcases hsr with hsr | hsr
      · exact absurd hsr hs
      · exact ⟨hg, Or.inr ⟨(Option.some.inj ho).symm, hsr⟩⟩
    · rintro ⟨hg, ⟨h1, _⟩ | ⟨hp, hr⟩⟩
      · exact absurd h1 hs
      · exact ⟨Or.inr hr, hg, by rw [hp]⟩

theorem mem_query {s : Store} {a : Int} {r : ConversationRow} :
    r ∈ Conversations.query s a ↔
      ∃ u ∈ s.users, Conversations.hasHistory s a u.id ∧ r = Conversations.rowOf s a u := by
  unfold Conversations.query Conversations.hasHistory
  rw [(List.perm_insertionSort _ _).mem_iff, List.mem_dedup]
  simp only [List.mem_flatMap, List.mem_filter, List.mem_map, decide_eq_true_eq,
    Bool.and_eq_true, Bool.or_eq_true]
  constructor
  · rintro ⟨m, ⟨hm, hsr, hg⟩, u, ⟨hu, ho⟩, rfl⟩
    exact ⟨u, hu, ⟨m, hm, (otherOf_iff a u.id m).mp ⟨hsr, hg, ho⟩⟩, rfl⟩
  · rintro ⟨u, hu, ⟨m, hm, hh⟩, rfl⟩
    obtain ⟨hsr, hg, ho⟩ := (otherOf_iff a u.id m).mpr hh
    exact ⟨m, ⟨hm, hsr, hg⟩, u, ⟨hu, ho⟩, rfl⟩

theorem query_ids_nodup {s : Store} (hkey : (s.users.map (fun u => u.id)).Nodup) (a : Int) :
    ((Conversations.query s a).map (fun c => c.other_user_id)).Nodup := by
  have hnd : (Conversations.query s a).Nodup := by
    unfold Conversations.query
    rw [(List.perm_insertionSort _ _).nodup_iff]
    exact List.nodup_dedup _
  refine List.Nodup.map_on ?_ hnd
  intro r1 h1 r2 h2 hid
  obtain ⟨u1, hu1, _, rfl⟩ := mem_query.mp h1
  obtain ⟨u2, hu2, _, rfl⟩ := mem_query.mp h2
  have : u1 = u2 := users_eq_of_id hkey hu1 hu2 hid
  rw [this]

theorem mem_query_ids {s : Store} {a p : Int} :
    p ∈ (Conversations.query s a).map (fun c => c.other_user_id) ↔
      (Conversations.hasHistory s a p ∧ ∃ u ∈ s.users, u.id = p) := by
  rw [List.mem_map]
  constructor
  · rintro ⟨r, hr, rfl⟩
    obtain ⟨u, hu, hh, rfl⟩ := mem_query.mp hr
    exact ⟨hh, u, hu, rfl⟩
  · rintro ⟨hh, u, hu, rfl⟩
    exact ⟨_, mem_query.mpr ⟨u, hu, hh, rfl⟩, rfl⟩

theorem mem_eligible {s : Store} {ex : List Int} {ag : Bool} {u : User} :
    u ∈ Conversations.eligible s ex ag ↔
      (u ∈ s.users ∧ u.id ∉ ex ∧ u.is_active = true ∧ (ag = true → u.role = "AGENT")) := by
  unfold Conversations.eligible
  rw [(List.perm_insertionSort _ _).mem_iff, List.mem_filter]
  cases ag <;> simp [and_assoc]

theorem eligible_ids_nodup {s : Store} (hkey : (s.users.map (fun u => u.id)).Nodup)
    (ex : List Int) (ag : Bool) :
    ((Conversations.eligible s ex ag).map (fun u => u.id)).Nodup := by
  unfold Conversations.eligible
  refine ((List.perm_insertionSort _ _).map _).nodup_iff.mpr ?_
  exact hkey.sublist ((List.filter_sublist _).map _)

theorem mem_thread {s : Store} {a p : Int} {m : Message} :
    m ∈ Conversations.thread s a p ↔
      (m ∈ s.messages ∧ m.group_id = none ∧
        ((m.sender_id = a ∧ m.receiver_id = some p) ∨
         (m.sender_id = p ∧ m.receiver_id = some a))) := by
  unfold Conversations.thread
  rw [(List.perm_insertionSort _ _).mem_iff]
  simp only [List.mem_filter, Bool.and_eq_true, Bool.or_eq_true, decide_eq_true_eq]
  constructor
  · rintro ⟨hm, h, hg⟩
    refine ⟨hm, hg, ?_⟩
    rcases h with ⟨h1, h2⟩ | ⟨h1, h2⟩
    · exact Or.inl ⟨h1, h2⟩
    · exact Or.inr ⟨h2, h1⟩
  · rintro ⟨hm, hg, h⟩
    refine ⟨hm, ?_, hg⟩
    rcases h with ⟨h1, h2⟩ | ⟨h1, h2⟩
    · exact Or.inl ⟨h1, h2⟩
    · exact Or.inr ⟨h2, h1⟩

theorem thread_sorted (s : Store) (a p : Int) :
    List.Pairwise (fun x y : Message => y.created_at ≤ x.created_at)
      (Conversations.thread s a p) := by
  unfold Conversations.thread
  haveI : IsTotal Message (fun x y : Message => y.created_at ≤ x.created_at) :=
    ⟨fun x y => le_total _ _⟩
  haveI : IsTrans Message (fun x y : Message => y.created_at ≤ x.created_at) :=
    ⟨fun _ _ _ h1 h2 => le_trans h2 h1⟩
  exact List.sorted_insertionSort _ _

/-- The first row of the subqueries of a partner with history: a direct message
between the two accounts that no message of the thread is newer than. -/
theorem thread_head {s : Store} {a p : Int} (h : Conversations.hasHistory s a p) :
    ∃ m, (Conversations.thread s a p).head? = some m ∧
      m ∈ s.messages ∧ m.group_id = none ∧
      ((m.sender_id = a ∧ m.receiver_id = some p) ∨
       (m.sender_id = p ∧ m.receiver_id = some a)) ∧
      ∀ m1 ∈ s.messages, m1.group_id = none →
        ((m1.sender_id = a ∧ m1.receiver_id = some p) ∨
         (m1.sender_id = p ∧ m1.receiver_id = some a)) →
        m1.created_at ≤ m.created_at := by
  obtain ⟨m0, hm0, hg0, hp0⟩ := h
  have hmem0 : m0 ∈ Conversations.thread s a p := mem_thread.mpr ⟨hm0, hg0, hp0⟩
  have hsorted := thread_sorted s a p
  cases hth : Conversations.thread s a p with
  | nil =>
    rw [hth] at hmem0
    cases hmem0
  | cons m rest =>
    have hm : m ∈ Conversations.thread s a p := by
      rw [hth]
      exact List.mem_cons_self _ _
    obtain ⟨h1, h2, h3⟩ := mem_thread.mp hm
    refine ⟨m, rfl, h1, h2, h3, ?_⟩
    intro m1 hm1 hg1 hp1
    have hmem1 : m1 ∈ m :: rest := by
      rw [← hth]
      exact mem_thread.mpr ⟨hm1, hg1, hp1⟩
    rw [hth] at hsorted
    rcases List.mem_cons.mp hmem1 with rfl | hr
    · exact le_refl _
    · exact List.rel_of_pairwise_cons hsorted hr

theorem query_sorted (s : Store) (a : Int) :
    List.Pairwise
      (fun x y : ConversationRow =>
        Conversations.timeDesc x.last_message_time y.last_message_time = true)
      (Conversations.query s a) := by
  unfold Conversations.query
  haveI : IsTotal ConversationRow (fun x y : ConversationRow =>
      Conversations.timeDesc x.last_message_time y.last_message_time = true) :=
    ⟨fun x y => by
      rcases hx : x.last_message_time with _ | tx <;>
        rcases hy : y.last_message_time with _ | ty <;>
        simp [Conversations.timeDesc]
      exact le_total _ _⟩
  haveI : IsTrans ConversationRow (fun x y : ConversationRow =>
      Conversations.timeDesc x.last_message_time y.last_message_time = true) :=
    ⟨fun x y z => by
      rcases hx : x.last_message_time with _ | tx <;>
        rcases hy : y.last_message_time with _ | ty <;>
        rcases hz : z.last_message_time with _ | tz <;>
        simp [Conversations.timeDesc]
      exact fun h1 h2 => le_trans h2 h1⟩
  exact List.sorted_insertionSort _ _

theorem eligible_sorted (s : Store) (ex : List Int) (ag : Bool) :
    List.Pairwise (fun x y : User => x.name.data ≤ y.name.data)
      (Conversations.eligible s ex ag) := by
  unfold Conversations.eligible
  haveI : IsTotal User (fun x y : User => x.name.data ≤ y.name.data) :=
    ⟨fun x y => le_total _ _⟩
  haveI : IsTrans User (fun x y : User => x.name.data ≤ y.name.data) :=
    ⟨fun _ _ _ h1 h2 => le_trans h1 h2⟩
  exact List.sorted_insertionSort _ _

/-- The response of the conversation list, in terms of the two queries. -/
theorem conversationsGET_eq {s : Store} {sess : Session} {entries : List Conversations.Entry}
    (h : Conversations.GET s (some sess) = .ok entries) :
    entries = (Conversations.query s sess.id).map Conversations.formatRow ++
      (Conversations.eligible s
        (sess.id :: (Conversations.query s sess.id).map (fun c => c.other_user_id))
        (!decide (sess.role = "AGENT"))).map (fun u =>
          Conversations.Entry.mk (AccountView.mk u.id u.name u.role) none) := by
  unfold Conversations.GET at h
  simp only at h
  split at h
  · rename_i hr
    injection h with h
    rw [← h]
    simp [hr]
  · rename_i hr
    injection h with h
    rw [← h]
    simp [hr]

/-- A row of the conversations query is built from the most recent direct message
between the account and the partner. -/
theorem query_row_last {s : Store} {a : Int} {r : ConversationRow}
    (hr : r ∈ Conversations.query s a) :
    Conversations.hasHistory s a r.other_user_id ∧
    ∃ m ∈ s.messages, m.group_id = none ∧
      ((m.sender_id = a ∧ m.receiver_id = some r.other_user_id) ∨
       (m.sender_id = r.other_user_id ∧ m.receiver_id = some a)) ∧
      (∀ m1 ∈ s.messages, m1.group_id = none →
        ((m1.sender_id = a ∧ m1.receiver_id = some r.other_user_id) ∨
         (m1.sender_id = r.other_user_id ∧ m1.receiver_id = some a)) →
        m1.created_at ≤ m.created_at) ∧
      r.last_message_content = some m.content ∧
      r.last_message_time = some m.created_at := by
  obtain ⟨u, _, hh, rfl⟩ := mem_query.mp hr
  obtain ⟨m, hhead, hm, hg, hp, hmax⟩ := thread_head hh
  refine ⟨hh, m, hm, hg, hp, hmax, ?_, ?_⟩
  · simp [Conversations.rowOf, hhead]
  · simp [Conversations.rowOf, hhead]

/-- C24: the conversation list is the partners with history followed by the
partners without history; the partners with history are in descending order of
the time of their last message, which is the time of the most recent direct
message with that partner, and the partners without history are in ascending
order of name. -/
theorem c24_conversation_order (s : Store) (sess : Session)
    (entries : List Conversations.Entry)
    (h : Conversations.GET s (some sess) = .ok entries) :
    ∃ (hist : List ConversationRow) (rest : List User),
      entries = hist.map Conversations.formatRow ++
        rest.map (fun u => Conversations.Entry.mk (AccountView.mk u.id u.name u.role) none) ∧
      (∀ r ∈ hist, Conversations.hasHistory s sess.id r.other_user_id) ∧
      (∀ u ∈ rest, ¬ Conversations.hasHistory s sess.id u.id) ∧
      List.Pairwise (fun x y : ConversationRow =>
        ∃ tx ty, x.last_message_time = some tx ∧ y.last_message_time = some ty ∧ ty ≤ tx)
        hist ∧
      (∀ r ∈ hist, ∃ m ∈ s.messages, m.group_id = none ∧
        ((m.sender_id = sess.id ∧ m.receiver_id = some r.other_user_id) ∨
         (m.sender_id = r.other_user_id ∧ m.receiver_id = some sess.id)) ∧
        (∀ m1 ∈ s.messages, m1.group_id = none →
          ((m1.sender_id = sess.id ∧ m1.receiver_id = some r.other_user_id) ∨
           (m1.sender_id = r.other_user_id ∧ m1.receiver_id = some sess.id)) →
          m1.created_at ≤ m.created_at) ∧
        r.last_message_time = some m.created_at) ∧
      List.Pairwise (fun x y : User => x.name.data ≤ y.name.data) rest := by
  refine ⟨Conversations.query s sess.id, _, conversationsGET_eq h, ?_, ?_, ?_, ?_,
    eligible_sorted s _ _⟩
  · intro r hr
    exact (query_row_last hr).1
  · intro u hu hh
    obtain ⟨hmem, hnot, _, _⟩ := mem_eligible.mp hu
    apply hnot
    exact List.mem_cons_of_mem _ (mem_query_ids.mpr ⟨hh, u, hmem, rfl⟩)
  · refine List.Pairwise.imp_of_mem ?_ (query_sorted s sess.id)
    intro x y hx hy hxy
    obtain ⟨_, mx, _, _, _, _, _, htx⟩ := query_row_last hx
    obtain ⟨_, my, _, _, _, _, _, hty⟩ := query_row_last hy
    refine ⟨mx.created_at, my.created_at, htx, hty, ?_⟩
    rw [htx, hty] at hxy
    simpa [Conversations.timeDesc] using hxy
  · intro r hr
    obtain ⟨_, m, hm, hg, hp, hmax, _, ht⟩ := query_row_last hr
    exact ⟨m, hm, hg, hp, hmax, ht⟩

/-- C24 at an explicit input: the conversation list of AGENT 1 in `inboxStore` is
amy (last message at 40), bob (last message at 30), then abe and carl. -/
theorem c24_conversation_order_witness :
    ∃ entries, Conversations.GET inboxStore (some (Session.mk 1 "AGENT")) = .ok entries ∧
      entries.map (fun e => e.user.name) = ["amy", "bob", "abe", "carl"] ∧
      ∃ (hist : List ConversationRow) (rest : List User),
        entries = hist.map Conversations.formatRow ++
          rest.map (fun u =>
            Conversations.Entry.mk (AccountView.mk u.id u.name u.role) none) ∧
        (∀ r ∈ hist,
          Conversations.hasHistory inboxStore (Session.mk 1 "AGENT").id r.other_user_id) ∧
        (∀ u ∈ rest, ¬ Conversations.hasHistory inboxStore (Session.mk 1 "AGENT").id u.id) ∧
        List.Pairwise (fun x y : ConversationRow =>
          ∃ tx ty, x.last_message_time = some tx ∧ y.last_message_time = some ty ∧ ty ≤ tx)
          hist ∧
        (∀ r ∈ hist, ∃ m ∈ inboxStore.messages, m.group_id = none ∧
          ((m.sender_id = (Session.mk 1 "AGENT").id ∧ m.receiver_id = some r.other_user_id) ∨
           (m.sender_id = r.other_user_id ∧
             m.receiver_id = some (Session.mk 1 "AGENT").id)) ∧
          (∀ m1 ∈ inboxStore.messages, m1.group_id = none →
            ((m1.sender_id = (Session.mk 1 "AGENT").id ∧
                m1.receiver_id = some r.other_user_id) ∨
             (m1.sender_id = r.other_user_id ∧
                m1.receiver_id = some (Session.mk 1 "AGENT").id)) →
            m1.created_at ≤ m.created_at) ∧
          r.last_message_time = some m.created_at) ∧
        List.Pairwise (fun x y : User => x.name.data ≤ y.name.data) rest :=
  ⟨_, rfl, by decide,
    c24_conversation_order inboxStore (Session.mk 1 "AGENT") _ rfl⟩

/-- The direct send keeps direct messages non-empty: the row it appends has the
trimmed, non-empty content. -/
theorem directPOST_content_nonempty (s : Store) (id : Int) (now : Nat)
    (session : Option Session) (userId : Int) (content : JsValue)
    (h : ∀ m ∈ s.messages, m.group_id = none → m.content ≠ "") :
    ∀ m ∈ (DirectMessages.POST s id now session userId content).2.messages,
      m.group_id = none → m.content ≠ "" := by
  cases session with
  | none => exact h
  | some sess =>
    cases content with
    | absent => exact h
    | other truthy text => cases truthy <;> exact h
    | str c =>
      rw [directPOST_str]
      split
      · exact h
      · rename_i hlen
        split
        · exact h
        · split
          · exact h
          · split
            · exact h
            · split
              · exact h
              · split
                · exact h
                · intro m hm hg
                  simp only [List.mem_append, List.mem_singleton] at hm
                  rcases hm with hm | rfl
                  · exact h m hm hg
                  · exact fun hh => hlen ((string_eq_empty_iff _).mp hh)

/-- C23: with unique account ids, no partner id appears twice in the conversation
list, and an id is listed exactly when it is an account with which the actor has
a direct message, or an active account other than the actor without such a
message (any such account for an AGENT actor, AGENT accounts only otherwise).
An entry with history carries as `lastMessage` the content and time of a most
recent direct message with that partner (the content being non-empty, as the
send guarantees); an entry without history has no `lastMessage`. -/
theorem c23_conversation_partners (s : Store) (sess : Session)
    (entries : List Conversations.Entry)
    (hkey : (s.users.map (fun u => u.id)).Nodup)
    (h : Conversations.GET s (some sess) = .ok entries) :
    (entries.map (fun e => e.user.id)).Nodup ∧
    (∀ p, p ∈ entries.map (fun e => e.user.id) ↔
      ((Conversations.hasHistory s sess.id p ∧ ∃ u ∈ s.users, u.id = p) ∨
       (¬ Conversations.hasHistory s sess.id p ∧ p ≠ sess.id ∧
          ∃ u ∈ s.users, u.id = p ∧ u.is_active = true ∧
            (sess.role = "AGENT" ∨ u.role = "AGENT")))) ∧
    (∀ e ∈ entries, Conversations.hasHistory s sess.id e.user.id →
      ∃ m ∈ s.messages, m.group_id = none ∧
        ((m.sender_id = sess.id ∧ m.receiver_id = some e.user.id) ∨
         (m.sender_id = e.user.id ∧ m.receiver_id = some sess.id)) ∧
        (∀ m1 ∈ s.messages, m1.group_id = none →
          ((m1.sender_id = sess.id ∧ m1.receiver_id = some e.user.id) ∨
           (m1.sender_id = e.user.id ∧ m1.receiver_id = some sess.id)) →
          m1.created_at ≤ m.created_at) ∧
        (m.content ≠ "" →
          e.lastMessage = some (Conversations.LastMessage.mk m.content (some m.created_at)))) ∧
    (∀ e ∈ entries, ¬ Conversations.hasHistory s sess.id e.user.id → e.lastMessage = none) := by
  have heq := conversationsGET_eq h
  have hids : entries.map (fun e => e.user.id) =
      (Conversations.query s sess.id).map (fun c => c.other_user_id) ++
        (Conversations.eligible s
          (sess.id :: (Conversations.query s sess.id).map (fun c => c.other_user_id))
          (!decide (sess.role = "AGENT"))).map (fun u => u.id) := by
    rw [heq, List.map_append, List.map_map, List.map_map]
    rfl
  have hel : ∀ u : User, u ∈ Conversations.eligible s
        (sess.id :: (Conversations.query s sess.id).map (fun c => c.other_user_id))
        (!decide (sess.role = "AGENT")) ↔
      (u ∈ s.users ∧ ¬ Conversations.hasHistory s sess.id u.id ∧ u.id ≠ sess.id ∧
        u.is_active = true ∧ (sess.role = "AGENT" ∨ u.role = "AGENT")) := by
    intro u
    rw [mem_eligible, List.mem_cons, mem_query_ids]
    constructor
    · rintro ⟨hu, hnot, hact, hag⟩
      refine ⟨hu, fun hh => hnot (Or.inr ⟨hh, u, hu, rfl⟩), fun hh => hnot (Or.inl hh), hact,
        ?_⟩
      by_cases hr : sess.role = "AGENT"
      · exact Or.inl hr
      · exact Or.inr (hag (by simp [hr]))
    · rintro ⟨hu, hnh, hne, hact, hag⟩
      refine ⟨hu, ?_, hact, ?_⟩
      · rintro (hh | ⟨hh, _⟩)
        · exact hne hh
        · exact hnh hh
      · intro hb
        rcases hag with hr | hr
        · simp [hr] at hb
        · exact hr
  refine ⟨?_, ?_, ?_, ?_⟩
  · rw [hids, List.nodup_append]
    refine ⟨query_ids_nodup hkey _, eligible_ids_nodup hkey _ _, ?_⟩
    intro p hp1 hp2
    rw [List.mem_map] at hp2
    obtain ⟨u, hu, rfl⟩ := hp2
    exact ((hel u).mp hu).2.1 (mem_query_ids.mp hp1).1
  · intro p
    rw [hids, List.mem_append, mem_query_ids, List.mem_map]
    constructor
    · rintro (hq | ⟨u, hu, rfl⟩)
      · exact Or.inl hq
      · obtain ⟨hmem, hnh, hne, hact, hag⟩ := (hel u).mp hu
        exact Or.inr ⟨hnh, hne, u, hmem, rfl, hact, hag⟩
    · rintro (hq | ⟨hnh, hne, u, hmem, rfl, hact, hag⟩)
      · exact Or.inl hq
      · exact Or.inr ⟨u, (hel u).mpr ⟨hmem, hnh, hne, hact, hag⟩, rfl⟩
  · intro e he hh
    rw [heq, List.mem_append, List.mem_map, List.mem_map] at he
    rcases he with ⟨r, hr, rfl⟩ | ⟨u, hu, rfl⟩
    · obtain ⟨_, m, hm, hg, hp, hmax, hc, ht⟩ := query_row_last hr
      refine ⟨m, hm, hg, hp, hmax, ?_⟩
      intro hne
      simp [Conversations.formatRow, hc, ht, hne]
    · exact absurd hh ((hel u).mp hu).2.1
  · intro e he hnh
    rw [heq, List.mem_append, List.mem_map, List.mem_map] at he
    rcases he with ⟨r, hr, rfl⟩ | ⟨u, hu, rfl⟩
    · exact absurd (query_row_last hr).1 hnh
    · rfl

/-- C23 at an explicit input: the conversation list of USER 2 in `inboxStore` is
the thread with agent 1 and the agent 4 without history. -/
theorem c23_conversation_partners_witness :
    (inboxStore.users.map (fun u => u.id)).Nodup ∧
    ∃ entries, Conversations.GET inboxStore (some (Session.mk 2 "USER")) = .ok entries ∧
      entries =
        [Conversations.Entry.mk (AccountView.mk 1 "zed" "AGENT")
          (some (Conversations.LastMessage.mk "welcome" (some 30))),
         Conversations.Entry.mk (AccountView.mk 4 "carl" "AGENT") none] ∧
      (entries.map (fun e => e.user.id)).Nodup ∧
      (∀ p, p ∈ entries.map (fun e => e.user.id) ↔
        ((Conversations.hasHistory inboxStore (Session.mk 2 "USER").id p ∧
            ∃ u ∈ inboxStore.users, u.id = p) ∨
         (¬ Conversations.hasHistory inboxStore (Session.mk 2 "USER").id p ∧
            p ≠ (Session.mk 2 "USER").id ∧
            ∃ u ∈ inboxStore.users, u.id = p ∧ u.is_active = true ∧
              ((Session.mk 2 "USER").role = "AGENT" ∨ u.role = "AGENT")))) :=
  ⟨by decide, _, rfl, by decide,
    (c23_conversation_partners inboxStore (Session.mk 2 "USER") _ (by decide) rfl).1,
    (c23_conversation_partners inboxStore (Session.mk 2 "USER") _ (by decide) rfl).2.1⟩

end ChatApp
